import Mathlib

/-!
# FinalProject renderer: camera state machine and two-pass frame

A shallow embedding of `FinalProject/FinalProject/Main.cpp`.

* C++ `float`/`double` values are idealised as elements of a linearly ordered
  field `F` (the rationals for evaluation, the reals for the trigonometric
  facts); rounding, infinities and NaN are not modelled.  The two claims about
  the very first cursor event turn on what this leaves out, so for them the
  conversion to `float` (`toFloat`), `mouse_callback` with its conversions
  (`mouse_callback_float`) and the scalar functions on `float` values
  (`float32Math`) are modelled as well.
* The C library / GLM scalar functions (`cos`, `sin`, `tan`, `sqrt`,
  `glm::radians`) are not part of the repository; they are taken as a
  parameter `MathLib F`, and `realMath` is their meaning over the reals.
* The GLM vector and matrix helpers (`normalize`, `cross`, `lookAt`, `ortho`,
  `perspective`, `translate`, `scale`, `rotate`) follow GLM's definitions
  (column-major matrices, right-handed, depth range -1..1).
* The process globals (`cameraPos`, `yaw`, ...) are the fields of `Globals`
  and every function that touches them becomes a state transformer.
* The OpenGL calls of one loop iteration are a list of `GLCall`s, given
  meaning by the small state machine `GLState.step`.
* The loop as a whole is `runLoop`, one `FrameInput` per iteration; the image
  loading and the framebuffer set-up of start-up are small state machines of
  their own (`loadImages`, `afterFramebufferSetup`).
-/

namespace FinalProject

/-! ## Vectors and matrices (GLM) -/

/-- Three floats: `glm::vec3`. -/
structure Vec3 (F : Type) where
  x : F
  y : F
  z : F
deriving DecidableEq, Repr

/-- Four floats: `glm::vec4`. -/
structure Vec4 (F : Type) where
  x : F
  y : F
  z : F
  w : F
deriving DecidableEq, Repr

/-- A 3x3 matrix stored by columns: `glm::mat3`. -/
structure Mat3 (F : Type) where
  c0 : Vec3 F
  c1 : Vec3 F
  c2 : Vec3 F
deriving DecidableEq, Repr

/-- A 4x4 matrix stored by columns, `m[i]` being column `i`: `glm::mat4`. -/
structure Mat4 (F : Type) where
  c0 : Vec4 F
  c1 : Vec4 F
  c2 : Vec4 F
  c3 : Vec4 F
deriving DecidableEq, Repr

/-- The scalar functions of the C library and of GLM used by the program. -/
structure MathLib (F : Type) where
  /-- `cos` of an angle in radians. -/
  cos : F → F
  /-- `sin` of an angle in radians. -/
  sin : F → F
  /-- `tan` of an angle in radians. -/
  tan : F → F
  /-- `sqrt`. -/
  sqrt : F → F
  /-- The factor of `glm::radians`, the constant 0.01745329251994329576923690768489. -/
  degToRad : F

section Algebra

variable {F : Type} [LinearOrderedField F]

instance : Add (Vec3 F) := ⟨fun a b => ⟨a.x + b.x, a.y + b.y, a.z + b.z⟩⟩

instance : Sub (Vec3 F) := ⟨fun a b => ⟨a.x - b.x, a.y - b.y, a.z - b.z⟩⟩

/-- Scalar times vector, `s * v`. -/
instance : HMul F (Vec3 F) (Vec3 F) := ⟨fun s v => ⟨s * v.x, s * v.y, s * v.z⟩⟩

/-- Vector times scalar, `v * s`. -/
instance : HMul (Vec3 F) F (Vec3 F) := ⟨fun v s => ⟨v.x * s, v.y * s, v.z * s⟩⟩

instance : Add (Vec4 F) := ⟨fun a b => ⟨a.x + b.x, a.y + b.y, a.z + b.z, a.w + b.w⟩⟩

/-- Vector times scalar, `v * s`. -/
instance : HMul (Vec4 F) F (Vec4 F) := ⟨fun v s => ⟨v.x * s, v.y * s, v.z * s, v.w * s⟩⟩

/-- Matrix times column vector, `m * v`. -/
instance : HMul (Mat4 F) (Vec4 F) (Vec4 F) :=
  ⟨fun m v => m.c0 * v.x + m.c1 * v.y + m.c2 * v.z + m.c3 * v.w⟩

/-- Matrix product, `m * n`: column `j` of the result is `m * n[j]`. -/
instance : Mul (Mat4 F) := ⟨fun m n => ⟨m * n.c0, m * n.c1, m * n.c2, m * n.c3⟩⟩

/-- The function `glm::dot` on `vec3`. -/
def dot (a b : Vec3 F) : F := a.x * b.x + a.y * b.y + a.z * b.z

/-- The function `glm::cross`. -/
def cross (a b : Vec3 F) : Vec3 F :=
  ⟨a.y * b.z - b.y * a.z, a.z * b.x - b.z * a.x, a.x * b.y - b.x * a.y⟩

/-- The function `glm::radians`: degrees times the constant factor. -/
def radians (m : MathLib F) (degrees : F) : F := degrees * m.degToRad

/-- The function `glm::inversesqrt`. -/
def inversesqrt (m : MathLib F) (a : F) : F := 1 / m.sqrt a

/-- The function `glm::normalize`: `v * inversesqrt(dot(v, v))`. -/
def normalize (m : MathLib F) (v : Vec3 F) : Vec3 F := v * inversesqrt m (dot v v)

/-- The function `glm::length`: `sqrt(dot(v, v))`. -/
def length (m : MathLib F) (v : Vec3 F) : F := m.sqrt (dot v v)

end Algebra

/-! ## The camera and mouse globals -/

/-- The mutable globals of `Main.cpp` (lines 69-83). -/
structure Globals (F : Type) where
  cameraPos : Vec3 F
  cameraFront : Vec3 F
  cameraUp : Vec3 F
  deltaTime : F
  lastFrame : F
  firstMouse : Bool
  lastX : F
  lastY : F
  yaw : F
  pitch : F
  fov : F
deriving DecidableEq, Repr

/-- The keys polled by `processInput` through `glfwGetKey`; `true` is `GLFW_PRESS`. -/
structure Keys where
  w : Bool
  s : Bool
  a : Bool
  d : Bool
deriving DecidableEq, Repr

section Camera

variable {F : Type} [LinearOrderedField F]

/-- The initial values of the globals. -/
def initGlobals : Globals F where
  cameraPos := ⟨0, 0, 3⟩
  cameraFront := ⟨0, 0, -1⟩
  cameraUp := ⟨0, 1, 0⟩
  deltaTime := 0
  lastFrame := 0
  firstMouse := true
  lastX := 800 / 2
  lastY := 600 / 2
  yaw := -90
  pitch := 0
  fov := 45

/-- The function `processInput`: the four key tests in source order. -/
def processInput (m : MathLib F) (keys : Keys) (g : Globals F) : Globals F :=
  let cameraSpeed : F := 3.5 * g.deltaTime
  let g1 := if keys.w then { g with cameraPos := g.cameraPos + cameraSpeed * g.cameraFront } else g
  let g2 := if keys.s then { g1 with cameraPos := g1.cameraPos - cameraSpeed * g1.cameraFront } else g1
  let g3 := if keys.a then
    { g2 with cameraPos := g2.cameraPos - normalize m (cross g2.cameraFront g2.cameraUp) * cameraSpeed }
    else g2
  let g4 := if keys.d then
    { g3 with cameraPos := g3.cameraPos + normalize m (cross g3.cameraFront g3.cameraUp) * cameraSpeed }
    else g3
  g4

/-- The function `mouse_callback`, the conversions between `double` and `float` left out
(`mouse_callback_float` has them). -/
def mouse_callback (m : MathLib F) (g : Globals F) (xpos ypos : F) : Globals F :=
  let g1 := if g.firstMouse then { g with lastX := xpos, lastY := ypos, firstMouse := false } else g
  let xoffset : F := xpos - g1.lastX
  let yoffset : F := g1.lastY - ypos
  let g2 := { g1 with lastX := xpos, lastY := ypos }
  let sensitivity : F := 0.1
  let xoffset := xoffset * sensitivity
  let yoffset := yoffset * sensitivity
  let g3 := { g2 with yaw := g2.yaw + xoffset, pitch := g2.pitch + yoffset }
  let g4 := if g3.pitch > 89 then { g3 with pitch := 89 } else g3
  let g5 := if g4.pitch < -89 then { g4 with pitch := -89 } else g4
  let front : Vec3 F :=
    ⟨m.cos (radians m g5.yaw) * m.cos (radians m g5.pitch),
     m.sin (radians m g5.pitch),
     m.sin (radians m g5.yaw) * m.cos (radians m g5.pitch)⟩
  { g5 with cameraFront := normalize m front }

/-- The function `scroll_callback`; `xoffset` is unused, as in the source. -/
def scroll_callback (g : Globals F) (_xoffset yoffset : F) : Globals F :=
  let g1 := if g.fov ≥ 1 ∧ g.fov ≤ 45 then { g with fov := g.fov - yoffset } else g
  let g2 := if g1.fov ≤ 1 then { g1 with fov := 1 } else g1
  let g3 := if g2.fov ≥ 45 then { g2 with fov := 45 } else g2
  g3

end Camera

/-! ## GLM matrix helpers -/

section Matrices

variable {F : Type} [LinearOrderedField F]

/-- The identity matrix `glm::mat4(1.0f)`. -/
def Mat4.identity : Mat4 F := ⟨⟨1, 0, 0, 0⟩, ⟨0, 1, 0, 0⟩, ⟨0, 0, 1, 0⟩, ⟨0, 0, 0, 1⟩⟩

/-- The function `glm::translate(m, v)`: only the last column changes. -/
def translate (m : Mat4 F) (v : Vec3 F) : Mat4 F :=
  { m with c3 := m.c0 * v.x + m.c1 * v.y + m.c2 * v.z + m.c3 }

/-- The function `glm::scale(m, v)`: the first three columns are scaled. -/
def scale (m : Mat4 F) (v : Vec3 F) : Mat4 F :=
  ⟨m.c0 * v.x, m.c1 * v.y, m.c2 * v.z, m.c3⟩

/-- The function `glm::rotate(m, angle, v)`, `angle` in radians; `r_ij` is GLM's `Rotate[i][j]`. -/
def rotate (ml : MathLib F) (m : Mat4 F) (angle : F) (v : Vec3 F) : Mat4 F :=
  let c := ml.cos angle
  let s := ml.sin angle
  let axis := normalize ml v
  let temp : Vec3 F := (1 - c) * axis
  let r00 := c + temp.x * axis.x
  let r01 := temp.x * axis.y + s * axis.z
  let r02 := temp.x * axis.z - s * axis.y
  let r10 := temp.y * axis.x - s * axis.z
  let r11 := c + temp.y * axis.y
  let r12 := temp.y * axis.z + s * axis.x
  let r20 := temp.z * axis.x + s * axis.y
  let r21 := temp.z * axis.y - s * axis.x
  let r22 := c + temp.z * axis.z
  ⟨m.c0 * r00 + m.c1 * r01 + m.c2 * r02,
   m.c0 * r10 + m.c1 * r11 + m.c2 * r12,
   m.c0 * r20 + m.c1 * r21 + m.c2 * r22,
   m.c3⟩

/-- The function `glm::lookAt(eye, center, up)` (right-handed). -/
def lookAt (ml : MathLib F) (eye center up : Vec3 F) : Mat4 F :=
  let f := normalize ml (center - eye)
  let s := normalize ml (cross f up)
  let u := cross s f
  ⟨⟨s.x, u.x, -f.x, 0⟩,
   ⟨s.y, u.y, -f.y, 0⟩,
   ⟨s.z, u.z, -f.z, 0⟩,
   ⟨-dot s eye, -dot u eye, dot f eye, 1⟩⟩

/-- The function `glm::ortho(left, right, bottom, top, zNear, zFar)` (right-handed, depth -1..1). -/
def ortho (left right bottom top zNear zFar : F) : Mat4 F :=
  ⟨⟨2 / (right - left), 0, 0, 0⟩,
   ⟨0, 2 / (top - bottom), 0, 0⟩,
   ⟨0, 0, -2 / (zFar - zNear), 0⟩,
   ⟨-(right + left) / (right - left), -(top + bottom) / (top - bottom),
    -(zFar + zNear) / (zFar - zNear), 1⟩⟩

/-- The function `glm::perspective(fovy, aspect, zNear, zFar)` (right-handed, depth -1..1). -/
def perspective (ml : MathLib F) (fovy aspect zNear zFar : F) : Mat4 F :=
  let tanHalfFovy := ml.tan (fovy / 2)
  ⟨⟨1 / (aspect * tanHalfFovy), 0, 0, 0⟩,
   ⟨0, 1 / tanHalfFovy, 0, 0⟩,
   ⟨0, 0, -(zFar + zNear) / (zFar - zNear), -1⟩,
   ⟨0, 0, -(2 * zFar * zNear) / (zFar - zNear), 0⟩⟩

/-- The conversion `glm::mat3(m)`: the upper-left 3x3 block. -/
def Mat4.toMat3 (m : Mat4 F) : Mat3 F :=
  ⟨⟨m.c0.x, m.c0.y, m.c0.z⟩, ⟨m.c1.x, m.c1.y, m.c1.z⟩, ⟨m.c2.x, m.c2.y, m.c2.z⟩⟩

/-- The conversion `glm::mat4(m)` of a 3x3 matrix: padded with the identity. -/
def Mat3.toMat4 (m : Mat3 F) : Mat4 F :=
  ⟨⟨m.c0.x, m.c0.y, m.c0.z, 0⟩, ⟨m.c1.x, m.c1.y, m.c1.z, 0⟩, ⟨m.c2.x, m.c2.y, m.c2.z, 0⟩,
   ⟨0, 0, 0, 1⟩⟩

end Matrices

/-! ## Vertex data -/

/-- The struct `Vertex`: position, colour, UV coordinates, normal. -/
structure Vertex (F : Type) where
  x : F
  y : F
  z : F
  r : Nat
  g : Nat
  b : Nat
  u : F
  v : F
  nx : F
  ny : F
  nz : F
deriving DecidableEq, Repr

section Scene

variable {F : Type} [LinearOrderedField F]

/-- The position of a vertex as the homogeneous point the vertex shaders multiply. -/
def Vertex.position (p : Vertex F) : Vec4 F := ⟨p.x, p.y, p.z, 1⟩

/-- Indices 0-35: right wall, ceiling, left wall, floor, front wall, back wall. -/
def roomVertices : List (Vertex F) := [
  -- Right Wall
  ⟨1, -1, -1, 255, 255, 255, 0, 0.5, -1, 0, 0⟩,
  ⟨1, 1, -1, 255, 255, 255, 0, 1, -1, 0, 0⟩,
  ⟨1, 1, 1, 255, 255, 255, 0.5, 1, -1, 0, 0⟩,
  ⟨1, -1, -1, 255, 255, 255, 0, 0.5, -1, 0, 0⟩,
  ⟨1, 1, 1, 255, 255, 255, 0.5, 1, -1, 0, 0⟩,
  ⟨1, -1, 1, 255, 255, 255, 0.5, 0.5, -1, 0, 0⟩,
  -- Ceiling
  ⟨1, 1, -1, 255, 255, 255, 1, 0.5, 0, -1, 0⟩,
  ⟨-1, 1, -1, 255, 255, 255, 1, 1, 0, -1, 0⟩,
  ⟨-1, 1, 1, 255, 255, 255, 0.5, 1, 0, -1, 0⟩,
  ⟨1, 1, -1, 255, 255, 255, 1, 0.5, 0, -1, 0⟩,
  ⟨-1, 1, 1, 255, 255, 255, 0.5, 1, 0, -1, 0⟩,
  ⟨1, 1, 1, 255, 255, 255, 0.5, 0.5, 0, -1, 0⟩,
  -- Left Wall
  ⟨-1, -1, -1, 255, 255, 255, 0, 0.5, 1, 0, 0⟩,
  ⟨-1, 1, -1, 255, 255, 255, 0, 1, 1, 0, 0⟩,
  ⟨-1, 1, 1, 255, 255, 255, 0.5, 1, 1, 0, 0⟩,
  ⟨-1, -1, -1, 255, 255, 255, 0, 0.5, 1, 0, 0⟩,
  ⟨-1, 1, 1, 255, 255, 255, 0.5, 1, 1, 0, 0⟩,
  ⟨-1, -1, 1, 255, 255, 255, 0.5, 0.5, 1, 0, 0⟩,
  -- Floor
  ⟨-1, -1, -1, 255, 255, 255, 1, 0.5, 0, 1, 0⟩,
  ⟨1, -1, -1, 255, 255, 255, 1, 1, 0, 1, 0⟩,
  ⟨1, -1, 1, 255, 255, 255, 0.5, 1, 0, 1, 0⟩,
  ⟨-1, -1, -1, 255, 255, 255, 1, 0.5, 0, 1, 0⟩,
  ⟨1, -1, 1, 255, 255, 255, 0.5, 1, 0, 1, 0⟩,
  ⟨-1, -1, 1, 255, 255, 255, 0.5, 0.5, 0, 1, 0⟩,
  -- Front Wall
  ⟨1, -1, 1, 255, 255, 255, 0, 0.5, 0, 0, -1⟩,
  ⟨1, 1, 1, 255, 255, 255, 0, 1, 0, 0, -1⟩,
  ⟨-1, 1, 1, 255, 255, 255, 0.5, 1, 0, 0, -1⟩,
  ⟨1, -1, 1, 255, 255, 255, 0, 0.5, 0, 0, -1⟩,
  ⟨-1, 1, 1, 255, 255, 255, 0.5, 1, 0, 0, -1⟩,
  ⟨-1, -1, 1, 255, 255, 255, 0.5, 0.5, 0, 0, -1⟩,
  -- Back Wall
  ⟨1, -1, -1, 255, 255, 255, 0, 0.5, 0, 0, 1⟩,
  ⟨1, 1, -1, 255, 255, 255, 0, 1, 0, 0, 1⟩,
  ⟨-1, 1, -1, 255, 255, 255, 0.5, 1, 0, 0, 1⟩,
  ⟨1, -1, -1, 255, 255, 255, 0, 0.5, 0, 0, 1⟩,
  ⟨-1, 1, -1, 255, 255, 255, 0.5, 1, 0, 0, 1⟩,
  ⟨-1, -1, -1, 255, 255, 255, 0.5, 0.5, 0, 0, 1⟩
  ]

/-- Indices 36-41: the door. -/
def doorVertices : List (Vertex F) := [
  -- Door
  ⟨0.25, -1, 1.01, 255, 255, 255, 0.25, 0, 0, 0, 1⟩,
  ⟨0.25, 0, 1.01, 255, 255, 255, 0.25, 0.5, 0, 0, 1⟩,
  ⟨-0.25, 0, 1.01, 255, 255, 255, 0, 0.5, 0, 0, 1⟩,
  ⟨0.25, -1, 1.01, 255, 255, 255, 0.25, 0, 0, 0, 1⟩,
  ⟨-0.25, 0, 1.01, 255, 255, 255, 0, 0.5, 0, 0, 1⟩,
  ⟨-0.25, -1, 1.01, 255, 255, 255, 0, 0, 0, 0, 1⟩
  ]

/-- Indices 42-77: the big crate. -/
def crate1Vertices : List (Vertex F) := [
  -- Right Wall Big Crate
  ⟨1, -1, -1, 255, 255, 255, 0.6, 0.15, 1, 0, 0⟩,
  ⟨1, 1, -1, 255, 255, 255, 0.6, 0.5, 1, 0, 0⟩,
  ⟨1, 1, 1, 255, 255, 255, 0.25, 0.5, 1, 0, 0⟩,
  ⟨1, -1, -1, 255, 255, 255, 0.6, 0.15, 1, 0, 0⟩,
  ⟨1, 1, 1, 255, 255, 255, 0.25, 0.5, 1, 0, 0⟩,
  ⟨1, -1, 1, 255, 255, 255, 0.25, 0.15, 1, 0, 0⟩,
  -- Ceiling Big Crate
  ⟨1, 1, -1, 255, 255, 255, 0.6, 0.15, 0, 1, 0⟩,
  ⟨-1, 1, -1, 255, 255, 255, 0.6, 0.5, 0, 1, 0⟩,
  ⟨-1, 1, 1, 255, 255, 255, 0.25, 0.5, 0, 1, 0⟩,
  ⟨1, 1, -1, 255, 255, 255, 0.6, 0.15, 0, 1, 0⟩,
  ⟨-1, 1, 1, 255, 255, 255, 0.25, 0.5, 0, 1, 0⟩,
  ⟨1, 1, 1, 255, 255, 255, 0.25, 0.15, 0, 1, 0⟩,
  -- Left Wall Big Crate
  ⟨-1, -1, -1, 255, 255, 255, 0.6, 0.15, -1, 0, 0⟩,
  ⟨-1, 1, -1, 255, 255, 255, 0.6, 0.5, -1, 0, 0⟩,
  ⟨-1, 1, 1, 255, 255, 255, 0.25, 0.5, -1, 0, 0⟩,
  ⟨-1, -1, -1, 255, 255, 255, 0.6, 0.15, -1, 0, 0⟩,
  ⟨-1, 1, 1, 255, 255, 255, 0.25, 0.5, -1, 0, 0⟩,
  ⟨-1, -1, 1, 255, 255, 255, 0.25, 0.15, -1, 0, 0⟩,
  -- Floor Big Crate
  ⟨-1, -1, -1, 255, 255, 255, 0.6, 0.15, 0, -1, 0⟩,
  ⟨1, -1, -1, 255, 255, 255, 0.6, 0.5, 0, -1, 0⟩,
  ⟨1, -1, 1, 255, 255, 255, 0.25, 0.5, 0, -1, 0⟩,
  ⟨-1, -1, -1, 255, 255, 255, 0.6, 0.15, 0, -1, 0⟩,
  ⟨1, -1, 1, 255, 255, 255, 0.25, 0.5, 0, -1, 0⟩,
  ⟨-1, -1, 1, 255, 255, 255, 0.25, 0.15, 0, -1, 0⟩,
  -- Front Wall Big Crate
  ⟨1, -1, 1, 255, 255, 255, 0.6, 0.15, 0, 0, 1⟩,
  ⟨1, 1, 1, 255, 255, 255, 0.6, 0.5, 0, 0, 1⟩,
  ⟨-1, 1, 1, 255, 255, 255, 0.25, 0.5, 0, 0, 1⟩,
  ⟨1, -1, 1, 255, 255, 255, 0.6, 0.15, 0, 0, 1⟩,
  ⟨-1, 1, 1, 255, 255, 255, 0.25, 0.5, 0, 0, 1⟩,
  ⟨-1, -1, 1, 255, 255, 255, 0.25, 0.15, 0, 0, 1⟩,
  -- Back Wall Big Crate
  ⟨1, -1, -1, 255, 255, 255, 0.6, 0.15, 0, 0, -1⟩,
  ⟨1, 1, -1, 255, 255, 255, 0.6, 0.5, 0, 0, -1⟩,
  ⟨-1, 1, -1, 255, 255, 255, 0.25, 0.5, 0, 0, -1⟩,
  ⟨1, -1, -1, 255, 255, 255, 0.6, 0.15, 0, 0, -1⟩,
  ⟨-1, 1, -1, 255, 255, 255, 0.25, 0.5, 0, 0, -1⟩,
  ⟨-1, -1, -1, 255, 255, 255, 0.25, 0.15, 0, 0, -1⟩
  ]

/-- Indices 78-113: big crate 2. -/
def crate2Vertices : List (Vertex F) := [
  -- Right Wall Big Crate 2
  ⟨1, -1, -1, 255, 255, 255, 0.6, 0.15, 1, 0, 0⟩,
  ⟨1, 1, -1, 255, 255, 255, 0.6, 0.5, 1, 0, 0⟩,
  ⟨1, 1, 1, 255, 255, 255, 0.25, 0.5, 1, 0, 0⟩,
  ⟨1, -1, -1, 255, 255, 255, 0.6, 0.15, 1, 0, 0⟩,
  ⟨1, 1, 1, 255, 255, 255, 0.25, 0.5, 1, 0, 0⟩,
  ⟨1, -1, 1, 255, 255, 255, 0.25, 0.15, 1, 0, 0⟩,
  -- Ceiling Big Crate 2
  ⟨1, 1, -1, 255, 255, 255, 0.6, 0.15, 0, 1, 0⟩,
  ⟨-1, 1, -1, 255, 255, 255, 0.6, 0.5, 0, 1, 0⟩,
  ⟨-1, 1, 1, 255, 255, 255, 0.25, 0.5, 0, 1, 0⟩,
  ⟨1, 1, -1, 255, 255, 255, 0.6, 0.15, 0, 1, 0⟩,
  ⟨-1, 1, 1, 255, 255, 255, 0.25, 0.5, 0, 1, 0⟩,
  ⟨1, 1, 1, 255, 255, 255, 0.25, 0.15, 0, 1, 0⟩,
  -- Left Wall Big Crate 2
  ⟨-1, -1, -1, 255, 255, 255, 0.6, 0.15, -1, 0, 0⟩,
  ⟨-1, 1, -1, 255, 255, 255, 0.6, 0.5, -1, 0, 0⟩,
  ⟨-1, 1, 1, 255, 255, 255, 0.25, 0.5, -1, 0, 0⟩,
  ⟨-1, -1, -1, 255, 255, 255, 0.6, 0.15, -1, 0, 0⟩,
  ⟨-1, 1, 1, 255, 255, 255, 0.25, 0.5, -1, 0, 0⟩,
  ⟨-1, -1, 1, 255, 255, 255, 0.25, 0.15, -1, 0, 0⟩,
  -- Floor Big Crate 2
  ⟨-1, -1, -1, 255, 255, 255, 0.6, 0.15, 0, -1, 0⟩,
  ⟨1, -1, -1, 255, 255, 255, 0.6, 0.5, 0, -1, 0⟩,
  ⟨1, -1, 1, 255, 255, 255, 0.25, 0.5, 0, -1, 0⟩,
  ⟨-1, -1, -1, 255, 255, 255, 0.6, 0.15, 0, -1, 0⟩,
  ⟨1, -1, 1, 255, 255, 255, 0.25, 0.5, 0, -1, 0⟩,
  ⟨-1, -1, 1, 255, 255, 255, 0.25, 0.15, 0, -1, 0⟩,
  -- Front Wall Big Crate 2
  ⟨1, -1, 1, 255, 255, 255, 0.6, 0.15, 0, 0, -1⟩,
  ⟨1, 1, 1, 255, 255, 255, 0.6, 0.5, 0, 0, -1⟩,
  ⟨-1, 1, 1, 255, 255, 255, 0.25, 0.5, 0, 0, -1⟩,
  ⟨1, -1, 1, 255, 255, 255, 0.6, 0.15, 0, 0, -1⟩,
  ⟨-1, 1, 1, 255, 255, 255, 0.25, 0.5, 0, 0, -1⟩,
  ⟨-1, -1, 1, 255, 255, 255, 0.25, 0.15, 0, 0, -1⟩,
  -- Back Wall Big Crate 2
  ⟨1, -1, -1, 255, 255, 255, 0.6, 0.15, 0, 0, 1⟩,
  ⟨1, 1, -1, 255, 255, 255, 0.6, 0.5, 0, 0, 1⟩,
  ⟨-1, 1, -1, 255, 255, 255, 0.25, 0.5, 0, 0, 1⟩,
  ⟨1, -1, -1, 255, 255, 255, 0.6, 0.15, 0, 0, 1⟩,
  ⟨-1, 1, -1, 255, 255, 255, 0.25, 0.5, 0, 0, 1⟩,
  ⟨-1, -1, -1, 255, 255, 255, 0.25, 0.15, 0, 0, 1⟩
  ]

/-- Indices 114-149: big crate 3. -/
def crate3Vertices : List (Vertex F) := [
  -- Right Wall Big Crate 3
  ⟨1, -1, -1, 255, 255, 255, 0.6, 0.15, 1, 0, 0⟩,
  ⟨1, 1, -1, 255, 255, 255, 0.6, 0.5, 1, 0, 0⟩,
  ⟨1, 1, 1, 255, 255, 255, 0.25, 0.5, 1, 0, 0⟩,
  ⟨1, -1, -1, 255, 255, 255, 0.6, 0.15, 1, 0, 0⟩,
  ⟨1, 1, 1, 255, 255, 255, 0.25, 0.5, 1, 0, 0⟩,
  ⟨1, -1, 1, 255, 255, 255, 0.25, 0.15, 1, 0, 0⟩,
  -- Ceiling Big Crate 3
  ⟨1, 1, -1, 255, 255, 255, 0.6, 0.15, 0, 1, 0⟩,
  ⟨-1, 1, -1, 255, 255, 255, 0.6, 0.5, 0, 1, 0⟩,
  ⟨-1, 1, 1, 255, 255, 255, 0.25, 0.5, 0, 1, 0⟩,
  ⟨1, 1, -1, 255, 255, 255, 0.6, 0.15, 0, 1, 0⟩,
  ⟨-1, 1, 1, 255, 255, 255, 0.25, 0.5, 0, 1, 0⟩,
  ⟨1, 1, 1, 255, 255, 255, 0.25, 0.15, 0, 1, 0⟩,
  -- Left Wall Big Crate 3
  ⟨-1, -1, -1, 255, 255, 255, 0.6, 0.15, -1, 0, 0⟩,
  ⟨-1, 1, -1, 255, 255, 255, 0.6, 0.5, -1, 0, 0⟩,
  ⟨-1, 1, 1, 255, 255, 255, 0.25, 0.5, -1, 0, 0⟩,
  ⟨-1, -1, -1, 255, 255, 255, 0.6, 0.15, -1, 0, 0⟩,
  ⟨-1, 1, 1, 255, 255, 255, 0.25, 0.5, -1, 0, 0⟩,
  ⟨-1, -1, 1, 255, 255, 255, 0.25, 0.15, -1, 0, 0⟩,
  -- Floor Big Crate 3
  ⟨-1, -1, -1, 255, 255, 255, 0.6, 0.15, 0, -1, 0⟩,
  ⟨1, -1, -1, 255, 255, 255, 0.6, 0.5, 0, -1, 0⟩,
  ⟨1, -1, 1, 255, 255, 255, 0.25, 0.5, 0, -1, 0⟩,
  ⟨-1, -1, -1, 255, 255, 255, 0.6, 0.15, 0, -1, 0⟩,
  ⟨1, -1, 1, 255, 255, 255, 0.25, 0.5, 0, -1, 0⟩,
  ⟨-1, -1, 1, 255, 255, 255, 0.25, 0.15, 0, -1, 0⟩,
  -- Front Wall Big Crate 3
  ⟨1, -1, 1, 255, 255, 255, 0.6, 0.15, 0, 0, -1⟩,
  ⟨1, 1, 1, 255, 255, 255, 0.6, 0.5, 0, 0, -1⟩,
  ⟨-1, 1, 1, 255, 255, 255, 0.25, 0.5, 0, 0, -1⟩,
  ⟨1, -1, 1, 255, 255, 255, 0.6, 0.15, 0, 0, -1⟩,
  ⟨-1, 1, 1, 255, 255, 255, 0.25, 0.5, 0, 0, -1⟩,
  ⟨-1, -1, 1, 255, 255, 255, 0.25, 0.15, 0, 0, -1⟩,
  -- Back Wall Big Crate 3
  ⟨1, -1, -1, 255, 255, 255, 0.6, 0.15, 0, 0, 1⟩,
  ⟨1, 1, -1, 255, 255, 255, 0.6, 0.5, 0, 0, 1⟩,
  ⟨-1, 1, -1, 255, 255, 255, 0.25, 0.5, 0, 0, 1⟩,
  ⟨1, -1, -1, 255, 255, 255, 0.6, 0.15, 0, 0, 1⟩,
  ⟨-1, 1, -1, 255, 255, 255, 0.25, 0.5, 0, 0, 1⟩,
  ⟨-1, -1, -1, 255, 255, 255, 0.25, 0.15, 0, 0, 1⟩
  ]

/-- Indices 150-161: door 2 and the window. -/
def door2WindowVertices : List (Vertex F) := [
  -- Door2
  ⟨0.25, -1, 0.99, 255, 255, 255, 0.25, 0, 0, 0, -1⟩,
  ⟨0.25, 0, 0.99, 255, 255, 255, 0.25, 0.5, 0, 0, -1⟩,
  ⟨-0.25, 0, 0.99, 255, 255, 255, 0, 0.5, 0, 0, -1⟩,
  ⟨0.25, -1, 0.99, 255, 255, 255, 0.25, 0, 0, 0, -1⟩,
  ⟨-0.25, 0, 0.99, 255, 255, 255, 0, 0.5, 0, 0, -1⟩,
  ⟨-0.25, -1, 0.99, 255, 255, 255, 0, 0, 0, 0, -1⟩,
  -- Window
  ⟨0.5, -1, 0.99, 255, 255, 255, 1, 0, 0, 0, 1⟩,
  ⟨0.5, 0, 0.99, 255, 255, 255, 1, 0.5, 0, 0, 1⟩,
  ⟨-0.25, 0, 0.99, 255, 255, 255, 0.6, 0.5, 0, 0, 1⟩,
  ⟨0.5, -1, 0.99, 255, 255, 255, 1, 0, 0, 0, 1⟩,
  ⟨-0.25, 0, 0.99, 255, 255, 255, 0.6, 0.5, 0, 0, 1⟩,
  ⟨-0.25, -1, 0.99, 255, 255, 255, 0.6, 0, 0, 0, 1⟩
  ]

/-- Indices 162-179: roof base and roof sides (no normal given, so zero). -/
def roofVertices : List (Vertex F) := [
  -- Roof Base
  ⟨1, 0, 1, 255, 255, 255, 0.6, 0.15, 0, 0, 0⟩,
  ⟨1, 0, -1, 255, 255, 255, 0.6, 0.5, 0, 0, 0⟩,
  ⟨-1, 0, -1, 255, 255, 255, 0.25, 0.5, 0, 0, 0⟩,
  ⟨1, 0, 1, 255, 255, 255, 0.6, 0.15, 0, 0, 0⟩,
  ⟨-1, 0, -1, 255, 255, 255, 0.25, 0.5, 0, 0, 0⟩,
  ⟨-1, 0, 1, 255, 255, 255, 0.25, 0.15, 0, 0, 0⟩,
  -- Roof Sides
  ⟨1, 0, 1, 255, 255, 255, 0.6, 0.15, 0, 0, 0⟩,
  ⟨0, 1, 0, 255, 255, 255, 0.425, 0.325, 0, 0, 0⟩,
  ⟨-1, 0, 1, 255, 255, 255, 0.25, 0.15, 0, 0, 0⟩,
  ⟨1, 0, -1, 255, 255, 255, 0.6, 0.15, 0, 0, 0⟩,
  ⟨0, 1, 0, 255, 255, 255, 0.425, 0.325, 0, 0, 0⟩,
  ⟨1, 0, 1, 255, 255, 255, 0.25, 0.15, 0, 0, 0⟩,
  ⟨-1, 0, -1, 255, 255, 255, 0.6, 0.15, 0, 0, 0⟩,
  ⟨0, 1, 0, 255, 255, 255, 0.425, 0.325, 0, 0, 0⟩,
  ⟨1, 0, -1, 255, 255, 255, 0.25, 0.15, 0, 0, 0⟩,
  ⟨-1, 0, -1, 255, 255, 255, 0.6, 0.15, 0, 0, 0⟩,
  ⟨0, 1, 0, 255, 255, 255, 0.425, 0.325, 0, 0, 0⟩,
  ⟨-1, 0, 1, 255, 255, 255, 0.25, 0.15, 0, 0, 0⟩
  ]

/-- Indices 180-215: the chair back. -/
def chairBackVertices : List (Vertex F) := [
  -- Chair back
  ⟨0.5, -1, 1, 255, 255, 255, 0.6, 0, 0, 0, 1⟩,
  ⟨0.5, 1, 1, 255, 255, 255, 0.6, 0.15, 0, 0, 1⟩,
  ⟨-1, 1, 1, 255, 255, 255, 0.25, 0.15, 0, 0, 1⟩,
  ⟨0.5, -1, 1, 255, 255, 255, 0.6, 0, 0, 0, 1⟩,
  ⟨-1, 1, 1, 255, 255, 255, 0.25, 0.15, 0, 0, 1⟩,
  ⟨-1, -1, 1, 255, 255, 255, 0.25, 0, 0, 0, 1⟩,
  ⟨0.5, -1, 0.5, 255, 255, 255, 0.6, 0, 1, 0, 0⟩,
  ⟨0.5, 1, 0.5, 255, 255, 255, 0.6, 0.15, 1, 0, 0⟩,
  ⟨0.5, 1, 1, 255, 255, 255, 0.4, 0.15, 1, 0, 0⟩,
  ⟨0.5, -1, 0.5, 255, 255, 255, 0.6, 0, 1, 0, 0⟩,
  ⟨0.5, 1, 1, 255, 255, 255, 0.4, 0.15, 1, 0, 0⟩,
  ⟨0.5, -1, 1, 255, 255, 255, 0.4, 0, 1, 0, 0⟩,
  ⟨0.5, -1, 0.5, 255, 255, 255, 0.6, 0, 0, 0, -1⟩,
  ⟨0.5, 1, 0.5, 255, 255, 255, 0.6, 0.15, 0, 0, -1⟩,
  ⟨-1, 1, 0.5, 255, 255, 255, 0.25, 0.15, 0, 0, -1⟩,
  ⟨0.5, -1, 0.5, 255, 255, 255, 0.6, 0, 0, 0, -1⟩,
  ⟨-1, 1, 0.5, 255, 255, 255, 0.25, 0.15, 0, 0, -1⟩,
  ⟨-1, -1, 0.5, 255, 255, 255, 0.25, 0, 0, 0, -1⟩,
  ⟨-1, -1, 1, 255, 255, 255, 0.6, 0, -1, 0, 0⟩,
  ⟨-1, 1, 1, 255, 255, 255, 0.6, 0.15, -1, 0, 0⟩,
  ⟨-1, 1, 0.5, 255, 255, 255, 0.4, 0.15, -1, 0, 0⟩,
  ⟨-1, -1, 1, 255, 255, 255, 0.6, 0, -1, 0, 0⟩,
  ⟨-1, 1, 0.5, 255, 255, 255, 0.4, 0.15, -1, 0, 0⟩,
  ⟨-1, -1, 0.5, 255, 255, 255, 0.4, 0, -1, 0, 0⟩,
  ⟨0.5, 1, 1, 255, 255, 255, 0.6, 0, 0, 1, 0⟩,
  ⟨0.5, 1, 0.5, 255, 255, 255, 0.6, 0.15, 0, 1, 0⟩,
  ⟨-1, 1, 0.5, 255, 255, 255, 0.4, 0.15, 0, 1, 0⟩,
  ⟨0.5, 1, 1, 255, 255, 255, 0.6, 0, 0, 1, 0⟩,
  ⟨-1, 1, 0.5, 255, 255, 255, 0.4, 0.15, 0, 1, 0⟩,
  ⟨-1, 1, 1, 255, 255, 255, 0.4, 0, 0, 1, 0⟩,
  ⟨0.5, -1, 1, 255, 255, 255, 0.6, 0, 0, -1, 0⟩,
  ⟨0.5, -1, 0.5, 255, 255, 255, 0.6, 0.15, 0, -1, 0⟩,
  ⟨-1, -1, 0.5, 255, 255, 255, 0.4, 0.15, 0, -1, 0⟩,
  ⟨0.5, -1, 1, 255, 255, 255, 0.6, 0, 0, -1, 0⟩,
  ⟨-1, -1, 0.5, 255, 255, 255, 0.4, 0.15, 0, -1, 0⟩,
  ⟨-1, -1, 1, 255, 255, 255, 0.4, 0, 0, -1, 0⟩
  ]

/-- Indices 216-239: the chair legs. -/
def chairLegVertices : List (Vertex F) := [
  -- Chair legs
  ⟨0.5, -1, 0.75, 255, 255, 255, 0.6, 0, 1, 0, 0⟩,
  ⟨0.5, 1, 0.75, 255, 255, 255, 0.6, 0.15, 1, 0, 0⟩,
  ⟨0.5, 1, 1, 255, 255, 255, 0.4, 0.15, 1, 0, 0⟩,
  ⟨0.5, -1, 0.75, 255, 255, 255, 0.6, 0, 1, 0, 0⟩,
  ⟨0.5, 1, 1, 255, 255, 255, 0.4, 0.15, 1, 0, 0⟩,
  ⟨0.5, -1, 1, 255, 255, 255, 0.4, 0, 1, 0, 0⟩,
  ⟨0.5, -1, 1, 255, 255, 255, 0.6, 0, 0, 0, 1⟩,
  ⟨0.5, 1, 1, 255, 255, 255, 0.6, 0.15, 0, 0, 1⟩,
  ⟨0.25, 1, 1, 255, 255, 255, 0.4, 0.15, 0, 0, 1⟩,
  ⟨0.5, -1, 1, 255, 255, 255, 0.6, 0, 0, 0, 1⟩,
  ⟨0.25, 1, 1, 255, 255, 255, 0.4, 0.15, 0, 0, 1⟩,
  ⟨0.25, -1, 1, 255, 255, 255, 0.4, 0, 0, 0, 1⟩,
  ⟨0.25, -1, 1, 255, 255, 255, 0.6, 0, -1, 0, 0⟩,
  ⟨0.25, 1, 1, 255, 255, 255, 0.6, 0.15, -1, 0, 0⟩,
  ⟨0.25, 1, 0.75, 255, 255, 255, 0.4, 0.15, -1, 0, 0⟩,
  ⟨0.25, -1, 1, 255, 255, 255, 0.6, 0, -1, 0, 0⟩,
  ⟨0.25, 1, 0.75, 255, 255, 255, 0.4, 0.15, -1, 0, 0⟩,
  ⟨0.25, -1, 0.75, 255, 255, 255, 0.4, 0, -1, 0, 0⟩,
  ⟨0.5, -1, 0.75, 255, 255, 255, 0.6, 0, 0, 0, -1⟩,
  ⟨0.5, 1, 0.75, 255, 255, 255, 0.6, 0.15, 0, 0, -1⟩,
  ⟨0.25, 1, 0.75, 255, 255, 255, 0.4, 0.15, 0, 0, -1⟩,
  ⟨0.5, -1, 0.75, 255, 255, 255, 0.6, 0, 0, 0, -1⟩,
  ⟨0.25, 1, 0.75, 255, 255, 255, 0.4, 0.15, 0, 0, -1⟩,
  ⟨0.25, -1, 0.75, 255, 255, 255, 0.4, 0, 0, 0, -1⟩
  ]

/-- The array `vertices[240]` of `main`, in index order. -/
def vertices : List (Vertex F) :=
  roomVertices ++ doorVertices ++ crate1Vertices ++ crate2Vertices ++ crate3Vertices ++
    door2WindowVertices ++ roofVertices ++ chairBackVertices ++ chairLegVertices

/-- The vertices read by `glDrawArrays(GL_TRIANGLES, first, count)`. -/
def drawnVertices (first count : Nat) : List (Vertex F) := (vertices.drop first).take count

/-- The local `windowWidth` of `main`. -/
def windowWidth : F := 1920

/-- The local `windowHeight` of `main`. -/
def windowHeight : F := 1080

/-! ### Model, light and camera matrices of one loop iteration (lines 711-768, 845-847) -/

def roomModelMatrix : Mat4 F := scale Mat4.identity ⟨5, 5, 5⟩

def Crate1ModelMatrix : Mat4 F := translate Mat4.identity ⟨-4, -4, -4⟩

def projectionMatrixLight : Mat4 F := ortho (-10) 10 (-10) 10 10 20

def viewMatrixLight (ml : MathLib F) (g : Globals F) : Mat4 F :=
  lookAt ml ⟨0, 10, -10⟩ ⟨0, 0, 0⟩ g.cameraUp

def Crate2ModelMatrix (ml : MathLib F) : Mat4 F :=
  rotate ml (scale (translate Mat4.identity ⟨-4.5, -2.6, -3.5⟩) ⟨0.3, 0.3, 0.3⟩)
    (radians ml 45) ⟨0, 1, 0⟩

def Crate3ModelMatrix (ml : MathLib F) : Mat4 F :=
  rotate ml (scale (translate Mat4.identity ⟨-3.5, -2.6, -4⟩) ⟨0.3, 0.3, 0.3⟩)
    (radians ml 250) ⟨0, 1, 0⟩

def WindowModelMatrix (ml : MathLib F) : Mat4 F :=
  rotate ml (scale (translate Mat4.identity ⟨0, 3, 0⟩) ⟨5, 5, 5⟩) (radians ml 90) ⟨0, 1, 0⟩

def RoofModelMatrix : Mat4 F := scale (translate Mat4.identity ⟨0, 5.01, 0⟩) ⟨6, 6, 6⟩

def ChairBackModelMatrix (ml : MathLib F) : Mat4 F :=
  rotate ml (scale (translate Mat4.identity ⟨3.75, -1, -4.8⟩) ⟨1.2, 1.2, 1.2⟩)
    (radians ml (-25)) ⟨0, 1, 0⟩

def ChairBaseModelMatrix (ml : MathLib F) : Mat4 F :=
  rotate ml
    (rotate ml (scale (translate Mat4.identity ⟨3, -1.6, -3.2⟩) ⟨1.2, 1.2, 1.2⟩)
      (radians ml (-25)) ⟨0, 1, 0⟩)
    (radians ml 90) ⟨1, 0, 0⟩

def ChairLeg1ModelMatrix (ml : MathLib F) : Mat4 F :=
  rotate ml (scale (translate Mat4.identity ⟨2.98, -3.7, -3.22⟩) ⟨1.2, 1.2, 1.2⟩)
    (radians ml (-25)) ⟨0, 1, 0⟩

def ChairLeg2ModelMatrix (ml : MathLib F) : Mat4 F :=
  rotate ml (scale (translate Mat4.identity ⟨1.68, -3.7, -3.83⟩) ⟨1.2, 1.2, 1.2⟩)
    (radians ml (-25)) ⟨0, 1, 0⟩

def ChairLeg3ModelMatrix (ml : MathLib F) : Mat4 F :=
  rotate ml (scale (translate Mat4.identity ⟨2.5, -3.7, -5.6⟩) ⟨1.2, 1.2, 1.2⟩)
    (radians ml (-25)) ⟨0, 1, 0⟩

def ChairLeg4ModelMatrix (ml : MathLib F) : Mat4 F :=
  rotate ml (scale (translate Mat4.identity ⟨3.8, -3.7, -5⟩) ⟨1.2, 1.2, 1.2⟩)
    (radians ml (-25)) ⟨0, 1, 0⟩

/-- The local `viewMatrix` of the second pass. -/
def viewMatrix (ml : MathLib F) (g : Globals F) : Mat4 F :=
  lookAt ml g.cameraPos (g.cameraPos + g.cameraFront) g.cameraUp

/-- The local `projectionMatrix` of the second pass. -/
def projectionMatrix (ml : MathLib F) (g : Globals F) : Mat4 F :=
  perspective ml (radians ml g.fov) (windowWidth / windowHeight) 0.1 100

/-- The local `viewsky` of the skybox pass: the view matrix cut to 3x3 and padded again. -/
def viewsky (ml : MathLib F) (g : Globals F) : Mat4 F :=
  (lookAt ml g.cameraPos (g.cameraPos + g.cameraFront) g.cameraUp).toMat3.toMat4

/-- The local `projectionsky` of the skybox pass. -/
def projectionsky (ml : MathLib F) (g : Globals F) : Mat4 F :=
  perspective ml (radians ml g.fov) (windowWidth / windowHeight) 0.1 100

end Scene

/-! ## The OpenGL and GLFW calls of the render loop -/

/-- The three shader programs created by `main`. -/
inductive Program where
  | program
  | program_mapping
  | skyboxShader
deriving DecidableEq, Repr

/-- The framebuffer bound to `GL_FRAMEBUFFER`: `0` (the window) or the shadow `framebuffer`. -/
inductive Framebuffer where
  | screen
  | framebuffer
deriving DecidableEq, Repr

/-- The vertex array bound by `glBindVertexArray`: `0`, `vao` or `skyboxVAO`. -/
inductive VertexArray where
  | none
  | vao
  | skyboxVAO
deriving DecidableEq, Repr

/-- The texture objects created by `main`. -/
inductive Texture where
  | tex
  | framebufferTex
  | cubemapTexture
deriving DecidableEq, Repr

/-- The texture targets used: `GL_TEXTURE_2D` and `GL_TEXTURE_CUBE_MAP`. -/
inductive TextureTarget where
  | texture2D
  | textureCubeMap
deriving DecidableEq, Repr

/-- The uniform names looked up with `glGetUniformLocation`. -/
inductive UniformName where
  | tex
  | shadowMap
  | projection
  | view
  | model
  | mat
  | projectionLight
  | viewLight
  | eyePosition
  | point_ambient_intensity
  | point_diffuse_intensity
  | point_specular_intensity
  | directional_light
  | u_shininess
  | skybox
deriving DecidableEq, Repr

/-- A value uploaded by `glUniform1i`, `glUniform1f`, `glUniform3f` or `glUniformMatrix4fv`. -/
inductive UniformValue (F : Type) where
  | int (n : Int)
  | float (a : F)
  | vec3 (v : Vec3 F)
  | mat4 (m : Mat4 F)
deriving DecidableEq, Repr

/-- The depth comparison set by `glDepthFunc`: `GL_LESS` (the default) or `GL_LEQUAL`. -/
inductive DepthFunc where
  | less
  | lequal
deriving DecidableEq, Repr

/-- The calls made inside the render loop.  `uniform p n v` stands for the pair
`loc = glGetUniformLocation(p, n); glUniform*(loc, v)`. -/
inductive GLCall (F : Type) where
  | clear
  | useProgram (p : Program)
  | bindVertexArray (a : VertexArray)
  | uniform (p : Program) (n : UniformName) (v : UniformValue F)
  | bindFramebuffer (fb : Framebuffer)
  | viewport (x y width height : F)
  | activeTexture (unit : Nat)
  | bindTexture (target : TextureTarget) (t : Texture)
  | drawArrays (first count : Nat)
  | drawElements (count : Nat)
  | depthFunc (f : DepthFunc)
  | swapBuffers
  | pollEvents
deriving DecidableEq, Repr

/-- What a draw call sees: the pipeline state in effect when it is issued. -/
structure DrawRecord (F : Type) where
  program : Option Program
  framebuffer : Framebuffer
  viewport : Vec4 F
  depthFunc : DepthFunc
  vertexArray : VertexArray
  /-- The uniforms of the program in use. -/
  uniforms : UniformName → Option (UniformValue F)
  /-- Is `true` for `glDrawElements`, `false` for `glDrawArrays`. -/
  indexed : Bool
  first : Nat
  count : Nat

/-- The part of the OpenGL context the render loop reads or writes, with the draws issued so far. -/
structure GLState (F : Type) where
  program : Option Program
  framebuffer : Framebuffer
  viewport : Vec4 F
  depthFunc : DepthFunc
  vertexArray : VertexArray
  activeTexture : Nat
  /-- The texture bound to each unit and target. -/
  textures : Nat → TextureTarget → Option Texture
  /-- The uniform values stored in each program object. -/
  uniforms : Program → UniformName → Option (UniformValue F)
  swaps : Nat
  draws : List (DrawRecord F)

section Render

variable {F : Type} [LinearOrderedField F]

/-- The record of a draw issued in state `s`. -/
def GLState.record (s : GLState F) (indexed : Bool) (first count : Nat) : DrawRecord F where
  program := s.program
  framebuffer := s.framebuffer
  viewport := s.viewport
  depthFunc := s.depthFunc
  vertexArray := s.vertexArray
  uniforms := fun n => match s.program with
    | some p => s.uniforms p n
    | none => none
  indexed := indexed
  first := first
  count := count

/-- The effect of one call.  A `glUniform*` call writes to the program in use; every uniform
location in `main` is looked up in that same program. -/
def GLState.step (s : GLState F) : GLCall F → GLState F
  | .clear => s
  | .useProgram p => { s with program := some p }
  | .bindVertexArray a => { s with vertexArray := a }
  | .uniform p n v =>
    if s.program = some p then
      { s with uniforms := fun q k => if q = p ∧ k = n then some v else s.uniforms q k }
    else s
  | .bindFramebuffer fb => { s with framebuffer := fb }
  | .viewport x y width height => { s with viewport := ⟨x, y, width, height⟩ }
  | .activeTexture unit => { s with activeTexture := unit }
  | .bindTexture target t =>
    { s with textures := fun u k =>
        if u = s.activeTexture ∧ k = target then some t else s.textures u k }
  | .drawArrays first count => { s with draws := s.draws ++ [s.record false first count] }
  | .drawElements count => { s with draws := s.draws ++ [s.record true 0 count] }
  | .depthFunc f => { s with depthFunc := f }
  | .swapBuffers => { s with swaps := s.swaps + 1 }
  | .pollEvents => s

/-- Runs a list of calls in order. -/
def GLState.run (s : GLState F) (calls : List (GLCall F)) : GLState F :=
  calls.foldl GLState.step s

/-- The draws issued by `calls` when started in state `s`. -/
def drawsOf (s : GLState F) (calls : List (GLCall F)) : List (DrawRecord F) :=
  (GLState.run { s with draws := [] } calls).draws

/-- The context when the loop is entered: no program in use, the window framebuffer bound,
the viewport of line 532, the default depth function. -/
def loopEntryState : GLState F where
  program := none
  framebuffer := .screen
  viewport := ⟨0, 0, windowWidth, windowHeight⟩
  depthFunc := .less
  vertexArray := .none
  activeTexture := 0
  textures := fun u k =>
    if u = 0 ∧ k = .textureCubeMap then some .cubemapTexture else none
  uniforms := fun _ _ => none
  swaps := 0
  draws := []

/-- Lines 690-707: clear, select the main program and the vertex array, set `tex`. -/
def loopPrologue : List (GLCall F) :=
  [.clear, .useProgram .program, .bindVertexArray .vao, .uniform .program .tex (.int 0)]

/-- Lines 772-832, the first pass: the scene drawn into the shadow framebuffer. -/
def firstPass (ml : MathLib F) (g : Globals F) : List (GLCall F) :=
  [.bindFramebuffer .framebuffer,
   .clear,
   .viewport 0 0 2048 2048,
   .useProgram .program_mapping,
   .activeTexture 0,
   .bindTexture .texture2D .tex,
   .uniform .program_mapping .projection (.mat4 projectionMatrixLight),
   .uniform .program_mapping .view (.mat4 (viewMatrixLight ml g)),
   .uniform .program_mapping .model (.mat4 roomModelMatrix),
   .drawArrays 0 30,
   .uniform .program_mapping .model (.mat4 Crate1ModelMatrix),
   .drawArrays 42 36,
   .uniform .program_mapping .model (.mat4 (Crate2ModelMatrix ml)),
   .drawArrays 42 36,
   .uniform .program_mapping .model (.mat4 (Crate3ModelMatrix ml)),
   .drawArrays 42 36,
   .uniform .program_mapping .model (.mat4 (WindowModelMatrix ml)),
   .drawArrays 156 6,
   .uniform .program_mapping .model (.mat4 (ChairBackModelMatrix ml)),
   .drawArrays 180 36,
   .uniform .program_mapping .model (.mat4 (ChairBaseModelMatrix ml)),
   .drawArrays 180 36,
   .uniform .program_mapping .model (.mat4 (ChairLeg1ModelMatrix ml)),
   .drawArrays 216 24,
   .uniform .program_mapping .model (.mat4 (ChairLeg2ModelMatrix ml)),
   .drawArrays 216 24,
   .uniform .program_mapping .model (.mat4 (ChairLeg3ModelMatrix ml)),
   .drawArrays 216 24,
   .uniform .program_mapping .model (.mat4 (ChairLeg4ModelMatrix ml)),
   .drawArrays 216 24]

/-- Lines 835-873: the start of the second pass, up to the lighting uniforms. -/
def secondPassSetup (ml : MathLib F) (g : Globals F) : List (GLCall F) :=
  [.useProgram .program,
   .bindFramebuffer .screen,
   .viewport 0 0 windowWidth windowHeight,
   .clear,
   .activeTexture 1,
   .bindTexture .texture2D .framebufferTex,
   .uniform .program .projectionLight (.mat4 projectionMatrixLight),
   .uniform .program .viewLight (.mat4 (viewMatrixLight ml g)),
   .uniform .program .shadowMap (.int 1),
   .uniform .program .eyePosition (.vec3 ⟨g.cameraPos.x, g.cameraPos.y, g.cameraPos.z⟩),
   .uniform .program .point_ambient_intensity (.vec3 ⟨0.4, 0.4, 0.4⟩),
   .uniform .program .point_diffuse_intensity (.vec3 ⟨0.8, 0.8, 0.8⟩),
   .uniform .program .point_specular_intensity (.vec3 ⟨0.2, 0.2, 0.2⟩),
   .uniform .program .directional_light (.vec3 ⟨0, -1, 1⟩),
   .uniform .program .u_shininess (.float 1)]

/-- Lines 876-1013: the draws of the second pass.  `finalMatrix` is recomputed before each
upload of `mat`; the roof product of line 952 is computed but neither uploaded nor drawn. -/
def secondPassDraws (ml : MathLib F) (g : Globals F) : List (GLCall F) :=
  let viewMatrix := viewMatrix ml g
  let projectionMatrix := projectionMatrix ml g
  [.uniform .program .mat (.mat4 (projectionMatrix * viewMatrix * roomModelMatrix)),
   .uniform .program .model (.mat4 roomModelMatrix),
   .drawArrays 0 30,
   .uniform .program .mat (.mat4 (projectionMatrix * viewMatrix * Crate1ModelMatrix)),
   .uniform .program .model (.mat4 Crate1ModelMatrix),
   .drawArrays 42 36,
   .uniform .program .mat (.mat4 (projectionMatrix * viewMatrix * Crate2ModelMatrix ml)),
   .uniform .program .model (.mat4 (Crate2ModelMatrix ml)),
   .drawArrays 42 36,
   .uniform .program .mat (.mat4 (projectionMatrix * viewMatrix * Crate3ModelMatrix ml)),
   .uniform .program .model (.mat4 (Crate3ModelMatrix ml)),
   .drawArrays 42 36,
   .uniform .program .mat (.mat4 (projectionMatrix * viewMatrix * WindowModelMatrix ml)),
   .uniform .program .model (.mat4 (WindowModelMatrix ml)),
   .drawArrays 156 6,
   .uniform .program .mat (.mat4 (projectionMatrix * viewMatrix * ChairBackModelMatrix ml)),
   .uniform .program .model (.mat4 (ChairBackModelMatrix ml)),
   .drawArrays 180 36,
   .uniform .program .mat (.mat4 (projectionMatrix * viewMatrix * ChairBaseModelMatrix ml)),
   .uniform .program .model (.mat4 (ChairBaseModelMatrix ml)),
   .drawArrays 180 36,
   .uniform .program .mat (.mat4 (projectionMatrix * viewMatrix * ChairLeg1ModelMatrix ml)),
   .uniform .program .model (.mat4 (ChairLeg1ModelMatrix ml)),
   .drawArrays 216 24,
   .uniform .program .mat (.mat4 (projectionMatrix * viewMatrix * ChairLeg2ModelMatrix ml)),
   .uniform .program .model (.mat4 (ChairLeg2ModelMatrix ml)),
   .drawArrays 216 24,
   .uniform .program .mat (.mat4 (projectionMatrix * viewMatrix * ChairLeg3ModelMatrix ml)),
   .uniform .program .model (.mat4 (ChairLeg3ModelMatrix ml)),
   .drawArrays 216 24,
   .uniform .program .mat (.mat4 (projectionMatrix * viewMatrix * ChairLeg4ModelMatrix ml)),
   .uniform .program .model (.mat4 (ChairLeg4ModelMatrix ml)),
   .drawArrays 216 24]

/-- Lines 835-1013, the second pass: the scene drawn to the window with the main program. -/
def secondPass (ml : MathLib F) (g : Globals F) : List (GLCall F) :=
  secondPassSetup ml g ++ secondPassDraws ml g

/-- Lines 1018-1048: the skybox, drawn last with `GL_LEQUAL`. -/
def skyboxPass (ml : MathLib F) (g : Globals F) : List (GLCall F) :=
  [.depthFunc .lequal,
   .useProgram .skyboxShader,
   .activeTexture 2,
   .bindTexture .textureCubeMap .cubemapTexture,
   .uniform .skyboxShader .skybox (.int 2),
   .uniform .skyboxShader .projection (.mat4 (projectionsky ml g)),
   .uniform .skyboxShader .view (.mat4 (viewsky ml g)),
   .bindVertexArray .skyboxVAO,
   .activeTexture 2,
   .bindTexture .textureCubeMap .cubemapTexture,
   .drawElements 36,
   .bindVertexArray .none,
   .depthFunc .less,
   .bindVertexArray .none]

/-- Lines 690-1054: every call of one loop iteration after the time update. -/
def frameCalls (ml : MathLib F) (g : Globals F) : List (GLCall F) :=
  loopPrologue ++ firstPass ml g ++ secondPass ml g ++ skyboxPass ml g ++
    [.swapBuffers, .pollEvents]

/-- Lines 684-1054: one iteration of the render loop, given the keys that `glfwGetKey` reports
and the value `glfwGetTime` returns.  The result is the globals and the context afterwards. -/
def loopIteration (ml : MathLib F) (keys : Keys) (currentFrame : F)
    (g : Globals F) (s : GLState F) : Globals F × GLState F :=
  let g1 := processInput ml keys g
  let g2 := { g1 with deltaTime := currentFrame - g1.lastFrame, lastFrame := currentFrame }
  (g2, s.run (frameCalls ml g2))

/-- What a draw is applied to: the value of the uniform `model`, the first vertex and the
number of vertices. -/
def DrawRecord.object (r : DrawRecord F) : Option (UniformValue F) × Nat × Nat :=
  (r.uniforms .model, r.first, r.count)

/-- The values the globals can take while the program runs: the initial values, changed by
`processInput`, by the time update at the head of the loop and by the two input callbacks. -/
inductive Reachable (ml : MathLib F) : Globals F → Prop where
  | init : Reachable ml initGlobals
  | input (keys : Keys) {g : Globals F} :
      Reachable ml g → Reachable ml (processInput ml keys g)
  | time (currentFrame : F) {g : Globals F} :
      Reachable ml g →
      Reachable ml { g with deltaTime := currentFrame - g.lastFrame, lastFrame := currentFrame }
  | mouse (xpos ypos : F) {g : Globals F} :
      Reachable ml g → Reachable ml (mouse_callback ml g xpos ypos)
  | scroll (xoffset yoffset : F) {g : Globals F} :
      Reachable ml g → Reachable ml (scroll_callback g xoffset yoffset)

/-- The light-space test of the shadow pass, on a point in the light's view space: inside the
box of `glm::ortho(-10, 10, -10, 10, 10, 20)`, the depth being measured along the view
direction `-z`. -/
def InLightFrustum (p : Vec4 F) : Prop :=
  -10 ≤ p.x ∧ p.x ≤ 10 ∧ -10 ≤ p.y ∧ p.y ≤ 10 ∧ 10 ≤ -p.z ∧ -p.z ≤ 20

/-- The light-view-space position of vertex `v` drawn with model matrix `M`:
`lookAt((0,10,-10), (0,0,0), (0,1,0)) * M * v`. -/
def lightViewPosition (ml : MathLib F) (M : Mat4 F) (v : Vertex F) : Vec4 F :=
  lookAt ml ⟨0, 10, -10⟩ ⟨0, 0, 0⟩ ⟨0, 1, 0⟩ * M * v.position

end Render

/-! ## The render loop as a whole -/

/-- An event delivered to a callback during `glfwPollEvents`. -/
inductive InputEvent (F : Type) where
  | cursorPos (xpos ypos : F)
  | scroll (xoffset yoffset : F)
  | framebufferSize (width height : Int)
deriving DecidableEq, Repr

/-- What one loop iteration receives from outside: the key states `glfwGetKey` reports, the
value of `glfwGetTime`, and the events that `glfwPollEvents` delivers at its end. -/
structure FrameInput (F : Type) where
  keys : Keys
  currentFrame : F
  events : List (InputEvent F)

/-- The pass a draw belongs to, read off the program in use and the framebuffer bound. -/
inductive Pass where
  | shadow
  | colour
  | skybox
  | other
deriving DecidableEq, Repr

/-- The observable steps of one loop iteration, in the order they happen. -/
inductive FrameEvent (F : Type) where
  | processInput
  | draw (r : DrawRecord F)
  | swapBuffers
  | pollEvents

/-- A frame event without the pipeline state of a draw. -/
inductive EventKind where
  | processInput
  | draw (p : Pass)
  | swapBuffers
  | pollEvents
deriving DecidableEq, Repr

section Loop

variable {F : Type} [LinearOrderedField F]

/-- The function `FramebufferSizeChangedCallback`: it sets the viewport to the new size. -/
def FramebufferSizeChangedCallback (s : GLState F) (width height : Int) : GLState F :=
  s.step (.viewport 0 0 (width : F) (height : F))

/-- The callback that GLFW runs for an event (registered at lines 159-162). -/
def dispatch (ml : MathLib F) (st : Globals F × GLState F) :
    InputEvent F → Globals F × GLState F
  | .cursorPos xpos ypos => (mouse_callback ml st.1 xpos ypos, st.2)
  | .scroll xoffset yoffset => (scroll_callback st.1 xoffset yoffset, st.2)
  | .framebufferSize width height => (st.1, FramebufferSizeChangedCallback st.2 width height)

/-- One pass through the body of the `while` loop, callbacks included. -/
def runFrame (ml : MathLib F) (st : Globals F × GLState F) (i : FrameInput F) :
    Globals F × GLState F :=
  i.events.foldl (dispatch ml) (loopIteration ml i.keys i.currentFrame st.1 st.2)

/-- The globals and the context after the given loop iterations, from program start. -/
def runLoop (ml : MathLib F) (inputs : List (FrameInput F)) : Globals F × GLState F :=
  inputs.foldl (runFrame ml) (initGlobals, loopEntryState)

/-- The pass of a draw: the depth-only program into the shadow framebuffer, the main program
into the window, or the skybox program. -/
def DrawRecord.pass (r : DrawRecord F) : Pass :=
  if r.program = some .program_mapping ∧ r.framebuffer = .framebuffer then .shadow
  else if r.program = some .program ∧ r.framebuffer = .screen then .colour
  else if r.program = some .skyboxShader then .skybox
  else .other

/-- What a single call shows to an observer: a draw with its pipeline state, a buffer swap or
an event poll; the other calls only change the context. -/
def GLState.event (s : GLState F) : GLCall F → Option (FrameEvent F)
  | .drawArrays first count => some (.draw (s.record false first count))
  | .drawElements count => some (.draw (s.record true 0 count))
  | .swapBuffers => some .swapBuffers
  | .pollEvents => some .pollEvents
  | _ => none

/-- The draws, buffer swaps and event polls made by `calls` from context `s`, in order. -/
def callEvents (s : GLState F) : List (GLCall F) → List (FrameEvent F)
  | [] => []
  | c :: cs => (s.event c).toList ++ callEvents (s.step c) cs

/-- The observable steps of one loop iteration (lines 684-1054): `processInput` first, then
what the calls of the frame produce. -/
def iterationEvents (ml : MathLib F) (keys : Keys) (currentFrame : F)
    (g : Globals F) (s : GLState F) : List (FrameEvent F) :=
  .processInput :: callEvents s (frameCalls ml (loopIteration ml keys currentFrame g s).1)

/-- The kind of a frame event. -/
def FrameEvent.kind : FrameEvent F → EventKind
  | .processInput => .processInput
  | .draw r => .draw r.pass
  | .swapBuffers => .swapBuffers
  | .pollEvents => .pollEvents

end Loop

/-! ## Startup: image loading (lines 545-649) -/

/-- One call of `stbi_load`: the file, the flip-on-load flag in effect, and whether the call
returned data. -/
structure ImageLoad where
  path : String
  flipped : Bool
  loaded : Bool
deriving DecidableEq, Repr

/-- The state touched by the image-loading code. -/
structure ImageState where
  /-- The flag set by `stbi_set_flip_vertically_on_load`, initially off. -/
  flip : Bool
  /-- The `stbi_load` calls made so far. -/
  loads : List ImageLoad
  /-- Whether the wall image was uploaded to `GL_TEXTURE_2D`. -/
  wallUploaded : Bool
  /-- The cube map uploads: `(i, file)` for the data of `file` sent to
  `GL_TEXTURE_CUBE_MAP_POSITIVE_X + i`. -/
  faceUploads : List (Nat × String)
  /-- The diagnostics printed. -/
  messages : List String
deriving DecidableEq, Repr

/-- The array `facesCubemap`. -/
def facesCubemap : List String :=
  ["Skybox/posx.jpg", "Skybox/negx.jpg", "Skybox/posy.jpg", "Skybox/negy.jpg",
   "Skybox/posz.jpg", "Skybox/negz.jpg"]

/-- The stb_image function of the same name. -/
def stbi_set_flip_vertically_on_load (flag : Bool) (st : ImageState) : ImageState :=
  { st with flip := flag }

/-- The stb_image function `stbi_load`; `loadable` says which files it can decode. -/
def stbi_load (loadable : String → Bool) (path : String) (st : ImageState) :
    Bool × ImageState :=
  (loadable path, { st with loads := st.loads ++ [⟨path, st.flip, loadable path⟩] })

/-- Lines 545-581: the wall texture. -/
def loadWallTexture (loadable : String → Bool) (st : ImageState) : ImageState :=
  let st1 := stbi_set_flip_vertically_on_load true st
  let r := stbi_load loadable "final project texture.jpg" st1
  if r.1 then { r.2 with wallUploaded := true }
  else { r.2 with messages := r.2.messages ++ ["Failed to load image"] }

/-- Lines 625-648: the body of the cube map loop for face `i`. -/
def loadCubemapFace (loadable : String → Bool) (st : ImageState) (i : Nat) : ImageState :=
  let path := facesCubemap.getD i ""
  let r := stbi_load loadable path st
  if r.1 then
    let st2 := stbi_set_flip_vertically_on_load false r.2
    { st2 with faceUploads := st2.faceUploads ++ [(i, path)] }
  else { r.2 with messages := r.2.messages ++ ["Failed to load texture: " ++ path] }

/-- Lines 545-649: the wall texture, then the loop `for (i = 0; i < 6; i++)`. -/
def loadImages (loadable : String → Bool) : ImageState :=
  (List.range 6).foldl (loadCubemapFace loadable)
    (loadWallTexture loadable ⟨false, [], false, [], []⟩)

/-! ## Startup: the shadow framebuffer (lines 651-674) -/

/-- The texture parameters set on the depth texture. -/
inductive TexParam where
  | minFilter
  | magFilter
  | wrapS
  | wrapT
deriving DecidableEq, Repr

/-- The parameter values used: `GL_LINEAR` and `GL_REPEAT`. -/
inductive TexParamValue where
  | linear
  | repeating
deriving DecidableEq, Repr

/-- The calls of the framebuffer setup. -/
inductive SetupCall where
  | genFramebuffers
  | genTextures
  | bindTexture2D (t : Option Texture)
  | texImage2DDepth (width height : Nat)
  | texParameteri (p : TexParam) (v : TexParamValue)
  | bindFramebuffer (fb : Framebuffer)
  | framebufferTexture2DDepth (t : Texture)
  | drawBufferNone
  | readBufferNone
  | checkFramebufferStatus
deriving DecidableEq, Repr

/-- The part of the context the framebuffer setup touches. -/
structure SetupState where
  boundTexture2D : Option Texture
  boundFramebuffer : Framebuffer
  /-- The size of each depth texture image. -/
  depthImage : Texture → Option (Nat × Nat)
  texParams : Texture → TexParam → Option TexParamValue
  /-- The texture attached as depth attachment of each framebuffer. -/
  depthAttachment : Framebuffer → Option Texture
  /-- The framebuffer that each `glCheckFramebufferStatus(GL_FRAMEBUFFER)` call examined. -/
  checked : List Framebuffer
  messages : List String

/-- The effect of a setup call; `complete` is the driver's verdict on each framebuffer.
`glCheckFramebufferStatus(GL_FRAMEBUFFER)` examines the framebuffer bound at that moment, and
line 673 prints when the answer is not `GL_FRAMEBUFFER_COMPLETE`. -/
def SetupState.step (complete : Framebuffer → Bool) (s : SetupState) : SetupCall → SetupState
  | .genFramebuffers => s
  | .genTextures => s
  | .bindTexture2D t => { s with boundTexture2D := t }
  | .texImage2DDepth width height =>
    match s.boundTexture2D with
    | some t => { s with depthImage := fun k => if k = t then some (width, height) else s.depthImage k }
    | none => s
  | .texParameteri p v =>
    match s.boundTexture2D with
    | some t =>
      { s with texParams := fun k q => if k = t ∧ q = p then some v else s.texParams k q }
    | none => s
  | .bindFramebuffer fb => { s with boundFramebuffer := fb }
  | .framebufferTexture2DDepth t =>
    { s with depthAttachment := fun fb =>
        if fb = s.boundFramebuffer then some t else s.depthAttachment fb }
  | .drawBufferNone => s
  | .readBufferNone => s
  | .checkFramebufferStatus =>
    let s1 := { s with checked := s.checked ++ [s.boundFramebuffer] }
    if complete s.boundFramebuffer then s1
    else { s1 with messages := s1.messages ++ ["Error! Framebuffer not complete!"] }

/-- The context before the framebuffer setup: the window framebuffer bound, nothing attached. -/
def setupEntryState : SetupState where
  boundTexture2D := none
  boundFramebuffer := .screen
  depthImage := fun _ => none
  texParams := fun _ _ => none
  depthAttachment := fun _ => none
  checked := []
  messages := []

/-- Lines 651-674 in order. -/
def framebufferSetup : List SetupCall :=
  [.genFramebuffers,
   .genTextures,
   .bindTexture2D (some .framebufferTex),
   .texImage2DDepth 2048 2048,
   .texParameteri .minFilter .linear,
   .texParameteri .magFilter .linear,
   .texParameteri .wrapS .repeating,
   .texParameteri .wrapT .repeating,
   .bindTexture2D none,
   .bindFramebuffer .framebuffer,
   .framebufferTexture2DDepth .framebufferTex,
   .drawBufferNone,
   .readBufferNone,
   .bindFramebuffer .screen,
   .checkFramebufferStatus]

/-- The context after the framebuffer setup. -/
def afterFramebufferSetup (complete : Framebuffer → Bool) : SetupState :=
  framebufferSetup.foldl (SetupState.step complete) setupEntryState

/-! ## Startup and shutdown of `main` (lines 126-170, 682, 1057-1071) -/

/-- What the outside world answers during start-up: whether `glfwInit` succeeds, whether
`glfwCreateWindow` returns a window, whether `gladLoadGLLoader` succeeds. -/
structure StartupEnv where
  glfwInit : Bool
  createWindow : Bool
  gladLoad : Bool
deriving DecidableEq, Repr

/-- How far `main` got: the value returned (`none` while the loop is still running), the
number of loop iterations entered, the diagnostics written to `std::cerr`. -/
structure MainOutcome where
  exitCode : Option Int
  iterations : Nat
  messages : List String
deriving DecidableEq, Repr

/-- The loop `while (!glfwWindowShouldClose(window))`: `answers` are the successive results of
`glfwWindowShouldClose`, `n` the iterations done so far.  The result is the number of
iterations after which the loop is left, or `none` when the answers run out first. -/
def renderLoopExit : List Bool → Nat → Option Nat
  | [], _ => none
  | true :: _, n => some n
  | false :: rest, n => renderLoopExit rest (n + 1)

/-- The function `main` as far as its return value goes. -/
def mainOutcome (env : StartupEnv) (shouldClose : List Bool) : MainOutcome :=
  if env.glfwInit = false then ⟨some 1, 0, ["Failed to initialize GLFW!"]⟩
  else if env.createWindow = false then ⟨some 1, 0, ["Failed to create GLFW window!"]⟩
  else if env.gladLoad = false then ⟨some 1, 0, ["Failed to initialize GLAD!"]⟩
  else
    match renderLoopExit shouldClose 0 with
    | some n => ⟨some 0, n, []⟩
    | none => ⟨none, shouldClose.length, []⟩

/-! ## The skybox mesh (lines 85-118) -/

section Skybox

variable {F : Type} [LinearOrderedField F]

/-- The array `skyboxVertices`, three floats per vertex. -/
def skyboxVertices : List (Vec3 F) :=
  [⟨-1, -1, 1⟩, ⟨1, -1, 1⟩, ⟨1, -1, -1⟩, ⟨-1, -1, -1⟩,
   ⟨-1, 1, 1⟩, ⟨1, 1, 1⟩, ⟨1, 1, -1⟩, ⟨-1, 1, -1⟩]

/-- The array `skyboxIndices`. -/
def skyboxIndices : List Nat :=
  [1, 2, 6, 6, 5, 1,   -- Right
   0, 4, 7, 7, 3, 0,   -- Left
   4, 5, 6, 6, 7, 4,   -- Top
   0, 3, 2, 2, 1, 0,   -- Bottom
   0, 1, 5, 5, 4, 0,   -- Back
   3, 7, 6, 6, 2, 3]   -- Front

/-- The three indices of triangle `k` of `glDrawElements(GL_TRIANGLES, 36, GL_UNSIGNED_INT, 0)`. -/
def skyboxTriangle (k : Nat) : List Nat := (skyboxIndices.drop (3 * k)).take 3

/-- The corner positions of triangle `k`. -/
def skyboxTrianglePoints (k : Nat) : List (Vec3 F) :=
  (skyboxTriangle k).map (fun i => skyboxVertices.getD i ⟨0, 0, 0⟩)

/-- A triangle is non-degenerate when the cross product of two of its edges is not zero. -/
def NonDegenerate : List (Vec3 F) → Prop
  | [a, b, c] => cross (b - a) (c - a) ≠ ⟨0, 0, 0⟩
  | _ => False

end Skybox

/-! ## Composition of model matrices -/

section Composition

variable {F : Type} [LinearOrderedField F]

/-- The matrix `M` is `T(t) * S(s) * R`, and it sends a point to `t + s * (R * point)`. -/
def ComposedAs (M : Mat4 F) (t s : Vec3 F) (R : Mat4 F) : Prop :=
  M = translate Mat4.identity t * scale Mat4.identity s * R ∧
  ∀ x y z : F,
    M * (⟨x, y, z, 1⟩ : Vec4 F) =
      ⟨t.x + s.x * (R * (⟨x, y, z, 1⟩ : Vec4 F)).x,
       t.y + s.y * (R * (⟨x, y, z, 1⟩ : Vec4 F)).y,
       t.z + s.z * (R * (⟨x, y, z, 1⟩ : Vec4 F)).z, 1⟩

/-- The local `front` of `mouse_callback` (lines 1120-1123) for the given yaw and pitch in
degrees, before `glm::normalize`. -/
def front (m : MathLib F) (yaw pitch : F) : Vec3 F :=
  ⟨m.cos (radians m yaw) * m.cos (radians m pitch),
   m.sin (radians m pitch),
   m.sin (radians m yaw) * m.cos (radians m pitch)⟩

/-- The globals with which the frame after the iterations `inputs` renders, given what that
frame receives. -/
def frameGlobals (ml : MathLib F) (inputs : List (FrameInput F)) (i : FrameInput F) :
    Globals F :=
  (loopIteration ml i.keys i.currentFrame (runLoop ml inputs).1 (runLoop ml inputs).2).1

end Composition

/-! ## The fragment shader's shadow test -/

section Shader

variable {F : Type} [LinearOrderedField F]

/-- Modelled from the spec: the fragment shader `main.fsh` is not among the sources.  The
shadow comparison of the shading model: the factor is 0 (in shadow) when the fragment's
light-space depth exceeds the stored shadow-map depth beyond the bias, and 1 (lit) otherwise. -/
def shadowComparison (bias depth stored : F) : F :=
  if stored + bias < depth then 0 else 1

/-- Modelled from the spec: the fragment shader `main.fsh` is not among the sources.  The
colour of a fragment: ambient plus the diffuse and specular contributions modulated by the
shadow factor, so that factor 0 keeps the ambient part only. -/
def fragmentColour (ambient diffuse specular : Vec3 F) (factor : F) : Vec3 F :=
  ambient + factor * (diffuse + specular)

/-- Modelled from the spec: the fragment shader `main.fsh` is not among the sources.  The
fragment's world position projected into light clip space with the uniforms `projectionLight`
and `viewLight`, perspective-divided and mapped to [0,1] UV (x, y) and depth (z). -/
def lightSpaceCoords (projectionLight viewLight : Mat4 F) (world : Vec4 F) : Vec3 F :=
  let clip := projectionLight * (viewLight * world)
  ⟨clip.x / clip.w * 0.5 + 0.5, clip.y / clip.w * 0.5 + 0.5, clip.z / clip.w * 0.5 + 0.5⟩

/-- Modelled from the spec: the fragment shader `main.fsh` is not among the sources.  The
shadow factor with the guard at the light-space UV boundary: a fragment whose UV is outside
[0,1] or whose depth is beyond the far plane is not treated as shadowed; otherwise the stored
depth is looked up in `shadowMap` and compared. -/
def shadowFactor (bias : F) (shadowMap : F → F → F) (c : Vec3 F) : F :=
  if c.x < 0 ∨ 1 < c.x ∨ c.y < 0 ∨ 1 < c.y ∨ 1 < c.z then 1
  else shadowComparison bias c.z (shadowMap c.x c.y)

end Shader

/-- The scalar functions over the reals, `glm::radians` multiplying by pi / 180. -/
noncomputable def realMath : MathLib ℝ where
  cos := Real.cos
  sin := Real.sin
  tan := Real.tan
  sqrt := Real.sqrt
  degToRad := Real.pi / 180

/-! ## The type `float`: conversions and scalar functions

The claims about the very first cursor event turn on two things the idealised model leaves
out: `lastX`, `lastY`, `xoffset` and `yoffset` are `float` while the cursor position is
`double`, and `cos(glm::radians(-90.0f))` is not zero in `float`.  Both are modelled here. -/

section Float32

variable {F : Type} [LinearOrderedField F] [FloorRing F]

/-- Rounds to the nearest integer, a tie going to the even neighbour (the IEEE 754 default
rounding). -/
def roundHalfEven (x : F) : ℤ :=
  if x - ⌊x⌋ < 1 / 2 then ⌊x⌋
  else if 1 / 2 < x - ⌊x⌋ then ⌊x⌋ + 1
  else if ⌊x⌋ % 2 = 0 then ⌊x⌋
  else ⌊x⌋ + 1

/-- The conversion of a value to `float` (IEEE 754 binary32, round to nearest, ties to even):
the nearest multiple of the unit in the last place of the value's binade, 24 significant bits,
the exponent not going below -126.  Overflow to infinity is not modelled. -/
def toFloat (x : F) : F :=
  if x = 0 then 0
  else
    (roundHalfEven (x / (2 : F) ^ (max (Int.log 2 |x|) (-126) - 23)) : F) *
      (2 : F) ^ (max (Int.log 2 |x|) (-126) - 23)

/-- The function `mouse_callback` with its conversions written out: `xpos` and `ypos` are
`double`, the globals `lastX`, `lastY` and the locals `xoffset`, `yoffset` are `float`, so
every assignment to them (lines 1099-1107) converts; the subtractions are done in `double`.
The arithmetic on the `float` values themselves stays exact. -/
def mouse_callback_float (m : MathLib F) (g : Globals F) (xpos ypos : F) : Globals F :=
  let g1 := if g.firstMouse then
    { g with lastX := toFloat xpos, lastY := toFloat ypos, firstMouse := false } else g
  let xoffset : F := toFloat (xpos - g1.lastX)
  let yoffset : F := toFloat (g1.lastY - ypos)
  let g2 := { g1 with lastX := toFloat xpos, lastY := toFloat ypos }
  let sensitivity : F := 0.1
  let xoffset := xoffset * sensitivity
  let yoffset := yoffset * sensitivity
  let g3 := { g2 with yaw := g2.yaw + xoffset, pitch := g2.pitch + yoffset }
  let g4 := if g3.pitch > 89 then { g3 with pitch := 89 } else g3
  let g5 := if g4.pitch < -89 then { g4 with pitch := -89 } else g4
  let front : Vec3 F :=
    ⟨m.cos (radians m g5.yaw) * m.cos (radians m g5.pitch),
     m.sin (radians m g5.pitch),
     m.sin (radians m g5.yaw) * m.cos (radians m g5.pitch)⟩
  { g5 with cameraFront := normalize m front }

end Float32

/-- The scalar functions as they act on `float` values: the argument is a `float`, so the
value handed over is converted first, and the result is the exact value of the function
converted to `float`; `glm::radians` multiplies by its constant converted to `float`. -/
noncomputable def float32Math : MathLib ℝ where
  cos := fun x => toFloat (Real.cos (toFloat x))
  sin := fun x => toFloat (Real.sin (toFloat x))
  tan := fun x => toFloat (Real.tan (toFloat x))
  sqrt := fun x => toFloat (Real.sqrt (toFloat x))
  degToRad := toFloat 0.01745329251994329576923690768489

/-! ## Camera state: helper lemmas -/

theorem Vec3.ext_iff3 {F : Type} (a b : Vec3 F) :
    a = b ↔ a.x = b.x ∧ a.y = b.y ∧ a.z = b.z := by
  cases a; cases b; simp

section CameraLemmas

variable {F : Type} [LinearOrderedField F]

theorem add_x (a b : Vec3 F) : (a + b).x = a.x + b.x := rfl

theorem add_y (a b : Vec3 F) : (a + b).y = a.y + b.y := rfl

theorem add_z (a b : Vec3 F) : (a + b).z = a.z + b.z := rfl

theorem sub_x (a b : Vec3 F) : (a - b).x = a.x - b.x := rfl

theorem sub_y (a b : Vec3 F) : (a - b).y = a.y - b.y := rfl

theorem sub_z (a b : Vec3 F) : (a - b).z = a.z - b.z := rfl

theorem smul_x (s : F) (v : Vec3 F) : (s * v).x = s * v.x := rfl

theorem smul_y (s : F) (v : Vec3 F) : (s * v).y = s * v.y := rfl

theorem smul_z (s : F) (v : Vec3 F) : (s * v).z = s * v.z := rfl

theorem muls_x (v : Vec3 F) (s : F) : (v * s).x = v.x * s := rfl

theorem muls_y (v : Vec3 F) (s : F) : (v * s).y = v.y * s := rfl

theorem muls_z (v : Vec3 F) (s : F) : (v * s).z = v.z * s := rfl

/-- The pitch that `mouse_callback` leaves behind, whatever the state before. -/
theorem mouse_callback_pitch_range (m : MathLib F) (g : Globals F) (xpos ypos : F) :
    -89 ≤ (mouse_callback m g xpos ypos).pitch ∧ (mouse_callback m g xpos ypos).pitch ≤ 89 := by
  simp only [mouse_callback]
  split_ifs <;> constructor <;> simp_all

/-- The field of view that `scroll_callback` leaves behind, whatever the state before. -/
theorem scroll_callback_fov_range (g : Globals F) (xoffset yoffset : F) :
    1 ≤ (scroll_callback g xoffset yoffset).fov ∧ (scroll_callback g xoffset yoffset).fov ≤ 45 := by
  simp only [scroll_callback]
  split_ifs <;> constructor <;> simp_all <;> linarith

theorem processInput_pitch (m : MathLib F) (keys : Keys) (g : Globals F) :
    (processInput m keys g).pitch = g.pitch := by
  simp only [processInput]
  split_ifs <;> rfl

theorem scroll_callback_pitch (g : Globals F) (xoffset yoffset : F) :
    (scroll_callback g xoffset yoffset).pitch = g.pitch := by
  simp only [scroll_callback]
  split_ifs <;> rfl

/-- Every reachable state has its pitch within the clamp bounds. -/
theorem Reachable.pitch_range {m : MathLib F} {g : Globals F} (h : Reachable m g) :
    -89 ≤ g.pitch ∧ g.pitch ≤ 89 := by
  induction h with
  | init => simp [initGlobals]
  | input keys _ ih => rw [processInput_pitch]; exact ih
  | time t _ ih => exact ih
  | mouse x y _ _ => exact mouse_callback_pitch_range m _ x y
  | scroll xo yo _ ih => rw [scroll_callback_pitch]; exact ih

end CameraLemmas

/-! ## Camera state: the claims -/

section CameraTheorems

variable {F : Type} [LinearOrderedField F]

/-- C1: starting from the initial globals (pitch 0), after any finite sequence of
`mouse_callback` invocations with arbitrary cursor positions the pitch lies in [-89, 89]. -/
theorem pitch_in_range_after_mouse_events (m : MathLib F) (events : List (F × F)) :
    -89 ≤ (events.foldl (fun g e => mouse_callback m g e.1 e.2) initGlobals).pitch ∧
    (events.foldl (fun g e => mouse_callback m g e.1 e.2) initGlobals).pitch ≤ 89 := by
  induction events using List.reverseRecOn with
  | nil => simp [initGlobals]
  | append_singleton es e _ =>
    rw [List.foldl_append]
    exact mouse_callback_pitch_range m _ e.1 e.2

/-- C2: starting from the initial globals (fov 45), after any finite sequence of
`scroll_callback` invocations with arbitrary offsets the field of view lies in [1, 45]. -/
theorem fov_in_range_after_scroll_events (events : List (F × F)) :
    1 ≤ (events.foldl (fun g e => scroll_callback g e.1 e.2) (initGlobals : Globals F)).fov ∧
    (events.foldl (fun g e => scroll_callback g e.1 e.2) (initGlobals : Globals F)).fov ≤ 45 := by
  induction events using List.reverseRecOn with
  | nil => simp [initGlobals]
  | append_singleton es e _ =>
    rw [List.foldl_append]
    exact scroll_callback_fov_range _ e.1 e.2

/-- C3: for a field of view in [1, 45] and any scroll offset `dy`, `scroll_callback` sets the
field of view to `min 45 (max 1 (fov - dy))`; from the initial fov 45 a scroll of -10 leaves 45
and a scroll of +100 gives 1. -/
theorem scroll_callback_clamps (g : Globals F) (xoffset dy : F)
    (hlo : 1 ≤ g.fov) (hhi : g.fov ≤ 45) :
    (scroll_callback g xoffset dy).fov = min 45 (max 1 (g.fov - dy)) ∧
    (scroll_callback (initGlobals : Globals F) xoffset (-10)).fov = 45 ∧
    (scroll_callback (initGlobals : Globals F) xoffset 100).fov = 1 := by
  refine ⟨?_, ?_, ?_⟩
  · simp only [scroll_callback, hlo, hhi, and_self, if_true, ge_iff_le]
    by_cases h1 : g.fov - dy ≤ 1
    · have h45 : ¬ (45 : F) ≤ 1 := by norm_num
      simp [h1, h45]
    · by_cases h2 : 45 ≤ g.fov - dy
      · simp [h1, h2, le_of_lt (not_le.mp h1)]
      · simp [h1, h2, le_of_lt (not_le.mp h1), le_of_lt (not_le.mp h2)]
  · norm_num [scroll_callback, initGlobals]
  · norm_num [scroll_callback, initGlobals]

/-- Witness of C3 on the rationals: the initial state and a scroll of -10. -/
theorem scroll_callback_clamps_witness :
    (1 : ℚ) ≤ (initGlobals : Globals ℚ).fov ∧ (initGlobals : Globals ℚ).fov ≤ 45 ∧
    (scroll_callback (initGlobals : Globals ℚ) 0 (-10)).fov = 45 :=
  ⟨by norm_num [initGlobals], by norm_num [initGlobals],
   (scroll_callback_clamps (initGlobals : Globals ℚ) 0 (-10)
      (by norm_num [initGlobals]) (by norm_num [initGlobals])).2.1⟩

/-- C6: with `firstMouse` clear, `mouse_callback` adds 0.1 times the cursor delta to yaw, adds
0.1 times `lastY - ypos` to pitch and clamps it to [-89, 89], and stores the normalised
spherical direction of the new angles (converted to radians) in `cameraFront`; a cursor moved
down the screen (larger `ypos`) lowers the pitch. -/
theorem mouse_callback_update (m : MathLib F) (g : Globals F) (xpos ypos : F)
    (hfirst : g.firstMouse = false) :
    (mouse_callback m g xpos ypos).yaw = g.yaw + 0.1 * (xpos - g.lastX) ∧
    (mouse_callback m g xpos ypos).pitch
      = max (-89) (min 89 (g.pitch + 0.1 * (g.lastY - ypos))) ∧
    (mouse_callback m g xpos ypos).pitch
      = min 89 (max (-89) (g.pitch + 0.1 * (g.lastY - ypos))) ∧
    (mouse_callback m g xpos ypos).cameraFront
      = normalize m
          ⟨m.cos (radians m (mouse_callback m g xpos ypos).yaw)
             * m.cos (radians m (mouse_callback m g xpos ypos).pitch),
           m.sin (radians m (mouse_callback m g xpos ypos).pitch),
           m.sin (radians m (mouse_callback m g xpos ypos).yaw)
             * m.cos (radians m (mouse_callback m g xpos ypos).pitch)⟩ ∧
    (g.lastY < ypos →
      g.pitch + 0.1 * (g.lastY - ypos) < g.pitch ∧
      (-89 ≤ g.pitch → (mouse_callback m g xpos ypos).pitch ≤ g.pitch)) := by
  have hp : (mouse_callback m g xpos ypos).pitch
      = max (-89) (min 89 (g.pitch + 0.1 * (g.lastY - ypos))) := by
    simp only [mouse_callback, hfirst]
    by_cases h1 : g.pitch + (g.lastY - ypos) * 0.1 > 89
    · have h1b : (89 : F) ≤ g.pitch + 0.1 * (g.lastY - ypos) := by linarith
      have h2 : ¬ ((89 : F) < -89) := by norm_num
      simp [h1, h2, min_eq_left h1b]
    · have h1b : g.pitch + 0.1 * (g.lastY - ypos) ≤ 89 := by linarith [not_lt.mp h1]
      by_cases h3 : g.pitch + (g.lastY - ypos) * 0.1 < -89
      · have h3b : g.pitch + 0.1 * (g.lastY - ypos) ≤ -89 := by linarith
        simp [h1, h3, min_eq_right h1b, max_eq_left h3b]
      · have h3b : -89 ≤ g.pitch + 0.1 * (g.lastY - ypos) := by linarith [not_lt.mp h3]
        simp only [h1, h3, if_false, Bool.false_eq_true, min_eq_right h1b, max_eq_right h3b]
        ring
  refine ⟨?_, hp, ?_, ?_, ?_⟩
  · simp only [mouse_callback, hfirst, Bool.false_eq_true, if_false]
    split_ifs <;> dsimp only <;> ring
  · rw [hp]
    rcases le_total (g.pitch + 0.1 * (g.lastY - ypos)) 89 with h | h
    · rcases le_total (g.pitch + 0.1 * (g.lastY - ypos)) (-89) with h' | h'
      · rw [min_eq_right h, max_eq_left h']
        exact (min_eq_right (by norm_num)).symm
      · rw [min_eq_right h, max_eq_right h', min_eq_right h]
    · have h' : (-89 : F) ≤ g.pitch + 0.1 * (g.lastY - ypos) := by linarith
      rw [min_eq_left h, max_eq_right h', min_eq_left h]
      exact max_eq_right (by norm_num)
  · simp only [mouse_callback]
  · intro hdown
    have hlt : g.pitch + 0.1 * (g.lastY - ypos) < g.pitch := by linarith
    refine ⟨hlt, fun hge => ?_⟩
    rw [hp]
    exact max_le hge (le_trans (min_le_right _ _) (le_of_lt hlt))

/-- Witness of C6: from the initial values with `firstMouse` cleared, a cursor at (410, 320)
gives yaw -89 and pitch -2. -/
theorem mouse_callback_update_witness :
    ({ (initGlobals : Globals ℝ) with firstMouse := false }).firstMouse = false ∧
    (mouse_callback realMath
        { (initGlobals : Globals ℝ) with firstMouse := false } 410 320).yaw = -89 ∧
    (mouse_callback realMath
        { (initGlobals : Globals ℝ) with firstMouse := false } 410 320).pitch = -2 := by
  have h := mouse_callback_update realMath
    { (initGlobals : Globals ℝ) with firstMouse := false } 410 320 rfl
  refine ⟨rfl, ?_, ?_⟩
  · rw [h.1]; norm_num [initGlobals]
  · rw [h.2.1]; norm_num [initGlobals]

/-- C7: `processInput` moves the camera by `3.5 * deltaTime` per pressed key: W alone adds
that multiple of `cameraFront`, S alone subtracts it, D alone adds that multiple of the
normalised `cross cameraFront cameraUp`, A alone subtracts it, no key leaves the globals
unchanged; with `deltaTime = 1` W moves the position by exactly `3.5 * cameraFront`. -/
theorem processInput_moves_camera (m : MathLib F) (g : Globals F) :
    (processInput m ⟨true, false, false, false⟩ g).cameraPos
      = g.cameraPos + (3.5 * g.deltaTime) * g.cameraFront ∧
    (processInput m ⟨false, true, false, false⟩ g).cameraPos
      = g.cameraPos - (3.5 * g.deltaTime) * g.cameraFront ∧
    (processInput m ⟨false, false, false, true⟩ g).cameraPos
      = g.cameraPos + (3.5 * g.deltaTime) * normalize m (cross g.cameraFront g.cameraUp) ∧
    (processInput m ⟨false, false, true, false⟩ g).cameraPos
      = g.cameraPos - (3.5 * g.deltaTime) * normalize m (cross g.cameraFront g.cameraUp) ∧
    processInput m ⟨false, false, false, false⟩ g = g ∧
    (processInput m ⟨true, false, false, false⟩ { g with deltaTime := 1 }).cameraPos
      = g.cameraPos + (3.5 : F) * g.cameraFront := by
  refine ⟨?_, ?_, ?_, ?_, ?_, ?_⟩
  · simp [processInput]
  · simp [processInput]
  · simp only [processInput, Bool.false_eq_true, if_false, if_true]
    rw [Vec3.ext_iff3]
    simp only [add_x, add_y, add_z, smul_x, smul_y, smul_z, muls_x, muls_y, muls_z]
    refine ⟨?_, ?_, ?_⟩ <;> ring
  · simp only [processInput, Bool.false_eq_true, if_false, if_true]
    rw [Vec3.ext_iff3]
    simp only [sub_x, sub_y, sub_z, smul_x, smul_y, smul_z, muls_x, muls_y, muls_z]
    refine ⟨?_, ?_, ?_⟩ <;> ring
  · simp [processInput]
  · simp [processInput]

end CameraTheorems

/-! ## Camera state over the reals -/

/-- The spherical direction of any two angles has squared length one. -/
theorem dot_spherical (a b : ℝ) :
    dot (⟨Real.cos a * Real.cos b, Real.sin b, Real.sin a * Real.cos b⟩ : Vec3 ℝ)
      ⟨Real.cos a * Real.cos b, Real.sin b, Real.sin a * Real.cos b⟩ = 1 := by
  simp only [dot]
  linear_combination (Real.cos b) ^ 2 * Real.sin_sq_add_cos_sq a + Real.sin_sq_add_cos_sq b

/-- Normalising the spherical direction leaves it as it is. -/
theorem normalize_spherical (a b : ℝ) :
    normalize realMath ⟨Real.cos a * Real.cos b, Real.sin b, Real.sin a * Real.cos b⟩
      = ⟨Real.cos a * Real.cos b, Real.sin b, Real.sin a * Real.cos b⟩ := by
  rw [Vec3.ext_iff3]
  simp only [normalize, inversesqrt, dot_spherical, realMath, Real.sqrt_one, muls_x, muls_y,
    muls_z, div_one, mul_one, and_self]

/-- C4: after every `mouse_callback` invocation, from any globals and for any cursor position,
`cameraFront` has Euclidean length exactly 1 over the reals. -/
theorem cameraFront_unit_length (g : Globals ℝ) (xpos ypos : ℝ) :
    length realMath (mouse_callback realMath g xpos ypos).cameraFront = 1 := by
  have key : ∀ a b : ℝ, length realMath
      (normalize realMath ⟨Real.cos a * Real.cos b, Real.sin b, Real.sin a * Real.cos b⟩) = 1 := by
    intro a b
    rw [normalize_spherical]
    simp only [length, dot_spherical, realMath, Real.sqrt_one]
  simp only [mouse_callback]
  exact key _ _

/-! ## The two passes -/

section PassTheorems

variable {F : Type} [LinearOrderedField F]

/-- The objects drawn by the first pass, from any context. -/
theorem firstPass_objects (ml : MathLib F) (g : Globals F) (s : GLState F) :
    (drawsOf s (firstPass ml g)).map DrawRecord.object =
      [(some (.mat4 roomModelMatrix), 0, 30),
       (some (.mat4 Crate1ModelMatrix), 42, 36),
       (some (.mat4 (Crate2ModelMatrix ml)), 42, 36),
       (some (.mat4 (Crate3ModelMatrix ml)), 42, 36),
       (some (.mat4 (WindowModelMatrix ml)), 156, 6),
       (some (.mat4 (ChairBackModelMatrix ml)), 180, 36),
       (some (.mat4 (ChairBaseModelMatrix ml)), 180, 36),
       (some (.mat4 (ChairLeg1ModelMatrix ml)), 216, 24),
       (some (.mat4 (ChairLeg2ModelMatrix ml)), 216, 24),
       (some (.mat4 (ChairLeg3ModelMatrix ml)), 216, 24),
       (some (.mat4 (ChairLeg4ModelMatrix ml)), 216, 24)] := by
  simp [drawsOf, GLState.run, firstPass, GLState.step, GLState.record, DrawRecord.object]

/-- The objects drawn by the second pass, from any context. -/
theorem secondPass_objects (ml : MathLib F) (g : Globals F) (s : GLState F) :
    (drawsOf s (secondPass ml g)).map DrawRecord.object =
      [(some (.mat4 roomModelMatrix), 0, 30),
       (some (.mat4 Crate1ModelMatrix), 42, 36),
       (some (.mat4 (Crate2ModelMatrix ml)), 42, 36),
       (some (.mat4 (Crate3ModelMatrix ml)), 42, 36),
       (some (.mat4 (WindowModelMatrix ml)), 156, 6),
       (some (.mat4 (ChairBackModelMatrix ml)), 180, 36),
       (some (.mat4 (ChairBaseModelMatrix ml)), 180, 36),
       (some (.mat4 (ChairLeg1ModelMatrix ml)), 216, 24),
       (some (.mat4 (ChairLeg2ModelMatrix ml)), 216, 24),
       (some (.mat4 (ChairLeg3ModelMatrix ml)), 216, 24),
       (some (.mat4 (ChairLeg4ModelMatrix ml)), 216, 24)] := by
  simp [drawsOf, GLState.run, secondPass, secondPassSetup, secondPassDraws, GLState.step,
    GLState.record, DrawRecord.object]

/-- The values of `mat` and `model` seen by the draws of the second pass, from any context. -/
theorem secondPass_mat_model (ml : MathLib F) (g : Globals F) (s : GLState F) :
    (drawsOf s (secondPass ml g)).map (fun r => (r.uniforms .mat, r.uniforms .model)) =
      [roomModelMatrix, Crate1ModelMatrix, Crate2ModelMatrix ml, Crate3ModelMatrix ml,
       WindowModelMatrix ml, ChairBackModelMatrix ml, ChairBaseModelMatrix ml,
       ChairLeg1ModelMatrix ml, ChairLeg2ModelMatrix ml, ChairLeg3ModelMatrix ml,
       ChairLeg4ModelMatrix ml].map
        (fun M => (some (.mat4 (projectionMatrix ml g * viewMatrix ml g * M)), some (.mat4 M))) := by
  simp [drawsOf, GLState.run, secondPass, secondPassSetup, secondPassDraws, GLState.step,
    GLState.record]

/-- C9: in every frame the shadow pass and the colour pass draw the same ordered list of
(model matrix, first vertex, vertex count) triples, whatever context each pass starts in. -/
theorem passes_draw_same_objects (ml : MathLib F) (g : Globals F) (s1 s2 : GLState F) :
    (drawsOf s1 (firstPass ml g)).map DrawRecord.object =
      (drawsOf s2 (secondPass ml g)).map DrawRecord.object := by
  rw [firstPass_objects, secondPass_objects]

/-- C10: for every draw of the colour pass, the uniform `mat` in effect is
`projectionMatrix * viewMatrix * M`, where `M` is the matrix in the uniform `model` at that
same draw. -/
theorem colour_pass_mat_matches_model (ml : MathLib F) (g : Globals F) (s : GLState F)
    (r : DrawRecord F) (hr : r ∈ drawsOf s (secondPass ml g)) :
    ∃ M : Mat4 F, r.uniforms .model = some (.mat4 M) ∧
      r.uniforms .mat = some (.mat4 (projectionMatrix ml g * viewMatrix ml g * M)) := by
  have hmem : (r.uniforms .mat, r.uniforms .model) ∈
      (drawsOf s (secondPass ml g)).map (fun r => (r.uniforms .mat, r.uniforms .model)) :=
    List.mem_map_of_mem _ hr
  rw [secondPass_mat_model, List.mem_map] at hmem
  obtain ⟨M, _, hM⟩ := hmem
  have h1 := congrArg Prod.fst hM
  have h2 := congrArg Prod.snd hM
  exact ⟨M, h2.symm, h1.symm⟩

/-- Witness of C10: the first draw of the colour pass at the initial globals. -/
theorem colour_pass_mat_matches_model_witness :
    ∃ r ∈ drawsOf (loopEntryState : GLState ℝ) (secondPass realMath initGlobals),
      ∃ M : Mat4 ℝ, r.uniforms .model = some (.mat4 M) ∧
        r.uniforms .mat =
          some (.mat4 (projectionMatrix realMath initGlobals * viewMatrix realMath initGlobals * M)) := by
  have hne : drawsOf (loopEntryState : GLState ℝ) (secondPass realMath initGlobals) ≠ [] := by
    intro h
    have h2 := secondPass_objects realMath initGlobals (loopEntryState : GLState ℝ)
    rw [h] at h2
    simp at h2
  exact ⟨_, List.head_mem hne,
    colour_pass_mat_matches_model realMath initGlobals loopEntryState _ (List.head_mem hne)⟩

end PassTheorems

/-! ## The light's view matrix in reachable states -/

section LightView

variable {F : Type} [LinearOrderedField F]

theorem processInput_cameraUp (m : MathLib F) (keys : Keys) (g : Globals F) :
    (processInput m keys g).cameraUp = g.cameraUp := by
  simp only [processInput]
  split_ifs <;> rfl

theorem mouse_callback_cameraUp (m : MathLib F) (g : Globals F) (xpos ypos : F) :
    (mouse_callback m g xpos ypos).cameraUp = g.cameraUp := by
  simp only [mouse_callback]
  split_ifs <;> rfl

theorem scroll_callback_cameraUp (g : Globals F) (xoffset yoffset : F) :
    (scroll_callback g xoffset yoffset).cameraUp = g.cameraUp := by
  simp only [scroll_callback]
  split_ifs <;> rfl

/-- The global `cameraUp` is never written: it is (0, 1, 0) in every reachable state. -/
theorem Reachable.cameraUp_eq {m : MathLib F} {g : Globals F} (h : Reachable m g) :
    g.cameraUp = ⟨0, 1, 0⟩ := by
  induction h with
  | init => rfl
  | input keys _ ih => rw [processInput_cameraUp]; exact ih
  | time t _ ih => exact ih
  | mouse x y _ ih => rw [mouse_callback_cameraUp]; exact ih
  | scroll xo yo _ ih => rw [scroll_callback_cameraUp]; exact ih

/-- In every reachable state the matrix uploaded as the shadow pass's `view` is
`lookAt((0,10,-10), (0,0,0), (0,1,0))`. -/
theorem Reachable.viewMatrixLight_eq {m : MathLib F} {g : Globals F} (h : Reachable m g) :
    viewMatrixLight m g = lookAt m ⟨0, 10, -10⟩ ⟨0, 0, 0⟩ ⟨0, 1, 0⟩ := by
  rw [viewMatrixLight, h.cameraUp_eq]

end LightView

/-! ## Shadow pass geometry over the reals -/

theorem Vec4.ext_iff4 {F : Type} (a b : Vec4 F) :
    a = b ↔ a.x = b.x ∧ a.y = b.y ∧ a.z = b.z ∧ a.w = b.w := by
  cases a; cases b; simp

theorem mulVec_eq {F : Type} [LinearOrderedField F] (m : Mat4 F) (v : Vec4 F) :
    m * v =
      ⟨m.c0.x * v.x + m.c1.x * v.y + m.c2.x * v.z + m.c3.x * v.w,
       m.c0.y * v.x + m.c1.y * v.y + m.c2.y * v.z + m.c3.y * v.w,
       m.c0.z * v.x + m.c1.z * v.y + m.c2.z * v.z + m.c3.z * v.w,
       m.c0.w * v.x + m.c1.w * v.y + m.c2.w * v.z + m.c3.w * v.w⟩ := rfl

theorem mulMat_eq {F : Type} [LinearOrderedField F] (m n : Mat4 F) :
    m * n = ⟨m * n.c0, m * n.c1, m * n.c2, m * n.c3⟩ := rfl

/-- Matrix product and matrix-vector product associate. -/
theorem mulMat_mulVec {F : Type} [LinearOrderedField F] (a b : Mat4 F) (v : Vec4 F) :
    a * b * v = a * (b * v) := by
  rw [Vec4.ext_iff4]
  simp only [mulMat_eq, mulVec_eq]
  refine ⟨?_, ?_, ?_, ?_⟩ <;> ring

theorem sqrt_two_mul_self : √2 * √2 = (2 : ℝ) := Real.mul_self_sqrt (by norm_num)

theorem sqrt_two_bounds : (1.41 : ℝ) < √2 ∧ √2 < 1.42 := by
  have h := sqrt_two_mul_self
  have h0 : (0 : ℝ) ≤ √2 := Real.sqrt_nonneg 2
  constructor <;> nlinarith

theorem sqrt_200 : √(200 : ℝ) = 10 * √2 := by
  rw [show (200 : ℝ) = 10 ^ 2 * 2 by norm_num, Real.sqrt_mul (by positivity),
    Real.sqrt_sq (by norm_num)]

theorem sqrt_half : √(1 / 2 : ℝ) = √2 / 2 := by
  rw [Real.sqrt_eq_iff_mul_self_eq (by norm_num) (by positivity)]
  nlinarith [sqrt_two_mul_self]

/-- The forward axis of the light's view. -/
theorem light_forward :
    normalize realMath ((⟨0, 0, 0⟩ : Vec3 ℝ) - ⟨0, 10, -10⟩) = ⟨0, -(√2 / 2), √2 / 2⟩ := by
  have h2 : (√2 : ℝ) ≠ 0 := by have := sqrt_two_bounds.1; positivity
  have hd : dot ((⟨0, 0, 0⟩ : Vec3 ℝ) - ⟨0, 10, -10⟩) ((⟨0, 0, 0⟩ : Vec3 ℝ) - ⟨0, 10, -10⟩) = 200 := by
    simp only [dot, sub_x, sub_y, sub_z]; norm_num
  rw [Vec3.ext_iff3]
  simp only [normalize, inversesqrt, hd, realMath, sqrt_200, muls_x, muls_y, muls_z,
    sub_x, sub_y, sub_z]
  refine ⟨by norm_num, ?_, ?_⟩
  · field_simp; nlinarith [sqrt_two_mul_self]
  · field_simp; nlinarith [sqrt_two_mul_self]

/-- The side axis of the light's view. -/
theorem light_side :
    normalize realMath (cross (⟨0, -(√2 / 2), √2 / 2⟩ : Vec3 ℝ) ⟨0, 1, 0⟩) = ⟨-1, 0, 0⟩ := by
  have h2 : (√2 : ℝ) ≠ 0 := by have := sqrt_two_bounds.1; positivity
  have hc : cross (⟨0, -(√2 / 2), √2 / 2⟩ : Vec3 ℝ) ⟨0, 1, 0⟩ = ⟨-(√2 / 2), 0, 0⟩ := by
    rw [Vec3.ext_iff3]; simp [cross]
  have hd : dot (⟨-(√2 / 2), 0, 0⟩ : Vec3 ℝ) ⟨-(√2 / 2), 0, 0⟩ = 1 / 2 := by
    simp only [dot]; nlinarith [sqrt_two_mul_self]
  rw [hc, Vec3.ext_iff3]
  simp only [normalize, inversesqrt, hd, realMath, sqrt_half, muls_x, muls_y, muls_z]
  refine ⟨?_, by norm_num, by norm_num⟩
  field_simp

/-- The light's view matrix, written out. -/
theorem light_view_matrix :
    lookAt realMath ⟨0, 10, -10⟩ ⟨0, 0, 0⟩ ⟨0, 1, 0⟩ =
      (⟨⟨-1, 0, 0, 0⟩, ⟨0, √2 / 2, √2 / 2, 0⟩, ⟨0, √2 / 2, -(√2 / 2), 0⟩,
        ⟨0, 0, -(10 * √2), 1⟩⟩ : Mat4 ℝ) := by
  simp only [lookAt, light_forward, light_side]
  simp only [cross, dot]
  congr 1
  · norm_num
  · rw [Vec4.ext_iff4]; norm_num
  · rw [Vec4.ext_iff4]; norm_num
  · rw [Vec4.ext_iff4]; refine ⟨by norm_num, by ring, by ring, rfl⟩

/-- The light-view-space image of a world-space point. -/
theorem light_view_apply (x y z : ℝ) :
    lookAt realMath ⟨0, 10, -10⟩ ⟨0, 0, 0⟩ ⟨0, 1, 0⟩ * (⟨x, y, z, 1⟩ : Vec4 ℝ) =
      ⟨-x, √2 / 2 * (y + z), -(√2 / 2 * (z - y + 20)), 1⟩ := by
  rw [light_view_matrix, mulVec_eq, Vec4.ext_iff4]
  refine ⟨by ring, by ring, by ring, by ring⟩

theorem vec4_mul_scalar {F : Type} [LinearOrderedField F] (v : Vec4 F) (s : F) :
    v * s = ⟨v.x * s, v.y * s, v.z * s, v.w * s⟩ := rfl

theorem vec4_add {F : Type} [LinearOrderedField F] (a b : Vec4 F) :
    a + b = ⟨a.x + b.x, a.y + b.y, a.z + b.z, a.w + b.w⟩ := rfl

theorem vec3_scalar_mul {F : Type} [LinearOrderedField F] (s : F) (v : Vec3 F) :
    s * v = ⟨s * v.x, s * v.y, s * v.z⟩ := rfl

theorem normalize_axis_y : normalize realMath (⟨0, 1, 0⟩ : Vec3 ℝ) = ⟨0, 1, 0⟩ := by
  rw [Vec3.ext_iff3]
  simp [normalize, inversesqrt, dot, realMath, muls_x, muls_y, muls_z]

theorem normalize_axis_x : normalize realMath (⟨1, 0, 0⟩ : Vec3 ℝ) = ⟨1, 0, 0⟩ := by
  rw [Vec3.ext_iff3]
  simp [normalize, inversesqrt, dot, realMath, muls_x, muls_y, muls_z]

/-- A point moved by a scaling of the identity. -/
theorem scale_apply (k x y z : ℝ) :
    scale Mat4.identity ⟨k, k, k⟩ * (⟨x, y, z, 1⟩ : Vec4 ℝ) = ⟨k * x, k * y, k * z, 1⟩ := by
  rw [mulVec_eq, Vec4.ext_iff4]
  simp only [scale, Mat4.identity, vec4_mul_scalar]
  refine ⟨?_, ?_, ?_, ?_⟩ <;> ring

/-- A point moved by a translation of the identity. -/
theorem translate_apply (t : Vec3 ℝ) (x y z : ℝ) :
    translate Mat4.identity t * (⟨x, y, z, 1⟩ : Vec4 ℝ) = ⟨t.x + x, t.y + y, t.z + z, 1⟩ := by
  rw [mulVec_eq, Vec4.ext_iff4]
  simp only [translate, Mat4.identity, vec4_mul_scalar, vec4_add]
  refine ⟨?_, ?_, ?_, ?_⟩ <;> ring

/-- A point moved by translate, then scale, then rotate about the y axis (as composed by GLM):
it is rotated first, then scaled, then translated. -/
theorem trs_y_apply (t : Vec3 ℝ) (k θ x y z : ℝ) :
    rotate realMath (scale (translate Mat4.identity t) ⟨k, k, k⟩) θ ⟨0, 1, 0⟩
        * (⟨x, y, z, 1⟩ : Vec4 ℝ) =
      ⟨t.x + k * (Real.cos θ * x + Real.sin θ * z), t.y + k * y,
       t.z + k * (Real.cos θ * z - Real.sin θ * x), 1⟩ := by
  rw [mulVec_eq, Vec4.ext_iff4]
  simp only [rotate, normalize_axis_y, scale, translate, Mat4.identity, vec4_mul_scalar, vec4_add,
    vec3_scalar_mul]
  simp only [realMath]
  refine ⟨?_, ?_, ?_, ?_⟩ <;> ring

/-- The same with a further rotation about the x axis applied first. -/
theorem trs_yx_apply (t : Vec3 ℝ) (k θ φ x y z : ℝ) :
    rotate realMath (rotate realMath (scale (translate Mat4.identity t) ⟨k, k, k⟩) θ ⟨0, 1, 0⟩)
        φ ⟨1, 0, 0⟩ * (⟨x, y, z, 1⟩ : Vec4 ℝ) =
      ⟨t.x + k * (Real.cos θ * x + Real.sin θ * (Real.sin φ * y + Real.cos φ * z)),
       t.y + k * (Real.cos φ * y - Real.sin φ * z),
       t.z + k * (Real.cos θ * (Real.sin φ * y + Real.cos φ * z) - Real.sin θ * x), 1⟩ := by
  rw [mulVec_eq, Vec4.ext_iff4]
  simp only [rotate, normalize_axis_y, normalize_axis_x, scale, translate, Mat4.identity,
    vec4_mul_scalar, vec4_add, vec3_scalar_mul]
  simp only [realMath]
  refine ⟨?_, ?_, ?_, ?_⟩ <;> ring

/-! ### The angles of the scene -/

theorem radians_90 : radians realMath 90 = Real.pi / 2 := by
  simp only [radians, realMath]; ring

theorem cos_neg25 : 0 ≤ Real.cos (radians realMath (-25)) ∧ Real.cos (radians realMath (-25)) ≤ 1 := by
  have hpi := Real.pi_pos
  refine ⟨Real.cos_nonneg_of_neg_pi_div_two_le_of_le ?_ ?_, Real.cos_le_one _⟩ <;>
    simp only [radians, realMath] <;> linarith

theorem sin_neg25 :
    -(1 / 2) ≤ Real.sin (radians realMath (-25)) ∧ Real.sin (radians realMath (-25)) ≤ 0 := by
  have hpi := Real.pi_pos
  constructor
  · have h := Real.sin_le_sin_of_le_of_le_pi_div_two
      (show -(Real.pi / 2) ≤ -(Real.pi / 6) by linarith)
      (show radians realMath (-25) ≤ Real.pi / 2 by simp only [radians, realMath]; linarith)
      (show -(Real.pi / 6) ≤ radians realMath (-25) by simp only [radians, realMath]; linarith)
    rw [Real.sin_neg, Real.sin_pi_div_six] at h
    exact h
  · apply Real.sin_nonpos_of_nonnpos_of_neg_pi_le <;> simp only [radians, realMath] <;> linarith

/-! ### The vertices of each drawn range -/

theorem drawn_room : drawnVertices 0 30 = (roomVertices : List (Vertex ℝ)).take 30 := rfl

theorem drawn_crate : drawnVertices 42 36 = (crate1Vertices : List (Vertex ℝ)) := rfl

theorem drawn_window :
    drawnVertices 156 6 = (door2WindowVertices : List (Vertex ℝ)).drop 6 := rfl

theorem drawn_chair : drawnVertices 180 36 = (chairBackVertices : List (Vertex ℝ)) := rfl

theorem drawn_leg : drawnVertices 216 24 = (chairLegVertices : List (Vertex ℝ)) := rfl

theorem room_corners (v : Vertex ℝ) (hv : v ∈ drawnVertices 0 30) :
    (v.x = 1 ∨ v.x = -1) ∧ (v.y = 1 ∨ v.y = -1) ∧ (v.z = 1 ∨ v.z = -1) := by
  revert v
  rw [drawn_room]
  simp only [roomVertices, List.take, List.forall_mem_cons]
  norm_num

theorem crate_corners (v : Vertex ℝ) (hv : v ∈ drawnVertices 42 36) :
    (v.x = 1 ∨ v.x = -1) ∧ (v.y = 1 ∨ v.y = -1) ∧ (v.z = 1 ∨ v.z = -1) := by
  revert v
  rw [drawn_crate]
  simp only [crate1Vertices, List.forall_mem_cons]
  norm_num

theorem window_corners (v : Vertex ℝ) (hv : v ∈ drawnVertices 156 6) :
    (v.x = 0.5 ∨ v.x = -0.25) ∧ (v.y = 0 ∨ v.y = -1) ∧ v.z = 0.99 := by
  revert v
  rw [drawn_window]
  simp only [door2WindowVertices, List.drop, List.forall_mem_cons]
  norm_num

theorem chair_corners (v : Vertex ℝ) (hv : v ∈ drawnVertices 180 36) :
    (v.x = 0.5 ∨ v.x = -1) ∧ (v.y = 1 ∨ v.y = -1) ∧ (v.z = 0.5 ∨ v.z = 1) := by
  revert v
  rw [drawn_chair]
  simp only [chairBackVertices, List.forall_mem_cons]
  norm_num

theorem leg_corners (v : Vertex ℝ) (hv : v ∈ drawnVertices 216 24) :
    (v.x = 0.5 ∨ v.x = 0.25) ∧ (v.y = 1 ∨ v.y = -1) ∧ (v.z = 0.75 ∨ v.z = 1) := by
  revert v
  rw [drawn_leg]
  simp only [chairLegVertices, List.forall_mem_cons]
  norm_num

theorem sqrt_two_tight : (1.414 : ℝ) < √2 ∧ √2 < 1.415 := by
  have h := sqrt_two_mul_self
  have h0 : (0 : ℝ) ≤ √2 := Real.sqrt_nonneg 2
  constructor <;> nlinarith

/-- World-space conditions that put a point inside the light's frustum. -/
theorem in_frustum_of_world (x y z : ℝ) (hx1 : -10 ≤ x) (hx2 : x ≤ 10)
    (hy1 : -14.1 ≤ y + z) (hy2 : y + z ≤ 14.1)
    (hz1 : 14.2 ≤ z - y + 20) (hz2 : z - y + 20 ≤ 28.2) :
    InLightFrustum
      (lookAt realMath ⟨0, 10, -10⟩ ⟨0, 0, 0⟩ ⟨0, 1, 0⟩ * (⟨x, y, z, 1⟩ : Vec4 ℝ)) := by
  obtain ⟨hlo, hhi⟩ := sqrt_two_tight
  have hs : (0 : ℝ) ≤ √2 / 2 := by positivity
  have a1 := mul_le_mul_of_nonneg_left hy1 hs
  have a2 := mul_le_mul_of_nonneg_left hy2 hs
  have a3 := mul_le_mul_of_nonneg_left hz1 hs
  have a4 := mul_le_mul_of_nonneg_left hz2 hs
  rw [light_view_apply]
  simp only [InLightFrustum, neg_neg]
  refine ⟨by linarith, by linarith, by linarith, by linarith, by linarith, by linarith⟩

/-- World-space conditions that put a point inside the light's frustum sideways and between
`5 √2` and `15 √2` in depth. -/
theorem wide_of_world (x y z : ℝ) (hx1 : -10 ≤ x) (hx2 : x ≤ 10)
    (hy1 : -14.1 ≤ y + z) (hy2 : y + z ≤ 14.1)
    (hz1 : 10 ≤ z - y + 20) (hz2 : z - y + 20 ≤ 30) :
    -10 ≤ (lookAt realMath ⟨0, 10, -10⟩ ⟨0, 0, 0⟩ ⟨0, 1, 0⟩ * (⟨x, y, z, 1⟩ : Vec4 ℝ)).x ∧
    (lookAt realMath ⟨0, 10, -10⟩ ⟨0, 0, 0⟩ ⟨0, 1, 0⟩ * (⟨x, y, z, 1⟩ : Vec4 ℝ)).x ≤ 10 ∧
    -10 ≤ (lookAt realMath ⟨0, 10, -10⟩ ⟨0, 0, 0⟩ ⟨0, 1, 0⟩ * (⟨x, y, z, 1⟩ : Vec4 ℝ)).y ∧
    (lookAt realMath ⟨0, 10, -10⟩ ⟨0, 0, 0⟩ ⟨0, 1, 0⟩ * (⟨x, y, z, 1⟩ : Vec4 ℝ)).y ≤ 10 ∧
    5 * √2 ≤ -(lookAt realMath ⟨0, 10, -10⟩ ⟨0, 0, 0⟩ ⟨0, 1, 0⟩ * (⟨x, y, z, 1⟩ : Vec4 ℝ)).z ∧
    -(lookAt realMath ⟨0, 10, -10⟩ ⟨0, 0, 0⟩ ⟨0, 1, 0⟩ * (⟨x, y, z, 1⟩ : Vec4 ℝ)).z
      ≤ 15 * √2 := by
  obtain ⟨hlo, hhi⟩ := sqrt_two_tight
  have hs : (0 : ℝ) ≤ √2 / 2 := by positivity
  have a1 := mul_le_mul_of_nonneg_left hy1 hs
  have a2 := mul_le_mul_of_nonneg_left hy2 hs
  have a3 := mul_le_mul_of_nonneg_left hz1 hs
  have a4 := mul_le_mul_of_nonneg_left hz2 hs
  rw [light_view_apply]
  simp only [neg_neg]
  refine ⟨by linarith, by linarith, by linarith, by linarith, by linarith, by linarith⟩

/-- The frustum is inside the wider depth range. -/
theorem wide_of_in_frustum (p : Vec4 ℝ) (h : InLightFrustum p) :
    -10 ≤ p.x ∧ p.x ≤ 10 ∧ -10 ≤ p.y ∧ p.y ≤ 10 ∧ 5 * √2 ≤ -p.z ∧ -p.z ≤ 15 * √2 := by
  obtain ⟨hlo, hhi⟩ := sqrt_two_tight
  obtain ⟨h1, h2, h3, h4, h5, h6⟩ := h
  exact ⟨h1, h2, h3, h4, by linarith, by linarith⟩

theorem room_world (x y z : ℝ) (hx : x = 1 ∨ x = -1) (hy : y = 1 ∨ y = -1)
    (hz : z = 1 ∨ z = -1) :
    ∃ a b c : ℝ, (roomModelMatrix : Mat4 ℝ) * (⟨x, y, z, 1⟩ : Vec4 ℝ) = ⟨a, b, c, 1⟩ ∧
      -10 ≤ a ∧ a ≤ 10 ∧ -14.1 ≤ b + c ∧ b + c ≤ 14.1 ∧ 10 ≤ c - b + 20 ∧ c - b + 20 ≤ 30 := by
  refine ⟨5 * x, 5 * y, 5 * z, by rw [roomModelMatrix, scale_apply], ?_⟩
  rcases hx with rfl | rfl <;> rcases hy with rfl | rfl <;> rcases hz with rfl | rfl <;>
    norm_num

theorem crate1_light_view (x y z : ℝ) (hx : x = 1 ∨ x = -1) (hy : y = 1 ∨ y = -1)
    (hz : z = 1 ∨ z = -1) :
    InLightFrustum (lookAt realMath ⟨0, 10, -10⟩ ⟨0, 0, 0⟩ ⟨0, 1, 0⟩ *
      ((Crate1ModelMatrix : Mat4 ℝ) * (⟨x, y, z, 1⟩ : Vec4 ℝ))) := by
  rw [Crate1ModelMatrix, translate_apply]
  apply in_frustum_of_world <;> dsimp only <;>
    rcases hx with rfl | rfl <;> rcases hy with rfl | rfl <;> rcases hz with rfl | rfl <;>
    norm_num

theorem crate2_light_view (x y z : ℝ) (hx : x = 1 ∨ x = -1) (hy : y = 1 ∨ y = -1)
    (hz : z = 1 ∨ z = -1) :
    InLightFrustum (lookAt realMath ⟨0, 10, -10⟩ ⟨0, 0, 0⟩ ⟨0, 1, 0⟩ *
      (Crate2ModelMatrix realMath * (⟨x, y, z, 1⟩ : Vec4 ℝ))) := by
  have c1 := Real.cos_le_one (radians realMath 45)
  have c2 := Real.neg_one_le_cos (radians realMath 45)
  have s1 := Real.sin_le_one (radians realMath 45)
  have s2 := Real.neg_one_le_sin (radians realMath 45)
  rw [Crate2ModelMatrix, trs_y_apply]
  have y1 : -1 ≤ y := by rcases hy with rfl | rfl <;> norm_num
  have y2 : y ≤ 1 := by rcases hy with rfl | rfl <;> norm_num
  apply in_frustum_of_world <;> dsimp only <;>
    rcases hx with rfl | rfl <;> rcases hz with rfl | rfl <;> linarith

theorem crate3_light_view (x y z : ℝ) (hx : x = 1 ∨ x = -1) (hy : y = 1 ∨ y = -1)
    (hz : z = 1 ∨ z = -1) :
    InLightFrustum (lookAt realMath ⟨0, 10, -10⟩ ⟨0, 0, 0⟩ ⟨0, 1, 0⟩ *
      (Crate3ModelMatrix realMath * (⟨x, y, z, 1⟩ : Vec4 ℝ))) := by
  have c1 := Real.cos_le_one (radians realMath 250)
  have c2 := Real.neg_one_le_cos (radians realMath 250)
  have s1 := Real.sin_le_one (radians realMath 250)
  have s2 := Real.neg_one_le_sin (radians realMath 250)
  rw [Crate3ModelMatrix, trs_y_apply]
  have y1 : -1 ≤ y := by rcases hy with rfl | rfl <;> norm_num
  have y2 : y ≤ 1 := by rcases hy with rfl | rfl <;> norm_num
  apply in_frustum_of_world <;> dsimp only <;>
    rcases hx with rfl | rfl <;> rcases hz with rfl | rfl <;> linarith

theorem window_light_view (x y z : ℝ) (hx : x = 0.5 ∨ x = -0.25) (hy : y = 0 ∨ y = -1)
    (hz : z = 0.99) :
    InLightFrustum (lookAt realMath ⟨0, 10, -10⟩ ⟨0, 0, 0⟩ ⟨0, 1, 0⟩ *
      (WindowModelMatrix realMath * (⟨x, y, z, 1⟩ : Vec4 ℝ))) := by
  rw [WindowModelMatrix, trs_y_apply, radians_90, Real.cos_pi_div_two, Real.sin_pi_div_two]
  subst hz
  apply in_frustum_of_world <;> dsimp only <;>
    rcases hx with rfl | rfl <;> rcases hy with rfl | rfl <;> norm_num

theorem chairBack_light_view (x y z : ℝ) (hx : x = 0.5 ∨ x = -1) (hy : y = 1 ∨ y = -1)
    (hz : z = 0.5 ∨ z = 1) :
    InLightFrustum (lookAt realMath ⟨0, 10, -10⟩ ⟨0, 0, 0⟩ ⟨0, 1, 0⟩ *
      (ChairBackModelMatrix realMath * (⟨x, y, z, 1⟩ : Vec4 ℝ))) := by
  obtain ⟨c1, c2⟩ := cos_neg25
  obtain ⟨s1, s2⟩ := sin_neg25
  rw [ChairBackModelMatrix, trs_y_apply]
  have y1 : -1 ≤ y := by rcases hy with rfl | rfl <;> norm_num
  have y2 : y ≤ 1 := by rcases hy with rfl | rfl <;> norm_num
  apply in_frustum_of_world <;> dsimp only <;>
    rcases hx with rfl | rfl <;> rcases hz with rfl | rfl <;> linarith

theorem chairBase_light_view (x y z : ℝ) (hx : x = 0.5 ∨ x = -1) (hy : y = 1 ∨ y = -1)
    (hz : z = 0.5 ∨ z = 1) :
    InLightFrustum (lookAt realMath ⟨0, 10, -10⟩ ⟨0, 0, 0⟩ ⟨0, 1, 0⟩ *
      (ChairBaseModelMatrix realMath * (⟨x, y, z, 1⟩ : Vec4 ℝ))) := by
  obtain ⟨c1, c2⟩ := cos_neg25
  obtain ⟨s1, s2⟩ := sin_neg25
  rw [ChairBaseModelMatrix, trs_yx_apply, radians_90, Real.cos_pi_div_two, Real.sin_pi_div_two]
  have z1 : 0.5 ≤ z := by rcases hz with rfl | rfl <;> norm_num
  have z2 : z ≤ 1 := by rcases hz with rfl | rfl <;> norm_num
  apply in_frustum_of_world <;> dsimp only <;>
    rcases hx with rfl | rfl <;> rcases hy with rfl | rfl <;> linarith

theorem chairLeg1_light_view (x y z : ℝ) (hx : x = 0.5 ∨ x = 0.25) (hy : y = 1 ∨ y = -1)
    (hz : z = 0.75 ∨ z = 1) :
    InLightFrustum (lookAt realMath ⟨0, 10, -10⟩ ⟨0, 0, 0⟩ ⟨0, 1, 0⟩ *
      (ChairLeg1ModelMatrix realMath * (⟨x, y, z, 1⟩ : Vec4 ℝ))) := by
  obtain ⟨c1, c2⟩ := cos_neg25
  obtain ⟨s1, s2⟩ := sin_neg25
  rw [ChairLeg1ModelMatrix, trs_y_apply]
  have y1 : -1 ≤ y := by rcases hy with rfl | rfl <;> norm_num
  have y2 : y ≤ 1 := by rcases hy with rfl | rfl <;> norm_num
  apply in_frustum_of_world <;> dsimp only <;>
    rcases hx with rfl | rfl <;> rcases hz with rfl | rfl <;> linarith

theorem chairLeg2_light_view (x y z : ℝ) (hx : x = 0.5 ∨ x = 0.25) (hy : y = 1 ∨ y = -1)
    (hz : z = 0.75 ∨ z = 1) :
    InLightFrustum (lookAt realMath ⟨0, 10, -10⟩ ⟨0, 0, 0⟩ ⟨0, 1, 0⟩ *
      (ChairLeg2ModelMatrix realMath * (⟨x, y, z, 1⟩ : Vec4 ℝ))) := by
  obtain ⟨c1, c2⟩ := cos_neg25
  obtain ⟨s1, s2⟩ := sin_neg25
  rw [ChairLeg2ModelMatrix, trs_y_apply]
  have y1 : -1 ≤ y := by rcases hy with rfl | rfl <;> norm_num
  have y2 : y ≤ 1 := by rcases hy with rfl | rfl <;> norm_num
  apply in_frustum_of_world <;> dsimp only <;>
    rcases hx with rfl | rfl <;> rcases hz with rfl | rfl <;> linarith

theorem chairLeg3_light_view (x y z : ℝ) (hx : x = 0.5 ∨ x = 0.25) (hy : y = 1 ∨ y = -1)
    (hz : z = 0.75 ∨ z = 1) :
    InLightFrustum (lookAt realMath ⟨0, 10, -10⟩ ⟨0, 0, 0⟩ ⟨0, 1, 0⟩ *
      (ChairLeg3ModelMatrix realMath * (⟨x, y, z, 1⟩ : Vec4 ℝ))) := by
  obtain ⟨c1, c2⟩ := cos_neg25
  obtain ⟨s1, s2⟩ := sin_neg25
  rw [ChairLeg3ModelMatrix, trs_y_apply]
  have y1 : -1 ≤ y := by rcases hy with rfl | rfl <;> norm_num
  have y2 : y ≤ 1 := by rcases hy with rfl | rfl <;> norm_num
  apply in_frustum_of_world <;> dsimp only <;>
    rcases hx with rfl | rfl <;> rcases hz with rfl | rfl <;> linarith

theorem chairLeg4_light_view (x y z : ℝ) (hx : x = 0.5 ∨ x = 0.25) (hy : y = 1 ∨ y = -1)
    (hz : z = 0.75 ∨ z = 1) :
    InLightFrustum (lookAt realMath ⟨0, 10, -10⟩ ⟨0, 0, 0⟩ ⟨0, 1, 0⟩ *
      (ChairLeg4ModelMatrix realMath * (⟨x, y, z, 1⟩ : Vec4 ℝ))) := by
  obtain ⟨c1, c2⟩ := cos_neg25
  obtain ⟨s1, s2⟩ := sin_neg25
  rw [ChairLeg4ModelMatrix, trs_y_apply]
  have y1 : -1 ≤ y := by rcases hy with rfl | rfl <;> norm_num
  have y2 : y ≤ 1 := by rcases hy with rfl | rfl <;> norm_num
  apply in_frustum_of_world <;> dsimp only <;>
    rcases hx with rfl | rfl <;> rcases hz with rfl | rfl <;> linarith

/-- A point inside the frustum satisfies every part of the amended bound. -/
theorem amended_of_in_frustum (p : Vec4 ℝ) (first : Nat) (h : InLightFrustum p) :
    -10 ≤ p.x ∧ p.x ≤ 10 ∧ -10 ≤ p.y ∧ p.y ≤ 10 ∧ 5 * √2 ≤ -p.z ∧ -p.z ≤ 15 * √2 ∧
      (first ≠ 0 → InLightFrustum p) := by
  obtain ⟨h1, h2, h3, h4, h5, h6⟩ := wide_of_in_frustum p h
  exact ⟨h1, h2, h3, h4, h5, h6, fun _ => h⟩

/-- C8, counterexample: the room is the first draw of the shadow pass, the corner (1, -1, 1)
(index 5, right wall) is in its range 0..29, and its light-view-space distance along the view
direction exceeds the far plane 20, so it is outside the light's frustum. -/
theorem room_corner_outside_light_frustum :
    (some (UniformValue.mat4 (roomModelMatrix : Mat4 ℝ)), 0, 30) ∈
      (drawsOf (loopEntryState : GLState ℝ) (firstPass realMath initGlobals)).map
        DrawRecord.object ∧
    (⟨1, -1, 1, 255, 255, 255, 0.5, 0.5, -1, 0, 0⟩ : Vertex ℝ) ∈ drawnVertices 0 30 ∧
    20 < -(lightViewPosition realMath roomModelMatrix
            ⟨1, -1, 1, 255, 255, 255, 0.5, 0.5, -1, 0, 0⟩).z ∧
    ¬ InLightFrustum (lightViewPosition realMath roomModelMatrix
            ⟨1, -1, 1, 255, 255, 255, 0.5, 0.5, -1, 0, 0⟩) := by
  have hz : 20 < -(lightViewPosition realMath roomModelMatrix
            (⟨1, -1, 1, 255, 255, 255, 0.5, 0.5, -1, 0, 0⟩ : Vertex ℝ)).z := by
    have hpos : (⟨1, -1, 1, 255, 255, 255, 0.5, 0.5, -1, 0, 0⟩ : Vertex ℝ).position
        = ⟨1, -1, 1, 1⟩ := rfl
    rw [lightViewPosition, mulMat_mulVec, hpos, roomModelMatrix, scale_apply, light_view_apply]
    have := sqrt_two_tight.1
    norm_num
    linarith
  refine ⟨?_, ?_, hz, ?_⟩
  · rw [firstPass_objects]
    exact List.mem_cons_self _ _
  · rw [drawn_room]
    simp [roomVertices]
  · intro h
    have := h.2.2.2.2.2
    linarith

/-- C8, amended: for every draw of the shadow pass and every vertex in its range, the
light-view-space point `lookAt((0,10,-10),(0,0,0),(0,1,0)) * M * v` has x and y in [-10, 10] and
a distance along the view direction between `5 √2` and `15 √2`; for every draw other than the
room's (the one starting at vertex 0) the distance is within [10, 20], so the point is inside
the light's frustum. -/
theorem shadow_pass_vertices_light_view (g : Globals ℝ) (s : GLState ℝ) (M : Mat4 ℝ)
    (first count : Nat)
    (hd : (some (UniformValue.mat4 M), first, count) ∈
      (drawsOf s (firstPass realMath g)).map DrawRecord.object)
    (v : Vertex ℝ) (hv : v ∈ drawnVertices first count) :
    -10 ≤ (lightViewPosition realMath M v).x ∧ (lightViewPosition realMath M v).x ≤ 10 ∧
    -10 ≤ (lightViewPosition realMath M v).y ∧ (lightViewPosition realMath M v).y ≤ 10 ∧
    5 * √2 ≤ -(lightViewPosition realMath M v).z ∧
    -(lightViewPosition realMath M v).z ≤ 15 * √2 ∧
    (first ≠ 0 → InLightFrustum (lightViewPosition realMath M v)) := by
  rw [firstPass_objects] at hd
  simp only [List.mem_cons, Prod.mk.injEq, Option.some.injEq, UniformValue.mat4.injEq,
    List.mem_singleton, List.not_mem_nil, or_false] at hd
  have hpos : v.position = ⟨v.x, v.y, v.z, 1⟩ := rfl
  simp only [lightViewPosition, mulMat_mulVec, hpos]
  rcases hd with h | h | h | h | h | h | h | h | h | h | h
  all_goals obtain ⟨hM, hfirst, hcount⟩ := h
  all_goals subst hM hfirst hcount
  · obtain ⟨hx, hy, hz⟩ := room_corners v hv
    obtain ⟨a, b, c, he, h1, h2, h3, h4, h5, h6⟩ := room_world v.x v.y v.z hx hy hz
    rw [he]
    obtain ⟨w1, w2, w3, w4, w5, w6⟩ := wide_of_world a b c h1 h2 h3 h4 h5 h6
    exact ⟨w1, w2, w3, w4, w5, w6, fun h0 => absurd rfl h0⟩
  · obtain ⟨hx, hy, hz⟩ := crate_corners v hv
    exact amended_of_in_frustum _ _ (crate1_light_view v.x v.y v.z hx hy hz)
  · obtain ⟨hx, hy, hz⟩ := crate_corners v hv
    exact amended_of_in_frustum _ _ (crate2_light_view v.x v.y v.z hx hy hz)
  · obtain ⟨hx, hy, hz⟩ := crate_corners v hv
    exact amended_of_in_frustum _ _ (crate3_light_view v.x v.y v.z hx hy hz)
  · obtain ⟨hx, hy, hz⟩ := window_corners v hv
    exact amended_of_in_frustum _ _ (window_light_view v.x v.y v.z hx hy hz)
  · obtain ⟨hx, hy, hz⟩ := chair_corners v hv
    exact amended_of_in_frustum _ _ (chairBack_light_view v.x v.y v.z hx hy hz)
  · obtain ⟨hx, hy, hz⟩ := chair_corners v hv
    exact amended_of_in_frustum _ _ (chairBase_light_view v.x v.y v.z hx hy hz)
  · obtain ⟨hx, hy, hz⟩ := leg_corners v hv
    exact amended_of_in_frustum _ _ (chairLeg1_light_view v.x v.y v.z hx hy hz)
  · obtain ⟨hx, hy, hz⟩ := leg_corners v hv
    exact amended_of_in_frustum _ _ (chairLeg2_light_view v.x v.y v.z hx hy hz)
  · obtain ⟨hx, hy, hz⟩ := leg_corners v hv
    exact amended_of_in_frustum _ _ (chairLeg3_light_view v.x v.y v.z hx hy hz)
  · obtain ⟨hx, hy, hz⟩ := leg_corners v hv
    exact amended_of_in_frustum _ _ (chairLeg4_light_view v.x v.y v.z hx hy hz)

/-- Witness of C8 (amended): the first vertex of the first crate, drawn with `Crate1ModelMatrix`
from the context at loop entry, is inside the light's frustum. -/
theorem shadow_pass_vertices_light_view_witness :
    (some (UniformValue.mat4 (Crate1ModelMatrix : Mat4 ℝ)), 42, 36) ∈
      (drawsOf (loopEntryState : GLState ℝ) (firstPass realMath initGlobals)).map
        DrawRecord.object ∧
    (⟨1, -1, -1, 255, 255, 255, 0.6, 0.15, 1, 0, 0⟩ : Vertex ℝ) ∈ drawnVertices 42 36 ∧
    InLightFrustum (lightViewPosition realMath Crate1ModelMatrix
      ⟨1, -1, -1, 255, 255, 255, 0.6, 0.15, 1, 0, 0⟩) := by
  have hd : (some (UniformValue.mat4 (Crate1ModelMatrix : Mat4 ℝ)), 42, 36) ∈
      (drawsOf (loopEntryState : GLState ℝ) (firstPass realMath initGlobals)).map
        DrawRecord.object := by
    rw [firstPass_objects]
    simp
  have hv : (⟨1, -1, -1, 255, 255, 255, 0.6, 0.15, 1, 0, 0⟩ : Vertex ℝ) ∈
      drawnVertices 42 36 := by
    rw [drawn_crate]
    simp [crate1Vertices]
  exact ⟨hd, hv,
    (shadow_pass_vertices_light_view initGlobals loopEntryState Crate1ModelMatrix 42 36 hd _
      hv).2.2.2.2.2.2 (by decide)⟩

/-! ## The frame: projections of the context through a call -/

theorem step_program {F : Type} (s : GLState F) (c : GLCall F) :
    (s.step c).program = match c with
      | .useProgram p => some p
      | _ => s.program := by
  cases c <;> simp only [GLState.step]
  split_ifs <;> rfl

theorem step_framebuffer {F : Type} (s : GLState F) (c : GLCall F) :
    (s.step c).framebuffer = match c with
      | .bindFramebuffer fb => fb
      | _ => s.framebuffer := by
  cases c <;> simp only [GLState.step]
  split_ifs <;> rfl

theorem step_viewport {F : Type} (s : GLState F) (c : GLCall F) :
    (s.step c).viewport = match c with
      | .viewport x y width height => ⟨x, y, width, height⟩
      | _ => s.viewport := by
  cases c <;> simp only [GLState.step]
  split_ifs <;> rfl

theorem step_depthFunc {F : Type} (s : GLState F) (c : GLCall F) :
    (s.step c).depthFunc = match c with
      | .depthFunc f => f
      | _ => s.depthFunc := by
  cases c <;> simp only [GLState.step]
  split_ifs <;> rfl

theorem step_draws {F : Type} (s : GLState F) (c : GLCall F) :
    (s.step c).draws = match c with
      | .drawArrays first count => s.draws ++ [s.record false first count]
      | .drawElements count => s.draws ++ [s.record true 0 count]
      | _ => s.draws := by
  cases c <;> simp only [GLState.step]
  split_ifs <;> rfl

theorem record_pass {F : Type} (s : GLState F) (indexed : Bool) (first count : Nat) :
    (s.record indexed first count).pass =
      if s.program = some .program_mapping ∧ s.framebuffer = .framebuffer then .shadow
      else if s.program = some .program ∧ s.framebuffer = .screen then .colour
      else if s.program = some .skyboxShader then .skybox
      else .other := rfl

theorem record_viewport {F : Type} (s : GLState F) (indexed : Bool) (first count : Nat) :
    (s.record indexed first count).viewport = s.viewport := rfl

theorem record_depthFunc {F : Type} (s : GLState F) (indexed : Bool) (first count : Nat) :
    (s.record indexed first count).depthFunc = s.depthFunc := rfl

theorem callEvents_append {F : Type} (s : GLState F) (a b : List (GLCall F)) :
    callEvents s (a ++ b) = callEvents s a ++ callEvents (s.run a) b := by
  induction a generalizing s with
  | nil => rfl
  | cons c cs ih => simp [callEvents, ih, GLState.run]

theorem loopPrologue_events {F : Type} (s : GLState F) : callEvents s loopPrologue = [] := by
  simp [callEvents, GLState.event, loopPrologue]

theorem present_events {F : Type} (s : GLState F) :
    (callEvents s [.swapBuffers, .pollEvents]).map FrameEvent.kind =
      [EventKind.swapBuffers, EventKind.pollEvents] := by
  simp [callEvents, GLState.event, FrameEvent.kind]

section FrameTheorems

variable {F : Type} [LinearOrderedField F]

theorem firstPass_events (ml : MathLib F) (g : Globals F) (s : GLState F) :
    (callEvents s (firstPass ml g)).map FrameEvent.kind =
      List.replicate 11 (EventKind.draw .shadow) := by
  simp [callEvents, GLState.event, firstPass, record_pass, step_program, step_framebuffer,
    FrameEvent.kind, List.replicate]

theorem secondPass_events (ml : MathLib F) (g : Globals F) (s : GLState F) :
    (callEvents s (secondPass ml g)).map FrameEvent.kind =
      List.replicate 11 (EventKind.draw .colour) := by
  simp [callEvents, GLState.event, secondPass, secondPassSetup, secondPassDraws, record_pass,
    step_program, step_framebuffer, FrameEvent.kind, List.replicate]

theorem skyboxPass_events (ml : MathLib F) (g : Globals F) (s : GLState F) :
    (callEvents s (skyboxPass ml g)).map FrameEvent.kind = [EventKind.draw .skybox] := by
  simp [callEvents, GLState.event, skyboxPass, record_pass, step_program, step_framebuffer,
    FrameEvent.kind]

/-- The pass, viewport and depth function of every draw of one frame, from any context. -/
theorem frame_draws_state (ml : MathLib F) (g : Globals F) (s : GLState F) :
    (drawsOf s (frameCalls ml g)).map (fun r => (r.pass, r.viewport, r.depthFunc)) =
      List.replicate 11 (Pass.shadow, (⟨0, 0, 2048, 2048⟩ : Vec4 F), s.depthFunc) ++
      List.replicate 11 (Pass.colour, (⟨0, 0, windowWidth, windowHeight⟩ : Vec4 F), s.depthFunc) ++
      [(Pass.skybox, (⟨0, 0, windowWidth, windowHeight⟩ : Vec4 F), DepthFunc.lequal)] := by
  simp [drawsOf, GLState.run, frameCalls, loopPrologue, firstPass, secondPass, secondPassSetup,
    secondPassDraws, skyboxPass, step_draws, step_program, step_framebuffer, step_viewport,
    step_depthFunc, record_pass, record_viewport, record_depthFunc, List.replicate]

/-- The context after the calls of one frame has the depth function `GL_LESS`. -/
theorem frame_ends_with_less (ml : MathLib F) (g : Globals F) (s : GLState F) :
    (s.run (frameCalls ml g)).depthFunc = .less := by
  simp [GLState.run, frameCalls, loopPrologue, firstPass, secondPass, secondPassSetup,
    secondPassDraws, skyboxPass, step_depthFunc]

theorem dispatch_depthFunc (ml : MathLib F) (st : Globals F × GLState F) (e : InputEvent F) :
    (dispatch ml st e).2.depthFunc = st.2.depthFunc := by
  cases e <;> simp [dispatch, FramebufferSizeChangedCallback, step_depthFunc]

theorem dispatch_all_depthFunc (ml : MathLib F) (es : List (InputEvent F))
    (st : Globals F × GLState F) :
    (es.foldl (dispatch ml) st).2.depthFunc = st.2.depthFunc := by
  induction es generalizing st with
  | nil => rfl
  | cons e es ih => rw [List.foldl_cons, ih, dispatch_depthFunc]

theorem runFrame_depthFunc (ml : MathLib F) (st : Globals F × GLState F) (i : FrameInput F) :
    (runFrame ml st i).2.depthFunc = .less := by
  rw [runFrame, dispatch_all_depthFunc]
  exact frame_ends_with_less ml _ _

/-- At the start of every loop iteration the depth function is `GL_LESS`. -/
theorem runLoop_depthFunc (ml : MathLib F) (inputs : List (FrameInput F)) :
    (runLoop ml inputs).2.depthFunc = .less := by
  induction inputs using List.reverseRecOn with
  | nil => rfl
  | append_singleton is i _ =>
    rw [runLoop, List.foldl_append]
    exact runFrame_depthFunc ml _ i

/-! ## The claims on the frame -/

/-- C11: every `glDrawArrays(GL_TRIANGLES, first, count)` of the shadow pass and of the colour
pass reads inside the uploaded buffer: `0 ≤ first` and `first + count ≤ 240`, the number of
uploaded vertices. -/
theorem draw_ranges_within_buffer (ml : MathLib F) (g : Globals F) (s1 s2 : GLState F)
    (r : DrawRecord F)
    (hr : r ∈ drawsOf s1 (firstPass ml g) ∨ r ∈ drawsOf s2 (secondPass ml g)) :
    0 ≤ r.first ∧ r.first + r.count ≤ 240 ∧ (vertices : List (Vertex F)).length = 240 := by
  have hobj : (r.first, r.count) ∈
      [(0, 30), (42, 36), (42, 36), (42, 36), (156, 6), (180, 36), (180, 36), (216, 24),
       (216, 24), (216, 24), (216, 24)] := by
    rcases hr with h | h
    · have h1 := List.mem_map_of_mem DrawRecord.object h
      rw [firstPass_objects] at h1
      have h2 := List.mem_map_of_mem Prod.snd h1
      simpa [DrawRecord.object] using h2
    · have h1 := List.mem_map_of_mem DrawRecord.object h
      rw [secondPass_objects] at h1
      have h2 := List.mem_map_of_mem Prod.snd h1
      simpa [DrawRecord.object] using h2
  refine ⟨Nat.zero_le _, ?_, rfl⟩
  simp only [List.mem_cons, Prod.mk.injEq, List.mem_singleton, List.not_mem_nil, or_false]
    at hobj
  omega

/-- C19: in every loop iteration the observable steps are, in order, `processInput`, the
eleven shadow-pass draws, the eleven colour-pass draws, the skybox draw, the buffer swap and
the event poll; so no colour-pass draw precedes a shadow-pass draw and no scene draw follows
the skybox draw. -/
theorem iteration_order (ml : MathLib F) (keys : Keys) (currentFrame : F)
    (g : Globals F) (s : GLState F) :
    (iterationEvents ml keys currentFrame g s).map FrameEvent.kind =
      [EventKind.processInput] ++ List.replicate 11 (EventKind.draw .shadow) ++
      List.replicate 11 (EventKind.draw .colour) ++
      [EventKind.draw .skybox, EventKind.swapBuffers, EventKind.pollEvents] := by
  simp only [iterationEvents, frameCalls, callEvents_append, List.map_cons, List.map_append,
    loopPrologue_events, firstPass_events, secondPass_events, skyboxPass_events,
    present_events, FrameEvent.kind, List.map_nil]
  simp

/-- C20: at the start of every loop iteration the depth function is `GL_LESS`; in the frame
that follows, every shadow-pass and colour-pass draw is issued with `GL_LESS` and the skybox
draw with `GL_LEQUAL`; and the depth function is `GL_LESS` again when the frame ends. -/
theorem depth_function_discipline (ml : MathLib F) (inputs : List (FrameInput F))
    (g : Globals F) :
    (runLoop ml inputs).2.depthFunc = .less ∧
    (drawsOf (runLoop ml inputs).2 (frameCalls ml g)).map (fun r => (r.pass, r.depthFunc)) =
      List.replicate 11 (Pass.shadow, DepthFunc.less) ++
      List.replicate 11 (Pass.colour, DepthFunc.less) ++ [(Pass.skybox, DepthFunc.lequal)] ∧
    ((runLoop ml inputs).2.run (frameCalls ml g)).depthFunc = .less := by
  refine ⟨runLoop_depthFunc ml inputs, ?_, frame_ends_with_less ml g _⟩
  have h := congrArg (List.map (fun t : Pass × Vec4 F × DepthFunc => (t.1, t.2.2)))
    (frame_draws_state ml g (runLoop ml inputs).2)
  rw [List.map_map, runLoop_depthFunc] at h
  simpa [List.replicate] using h

end FrameTheorems

/-- Witness of C11: the first draw of the shadow pass from the context at loop entry. -/
theorem draw_ranges_within_buffer_witness :
    ∃ r ∈ drawsOf (loopEntryState : GLState ℝ) (firstPass realMath initGlobals),
      r.first + r.count ≤ 240 := by
  have hne : drawsOf (loopEntryState : GLState ℝ) (firstPass realMath initGlobals) ≠ [] := by
    intro h
    have h2 := firstPass_objects realMath initGlobals (loopEntryState : GLState ℝ)
    rw [h] at h2
    simp at h2
  exact ⟨_, List.head_mem hne,
    (draw_ranges_within_buffer realMath initGlobals loopEntryState loopEntryState _
      (Or.inl (List.head_mem hne))).2.1⟩

section ViewTheorems

variable {F : Type} [LinearOrderedField F]

/-- The direction from the eye to `eye + front` is `front`. -/
theorem add_sub_self_left (p f : Vec3 F) : p + f - p = f := by
  rw [Vec3.ext_iff3]
  simp only [add_x, add_y, add_z, sub_x, sub_y, sub_z]
  refine ⟨?_, ?_, ?_⟩ <;> ring

end ViewTheorems

theorem normalize_neg_z : normalize realMath (⟨0, 0, -1⟩ : Vec3 ℝ) = ⟨0, 0, -1⟩ := by
  rw [Vec3.ext_iff3]
  simp [normalize, inversesqrt, dot, realMath, muls_x, muls_y, muls_z]

/-- The view matrix at the initial camera state, written out. -/
theorem lookAt_default :
    lookAt realMath ⟨0, 0, 3⟩ ((⟨0, 0, 3⟩ : Vec3 ℝ) + ⟨0, 0, -1⟩) ⟨0, 1, 0⟩ =
      (⟨⟨1, 0, 0, 0⟩, ⟨0, 1, 0, 0⟩, ⟨0, 0, 1, 0⟩, ⟨0, 0, -3, 1⟩⟩ : Mat4 ℝ) := by
  have hc : cross (⟨0, 0, -1⟩ : Vec3 ℝ) ⟨0, 1, 0⟩ = ⟨1, 0, 0⟩ := by
    rw [Vec3.ext_iff3]; simp [cross]
  simp only [lookAt, add_sub_self_left, normalize_neg_z, hc, normalize_axis_x]
  simp [cross, dot]

/-- C13: at the initial camera state the colour pass's view matrix is
`lookAt(pos, pos + front, (0,1,0))`, the identity rotation with translation (0, 0, -3); and in
every reachable camera state it is `lookAt(cameraPos, cameraPos + cameraFront, (0,1,0))`. -/
theorem colour_pass_view_matrix (g : Globals ℝ) (hg : Reachable realMath g) :
    viewMatrix realMath initGlobals =
      lookAt realMath ⟨0, 0, 3⟩ ((⟨0, 0, 3⟩ : Vec3 ℝ) + ⟨0, 0, -1⟩) ⟨0, 1, 0⟩ ∧
    viewMatrix realMath initGlobals =
      (⟨⟨1, 0, 0, 0⟩, ⟨0, 1, 0, 0⟩, ⟨0, 0, 1, 0⟩, ⟨0, 0, -3, 1⟩⟩ : Mat4 ℝ) ∧
    viewMatrix realMath g = lookAt realMath g.cameraPos (g.cameraPos + g.cameraFront) ⟨0, 1, 0⟩ := by
  refine ⟨rfl, ?_, ?_⟩
  · exact lookAt_default
  · rw [viewMatrix, hg.cameraUp_eq]

/-- Witness of C13: the state after one cursor event. -/
theorem colour_pass_view_matrix_witness :
    Reachable realMath (mouse_callback realMath initGlobals 410 320) ∧
    viewMatrix realMath (mouse_callback realMath initGlobals 410 320) =
      lookAt realMath (mouse_callback realMath initGlobals 410 320).cameraPos
        ((mouse_callback realMath initGlobals 410 320).cameraPos +
          (mouse_callback realMath initGlobals 410 320).cameraFront) ⟨0, 1, 0⟩ :=
  ⟨Reachable.mouse 410 320 Reachable.init,
   (colour_pass_view_matrix _ (Reachable.mouse 410 320 Reachable.init)).2.2⟩

section LoopTheorems

variable {F : Type} [LinearOrderedField F]

theorem processInput_lastFrame (m : MathLib F) (keys : Keys) (g : Globals F) :
    (processInput m keys g).lastFrame = g.lastFrame := by
  simp only [processInput]
  split_ifs <;> rfl

theorem processInput_cameraFront (m : MathLib F) (keys : Keys) (g : Globals F) :
    (processInput m keys g).cameraFront = g.cameraFront := by
  simp only [processInput]
  split_ifs <;> rfl

/-- C14: the speed `processInput` uses in an iteration is 3.5 times the `deltaTime` left by
the iteration before, because `processInput` runs before `deltaTime` is recomputed: with W
held in the second of two iterations at times `t1`, `t2`, the camera moves by
`3.5 * (t1 - lastFrame)` times the front vector, whatever `t2` is.  On the run with iterations
at times 1 and 3 the position becomes (0, 0, -0.5), not the (0, 0, -4) that an elapsed time of
2 would give. -/
theorem processInput_uses_previous_deltaTime (ml : MathLib F) (g : Globals F)
    (s1 s2 : GLState F) (keys : Keys) (t1 t2 : F) :
    (loopIteration ml ⟨true, false, false, false⟩ t2
        (loopIteration ml keys t1 g s1).1 s2).1.cameraPos
      = (loopIteration ml keys t1 g s1).1.cameraPos + (3.5 * (t1 - g.lastFrame)) * g.cameraFront ∧
    (runLoop ml [⟨⟨false, false, false, false⟩, 1, []⟩,
        ⟨⟨true, false, false, false⟩, 3, []⟩]).1.cameraPos = ⟨0, 0, -0.5⟩ ∧
    (runLoop ml [⟨⟨false, false, false, false⟩, 1, []⟩,
        ⟨⟨true, false, false, false⟩, 3, []⟩]).1.cameraPos
      ≠ (initGlobals : Globals F).cameraPos + (3.5 * (3 - 1) : F) * (initGlobals : Globals F).cameraFront := by
  have hrun : (runLoop ml [⟨⟨false, false, false, false⟩, 1, []⟩,
        ⟨⟨true, false, false, false⟩, 3, []⟩]).1.cameraPos = (⟨0, 0, -0.5⟩ : Vec3 F) := by
    simp only [runLoop, List.foldl_cons, List.foldl_nil, runFrame, loopIteration, processInput,
      initGlobals, Bool.false_eq_true, if_false, if_true]
    rw [Vec3.ext_iff3]
    simp only [add_x, add_y, add_z, smul_x, smul_y, smul_z]
    norm_num
  refine ⟨?_, hrun, ?_⟩
  · simp only [loopIteration, processInput_lastFrame, processInput_cameraFront]
    simp [processInput]
  · rw [hrun, Ne, Vec3.ext_iff3]
    simp only [add_x, add_y, add_z, smul_x, smul_y, smul_z, initGlobals]
    norm_num

/-- C15: during the colour pass and the skybox pass the viewport is always the fixed
(0, 0, 1920, 1080) of `windowWidth`, `windowHeight`, and 2048 x 2048 during the shadow pass,
whatever the viewport was before the frame; after a resize to 800 x 600 the viewport before
the shadow pass is (0, 0, 800, 600), which the frame does not restore. -/
theorem colour_pass_viewport_is_fixed (ml : MathLib F) (g : Globals F) (s : GLState F)
    (keys : Keys) (t : F) :
    (drawsOf s (frameCalls ml g)).map (fun r => (r.pass, r.viewport)) =
      List.replicate 11 (Pass.shadow, (⟨0, 0, 2048, 2048⟩ : Vec4 F)) ++
      List.replicate 11 (Pass.colour, (⟨0, 0, 1920, 1080⟩ : Vec4 F)) ++
      [(Pass.skybox, (⟨0, 0, 1920, 1080⟩ : Vec4 F))] ∧
    (runLoop ml [⟨keys, t, [.framebufferSize 800 600]⟩]).2.viewport = ⟨0, 0, 800, 600⟩ ∧
    (⟨0, 0, 800, 600⟩ : Vec4 F) ≠ ⟨0, 0, 1920, 1080⟩ := by
  refine ⟨?_, ?_, ?_⟩
  · have h := congrArg (List.map (fun t : Pass × Vec4 F × DepthFunc => (t.1, t.2.1)))
      (frame_draws_state ml g s)
    rw [List.map_map] at h
    simpa [List.replicate, windowWidth, windowHeight] using h
  · simp [runLoop, runFrame, dispatch, FramebufferSizeChangedCallback, step_viewport]
  · intro h
    have h2 := congrArg Vec4.z h
    norm_num at h2

end LoopTheorems

/-! ## Startup -/

/-- C16: `glCheckFramebufferStatus(GL_FRAMEBUFFER)` is called after `glBindFramebuffer(
GL_FRAMEBUFFER, 0)`, so the framebuffer it examines is the window's, not the shadow framebuffer
that carries the depth texture; the message depends on the window framebuffer only, and with
an incomplete shadow framebuffer and a complete window framebuffer nothing is printed. -/
theorem framebuffer_check_examines_window (complete : Framebuffer → Bool) :
    (afterFramebufferSetup complete).checked = [Framebuffer.screen] ∧
    (afterFramebufferSetup complete).depthAttachment .framebuffer = some .framebufferTex ∧
    (afterFramebufferSetup complete).depthAttachment .screen = none ∧
    (afterFramebufferSetup complete).messages =
      (if complete .screen then [] else ["Error! Framebuffer not complete!"]) ∧
    (afterFramebufferSetup (fun fb => decide (fb = .screen))).messages = [] := by
  refine ⟨?_, ?_, ?_, ?_, ?_⟩
  · simp only [afterFramebufferSetup, framebufferSetup, List.foldl, SetupState.step,
      setupEntryState]
    split_ifs <;> rfl
  · simp only [afterFramebufferSetup, framebufferSetup, List.foldl, SetupState.step,
      setupEntryState]
    split_ifs <;> simp
  · simp only [afterFramebufferSetup, framebufferSetup, List.foldl, SetupState.step,
      setupEntryState]
    split_ifs <;> simp
  · simp only [afterFramebufferSetup, framebufferSetup, List.foldl, SetupState.step,
      setupEntryState]
    split_ifs <;> rfl
  · rfl

/-! ### Image loading -/

theorem range_six : List.range 6 = [0, 1, 2, 3, 4, 5] := by decide

theorem loadWallTexture_loads (loadable : String → Bool) (st : ImageState) :
    (loadWallTexture loadable st).loads =
      st.loads ++ [⟨"final project texture.jpg", true, loadable "final project texture.jpg"⟩] := by
  simp only [loadWallTexture, stbi_load, stbi_set_flip_vertically_on_load]
  split_ifs <;> rfl

theorem loadWallTexture_flip (loadable : String → Bool) (st : ImageState) :
    (loadWallTexture loadable st).flip = true := by
  simp only [loadWallTexture, stbi_load, stbi_set_flip_vertically_on_load]
  split_ifs <;> rfl

theorem loadWallTexture_faceUploads (loadable : String → Bool) (st : ImageState) :
    (loadWallTexture loadable st).faceUploads = st.faceUploads := by
  simp only [loadWallTexture, stbi_load, stbi_set_flip_vertically_on_load]
  split_ifs <;> rfl

theorem loadCubemapFace_loads (loadable : String → Bool) (st : ImageState) (i : Nat) :
    (loadCubemapFace loadable st i).loads =
      st.loads ++ [⟨facesCubemap.getD i "", st.flip, loadable (facesCubemap.getD i "")⟩] := by
  simp only [loadCubemapFace, stbi_load, stbi_set_flip_vertically_on_load]
  split_ifs <;> rfl

theorem loadCubemapFace_faceUploads (loadable : String → Bool) (st : ImageState) (i : Nat) :
    (loadCubemapFace loadable st i).faceUploads =
      if loadable (facesCubemap.getD i "") then st.faceUploads ++ [(i, facesCubemap.getD i "")]
      else st.faceUploads := by
  simp only [loadCubemapFace, stbi_load, stbi_set_flip_vertically_on_load]
  split_ifs <;> rfl

/-- Later faces only add to the list of loads. -/
theorem faces_extend_loads (loadable : String → Bool) (l : List Nat) (st : ImageState) :
    ∃ rest, (l.foldl (loadCubemapFace loadable) st).loads = st.loads ++ rest := by
  induction l generalizing st with
  | nil => exact ⟨[], by simp⟩
  | cons i l ih =>
    obtain ⟨rest, h⟩ := ih (loadCubemapFace loadable st i)
    exact ⟨_, by rw [List.foldl_cons, h, loadCubemapFace_loads, List.append_assoc]⟩

/-- C17: the wall texture is loaded with the flip flag on, and so is the first cube face
`Skybox/posx.jpg`, whatever loads succeed: `stbi_set_flip_vertically_on_load(false)` is only
called after a cube face has been loaded.  When every load succeeds the faces after the first
are loaded with the flag off. -/
theorem first_cube_face_loaded_flipped (loadable : String → Bool) :
    (loadImages loadable).loads[0]? =
      some ⟨"final project texture.jpg", true, loadable "final project texture.jpg"⟩ ∧
    (loadImages loadable).loads[1]? =
      some ⟨"Skybox/posx.jpg", true, loadable "Skybox/posx.jpg"⟩ ∧
    (loadImages (fun _ => true)).loads =
      [⟨"final project texture.jpg", true, true⟩, ⟨"Skybox/posx.jpg", true, true⟩,
       ⟨"Skybox/negx.jpg", false, true⟩, ⟨"Skybox/posy.jpg", false, true⟩,
       ⟨"Skybox/negy.jpg", false, true⟩, ⟨"Skybox/posz.jpg", false, true⟩,
       ⟨"Skybox/negz.jpg", false, true⟩] := by
  have h : ∃ rest, (loadImages loadable).loads =
      ⟨"final project texture.jpg", true, loadable "final project texture.jpg"⟩ ::
        ⟨"Skybox/posx.jpg", true, loadable "Skybox/posx.jpg"⟩ :: rest := by
    obtain ⟨rest, hrest⟩ := faces_extend_loads loadable [1, 2, 3, 4, 5]
      (loadCubemapFace loadable (loadWallTexture loadable ⟨false, [], false, [], []⟩) 0)
    refine ⟨rest, ?_⟩
    rw [loadImages, range_six, List.foldl_cons, hrest, loadCubemapFace_loads,
      loadWallTexture_loads, loadWallTexture_flip]
    rfl
  obtain ⟨rest, hrest⟩ := h
  refine ⟨by rw [hrest]; simp, by rw [hrest]; simp, by decide⟩

/-- The uploads made so far go to the target of their own entry of `facesCubemap`. -/
theorem faces_keep_order (loadable : String → Bool) (l : List Nat) (hl : ∀ i ∈ l, i < 6)
    (st : ImageState)
    (hst : ∀ p ∈ st.faceUploads, p.1 < 6 ∧ facesCubemap[p.1]? = some p.2) :
    ∀ p ∈ (l.foldl (loadCubemapFace loadable) st).faceUploads,
      p.1 < 6 ∧ facesCubemap[p.1]? = some p.2 := by
  induction l generalizing st with
  | nil => exact hst
  | cons i l ih =>
    rw [List.foldl_cons]
    apply ih (fun j hj => hl j (List.mem_cons_of_mem _ hj))
    intro p hp
    rw [loadCubemapFace_faceUploads] at hp
    have hi : i < 6 := hl i (List.mem_cons_self _ _)
    split_ifs at hp
    · rcases List.mem_append.mp hp with h | h
      · exact hst p h
      · rw [List.mem_singleton] at h
        subst h
        refine ⟨hi, ?_⟩
        interval_cases i <;> rfl
    · exact hst p hp

/-- C18: every image uploaded to `GL_TEXTURE_CUBE_MAP_POSITIVE_X + i` is the file
`facesCubemap[i]`, and the six files are in the order posx, negx, posy, negy, posz, negz; when
every file loads, the six uploads go to targets 0..5 in that order. -/
theorem cube_faces_in_order (loadable : String → Bool) (i : Nat) (file : String)
    (h : (i, file) ∈ (loadImages loadable).faceUploads) :
    i < 6 ∧ facesCubemap[i]? = some file ∧
    facesCubemap = ["Skybox/posx.jpg", "Skybox/negx.jpg", "Skybox/posy.jpg",
      "Skybox/negy.jpg", "Skybox/posz.jpg", "Skybox/negz.jpg"] ∧
    (loadImages (fun _ => true)).faceUploads =
      [(0, "Skybox/posx.jpg"), (1, "Skybox/negx.jpg"), (2, "Skybox/posy.jpg"),
       (3, "Skybox/negy.jpg"), (4, "Skybox/posz.jpg"), (5, "Skybox/negz.jpg")] := by
  have key := faces_keep_order loadable (List.range 6) (fun j hj => List.mem_range.mp hj)
    (loadWallTexture loadable ⟨false, [], false, [], []⟩)
    (by rw [loadWallTexture_faceUploads]; intro p hp; exact absurd hp (List.not_mem_nil p))
    (i, file) h
  exact ⟨key.1, key.2, rfl, by decide⟩

/-- Witness of C18: with every file loadable, target 0 receives `Skybox/posx.jpg`. -/
theorem cube_faces_in_order_witness :
    (0, "Skybox/posx.jpg") ∈ (loadImages (fun _ => true)).faceUploads ∧
    facesCubemap[0]? = some "Skybox/posx.jpg" := by
  have hmem : (0, "Skybox/posx.jpg") ∈ (loadImages (fun _ => true)).faceUploads := by decide
  exact ⟨hmem, (cube_faces_in_order (fun _ => true) 0 "Skybox/posx.jpg" hmem).2.1⟩

/-! ## Start-up and exit status -/

theorem renderLoopExit_spec (answers : List Bool) (n m : Nat)
    (h : renderLoopExit answers n = some m) :
    n ≤ m ∧ answers[m - n]? = some true ∧ ∀ k < m - n, answers[k]? = some false := by
  induction answers generalizing n with
  | nil => simp [renderLoopExit] at h
  | cons a rest ih =>
    cases a with
    | true =>
      simp only [renderLoopExit, Option.some.injEq] at h
      subst h
      simp
    | false =>
      simp only [renderLoopExit] at h
      obtain ⟨h1, h2, h3⟩ := ih (n + 1) h
      have hm : m - n = (m - (n + 1)) + 1 := by omega
      refine ⟨by omega, ?_, ?_⟩
      · rw [hm, List.getElem?_cons_succ]; exact h2
      · intro k hk
        cases k with
        | zero => simp
        | succ k => rw [List.getElem?_cons_succ]; exact h3 k (by omega)

theorem renderLoopExit_of_close (before after : List Bool) (n : Nat)
    (hb : ∀ a ∈ before, a = false) :
    renderLoopExit (before ++ true :: after) n = some (n + before.length) := by
  induction before generalizing n with
  | nil => simp [renderLoopExit]
  | cons a rest ih =>
    have ha : a = false := hb a (List.mem_cons_self _ _)
    subst ha
    have h := ih (n + 1) (fun b hb2 => hb b (List.mem_cons_of_mem _ hb2))
    show renderLoopExit (rest ++ true :: after) (n + 1) = some (n + (rest.length + 1))
    rw [h]
    congr 1
    omega

/-- C21: if `glfwInit` fails, or `glfwCreateWindow` returns null, or the GLAD loader fails,
`main` returns 1 without entering the render loop; otherwise it returns 0 exactly when a
`glfwWindowShouldClose` query answers true: after `n` iterations when the first such answer is
the one following `n` negative ones, and not at all while every answer is negative. -/
theorem main_exit_status (env : StartupEnv) (shouldClose before after : List Bool) :
    ((env.glfwInit = false ∨ env.createWindow = false ∨ env.gladLoad = false) →
      (mainOutcome env shouldClose).exitCode = some 1 ∧
      (mainOutcome env shouldClose).iterations = 0) ∧
    ((env.glfwInit = true ∧ env.createWindow = true ∧ env.gladLoad = true) →
      ((mainOutcome env shouldClose).exitCode ≠ some 1) ∧
      ((mainOutcome env shouldClose).exitCode = some 0 →
        shouldClose[(mainOutcome env shouldClose).iterations]? = some true ∧
        ∀ k < (mainOutcome env shouldClose).iterations, shouldClose[k]? = some false) ∧
      ((∀ a ∈ before, a = false) →
        (mainOutcome env (before ++ true :: after)).exitCode = some 0 ∧
        (mainOutcome env (before ++ true :: after)).iterations = before.length) ∧
      ((∀ a ∈ shouldClose, a = false) → (mainOutcome env shouldClose).exitCode = none)) := by
  constructor
  · intro h
    simp only [mainOutcome]
    rcases h with h | h | h
    · simp [h]
    · by_cases h1 : env.glfwInit = false <;> simp [h, h1]
    · by_cases h1 : env.glfwInit = false <;> by_cases h2 : env.createWindow = false <;>
        simp [h, h1, h2]
  · rintro ⟨h1, h2, h3⟩
    simp only [mainOutcome, h1, h2, h3, Bool.true_eq_false, if_false]
    refine ⟨?_, ?_, ?_, ?_⟩
    · cases renderLoopExit shouldClose 0 <;> simp
    · cases hr : renderLoopExit shouldClose 0 with
      | none => simp
      | some n =>
        intro _
        obtain ⟨_, h5, h6⟩ := renderLoopExit_spec shouldClose 0 n hr
        exact ⟨by simpa using h5, by simpa using h6⟩
    · intro hb
      rw [renderLoopExit_of_close before after 0 hb]
      simp
    · intro hall
      have hnone : ∀ (l : List Bool) (n : Nat), (∀ a ∈ l, a = false) →
          renderLoopExit l n = none := by
        intro l
        induction l with
        | nil => intro n _; rfl
        | cons a rest ih =>
          intro n hl
          have ha : a = false := hl a (List.mem_cons_self _ _)
          subst ha
          simp only [renderLoopExit]
          exact ih (n + 1) (fun b hb2 => hl b (List.mem_cons_of_mem _ hb2))
      rw [hnone shouldClose 0 hall]

/-- Witness of C21: a failed window creation returns 1 at once; a good start-up with the
close signal after two iterations returns 0 after two iterations. -/
theorem main_exit_status_witness :
    (mainOutcome ⟨true, false, true⟩ [false, true]).exitCode = some 1 ∧
    (mainOutcome ⟨true, false, true⟩ [false, true]).iterations = 0 ∧
    (mainOutcome ⟨true, true, true⟩ ([false, false] ++ true :: [])).exitCode = some 0 ∧
    (mainOutcome ⟨true, true, true⟩ ([false, false] ++ true :: [])).iterations = 2 := by
  have h1 := (main_exit_status ⟨true, false, true⟩ [false, true] [] []).1 (Or.inr (Or.inl rfl))
  have h2 := ((main_exit_status ⟨true, true, true⟩ [] [false, false] []).2
    ⟨rfl, rfl, rfl⟩).2.2.1 (by decide)
  exact ⟨h1.1, h1.2, h2.1, h2.2⟩

section ShaderTheorems

variable {F : Type} [LinearOrderedField F]

/-- C22: with a non-negative bias, a fragment whose light-space depth `d` exceeds the stored
depth `s` by more than the bias is shadowed (factor 0: diffuse and specular zeroed, ambient
kept); a fragment with `d < s` or with `d` within the bias of `s` is lit (factor 1); and the
comparison is monotonic in `d`. -/
theorem shadow_comparison_monotone (bias d s : F) (hbias : 0 ≤ bias)
    (ambient diffuse specular : Vec3 F) :
    (s + bias < d → shadowComparison bias d s = 0 ∧
      fragmentColour ambient diffuse specular (shadowComparison bias d s) = ambient) ∧
    (d < s → shadowComparison bias d s = 1 ∧
      fragmentColour ambient diffuse specular (shadowComparison bias d s)
        = ambient + (diffuse + specular)) ∧
    (s - bias ≤ d → d ≤ s + bias → shadowComparison bias d s = 1) ∧
    (∀ d2 : F, d ≤ d2 → shadowComparison bias d2 s ≤ shadowComparison bias d s) := by
  refine ⟨?_, ?_, ?_, ?_⟩
  · intro h
    have h0 : shadowComparison bias d s = 0 := by simp [shadowComparison, h]
    refine ⟨h0, ?_⟩
    rw [h0, Vec3.ext_iff3]
    simp [fragmentColour, add_x, add_y, add_z, smul_x, smul_y, smul_z]
  · intro h
    have hn : ¬ (s + bias < d) := by linarith
    have h1 : shadowComparison bias d s = 1 := by simp [shadowComparison, hn]
    refine ⟨h1, ?_⟩
    rw [h1, Vec3.ext_iff3]
    simp [fragmentColour, add_x, add_y, add_z, smul_x, smul_y, smul_z]
  · intro _ h
    have hn : ¬ (s + bias < d) := not_lt.mpr h
    simp [shadowComparison, hn]
  · intro d2 hd
    simp only [shadowComparison]
    split_ifs with h1 h2 h2
    · exact le_refl _
    · exact zero_le_one
    · exact absurd (lt_of_lt_of_le h2 hd) h1
    · exact le_refl _

/-- Witness of C22: bias 1/200, stored depth 1/2; depth 3/4 is shadowed, depth 1/4 is lit. -/
theorem shadow_comparison_monotone_witness :
    (0 : ℚ) ≤ 1 / 200 ∧ shadowComparison (1 / 200 : ℚ) (3 / 4) (1 / 2) = 0 ∧
    shadowComparison (1 / 200 : ℚ) (1 / 4) (1 / 2) = 1 := by
  have h := shadow_comparison_monotone (1 / 200 : ℚ) (3 / 4) (1 / 2) (by norm_num)
    ⟨0, 0, 0⟩ ⟨0, 0, 0⟩ ⟨0, 0, 0⟩
  have h2 := shadow_comparison_monotone (1 / 200 : ℚ) (1 / 4) (1 / 2) (by norm_num)
    ⟨0, 0, 0⟩ ⟨0, 0, 0⟩ ⟨0, 0, 0⟩
  exact ⟨by norm_num, (h.1 (by norm_num)).1, (h2.2.1 (by norm_num)).1⟩

/-- The light-space coordinates of a point given in the light's view space: UV and depth are
affine in the view-space position, with [0,1] matching the box of `glm::ortho`. -/
theorem lightSpaceCoords_of_view (viewLight : Mat4 F) (world : Vec4 F)
    (hw : (viewLight * world).w = 1) :
    lightSpaceCoords projectionMatrixLight viewLight world =
      ⟨(viewLight * world).x / 20 + 1 / 2, (viewLight * world).y / 20 + 1 / 2,
       (-(viewLight * world).z - 10) / 10⟩ := by
  rw [Vec3.ext_iff3]
  simp only [lightSpaceCoords]
  generalize viewLight * world = q at hw ⊢
  obtain ⟨qx, qy, qz, qw⟩ := q
  simp only at hw
  subst hw
  simp only [projectionMatrixLight, ortho, mulVec_eq]
  refine ⟨?_, ?_, ?_⟩ <;> norm_num <;> ring

/-- The wrap parameters that lines 661-662 set on the depth texture: `GL_REPEAT` on both axes. -/
theorem depth_texture_wrap (complete : Framebuffer → Bool) :
    (afterFramebufferSetup complete).texParams .framebufferTex .wrapS = some .repeating ∧
    (afterFramebufferSetup complete).texParams .framebufferTex .wrapT = some .repeating := by
  constructor
  · simp only [afterFramebufferSetup, framebufferSetup, List.foldl, SetupState.step,
      setupEntryState]
    split_ifs <;> simp
  · simp only [afterFramebufferSetup, framebufferSetup, List.foldl, SetupState.step,
      setupEntryState]
    split_ifs <;> simp

/-- C23: a fragment whose light-view-space position is outside the light's frustum sideways
(x or y outside [-10, 10]) or beyond the far plane (distance above 20) has its shadow-map UV
outside [0,1] or its depth above 1, and its shadow factor is 1 whatever the shadow map holds
and whatever a lookup outside [0,1] would return: the guard decides, not the lookup.  The
depth texture itself is set to `GL_REPEAT` on both axes by `main`, so the sampler does not
clamp. -/
theorem outside_frustum_unshadowed (bias : F) (shadowMap : F → F → F) (viewLight : Mat4 F)
    (world : Vec4 F) (complete : Framebuffer → Bool) (hw : (viewLight * world).w = 1)
    (hout : (viewLight * world).x < -10 ∨ 10 < (viewLight * world).x ∨
      (viewLight * world).y < -10 ∨ 10 < (viewLight * world).y ∨
      20 < -(viewLight * world).z) :
    shadowFactor bias shadowMap (lightSpaceCoords projectionMatrixLight viewLight world) = 1 ∧
    ((lightSpaceCoords projectionMatrixLight viewLight world).x < 0 ∨
      1 < (lightSpaceCoords projectionMatrixLight viewLight world).x ∨
      (lightSpaceCoords projectionMatrixLight viewLight world).y < 0 ∨
      1 < (lightSpaceCoords projectionMatrixLight viewLight world).y ∨
      1 < (lightSpaceCoords projectionMatrixLight viewLight world).z) ∧
    (afterFramebufferSetup complete).texParams .framebufferTex .wrapS = some .repeating ∧
    (afterFramebufferSetup complete).texParams .framebufferTex .wrapT = some .repeating := by
  have hc := lightSpaceCoords_of_view viewLight world hw
  have hguard : (lightSpaceCoords projectionMatrixLight viewLight world).x < 0 ∨
      1 < (lightSpaceCoords projectionMatrixLight viewLight world).x ∨
      (lightSpaceCoords projectionMatrixLight viewLight world).y < 0 ∨
      1 < (lightSpaceCoords projectionMatrixLight viewLight world).y ∨
      1 < (lightSpaceCoords projectionMatrixLight viewLight world).z := by
    rw [hc]
    rcases hout with h | h | h | h | h
    · left; show _ / 20 + 1 / 2 < (0 : F); linarith
    · right; left; show (1 : F) < _ / 20 + 1 / 2; linarith
    · right; right; left; show _ / 20 + 1 / 2 < (0 : F); linarith
    · right; right; right; left; show (1 : F) < _ / 20 + 1 / 2; linarith
    · right; right; right; right; show (1 : F) < (-_ - 10) / 10; linarith
  exact ⟨by rw [shadowFactor, if_pos hguard], hguard, depth_texture_wrap complete⟩

end ShaderTheorems

/-- Witness of C23: the world point (11, 0, 0) seen through the light's view matrix lies at
x = -11, outside the frustum, and it is unshadowed even over a shadow map that stores depth 0
everywhere. -/
theorem outside_frustum_unshadowed_witness :
    (lookAt realMath ⟨0, 10, -10⟩ ⟨0, 0, 0⟩ ⟨0, 1, 0⟩ * (⟨11, 0, 0, 1⟩ : Vec4 ℝ)).x < -10 ∧
    shadowFactor (1 / 200 : ℝ) (fun _ _ => 0)
      (lightSpaceCoords projectionMatrixLight (lookAt realMath ⟨0, 10, -10⟩ ⟨0, 0, 0⟩ ⟨0, 1, 0⟩)
        ⟨11, 0, 0, 1⟩) = 1 :=
  have hx : (lookAt realMath ⟨0, 10, -10⟩ ⟨0, 0, 0⟩ ⟨0, 1, 0⟩ * (⟨11, 0, 0, 1⟩ : Vec4 ℝ)).x
      < -10 := by
    rw [light_view_apply]; norm_num
  ⟨hx, (outside_frustum_unshadowed (1 / 200 : ℝ) (fun _ _ => 0) _ _ (fun _ => true)
    (by rw [light_view_apply]) (Or.inl hx)).1⟩

section EffectTheorems

variable {F : Type} [LinearOrderedField F]

/-- What `processInput` returns differs from its argument in `cameraPos` only. -/
theorem processInput_frame (m : MathLib F) (keys : Keys) (g : Globals F) :
    processInput m keys g = { g with cameraPos := (processInput m keys g).cameraPos } := by
  simp only [processInput]
  split_ifs <;> rfl

/-- What `mouse_callback` returns differs from its argument in the angles, the front vector
and the mouse bookkeeping only. -/
theorem mouse_callback_frame (m : MathLib F) (g : Globals F) (xpos ypos : F) :
    mouse_callback m g xpos ypos =
      { g with
        yaw := (mouse_callback m g xpos ypos).yaw
        pitch := (mouse_callback m g xpos ypos).pitch
        cameraFront := (mouse_callback m g xpos ypos).cameraFront
        firstMouse := (mouse_callback m g xpos ypos).firstMouse
        lastX := (mouse_callback m g xpos ypos).lastX
        lastY := (mouse_callback m g xpos ypos).lastY } := by
  simp only [mouse_callback]
  split_ifs <;> rfl

/-- What `scroll_callback` returns differs from its argument in `fov` only. -/
theorem scroll_callback_frame (g : Globals F) (xoffset yoffset : F) :
    scroll_callback g xoffset yoffset =
      { g with fov := (scroll_callback g xoffset yoffset).fov } := by
  simp only [scroll_callback]
  split_ifs <;> rfl

/-- C27: `processInput` changes only `cameraPos`; `mouse_callback` changes only yaw, pitch,
`cameraFront` and the mouse bookkeeping, so it leaves `cameraPos`, `cameraUp` and `fov` alone;
`scroll_callback` changes only `fov`; and the rest of a loop iteration, the rendering
included, changes only `deltaTime` and `lastFrame`, so the camera position, front, up, yaw,
pitch and fov after an iteration are those `processInput` left. -/
theorem camera_state_frame (m : MathLib F) (g : Globals F) (keys : Keys)
    (xpos ypos xoffset yoffset currentFrame : F) (s : GLState F) :
    processInput m keys g = { g with cameraPos := (processInput m keys g).cameraPos } ∧
    ((processInput m keys g).yaw = g.yaw ∧ (processInput m keys g).pitch = g.pitch ∧
      (processInput m keys g).fov = g.fov ∧
      (processInput m keys g).cameraFront = g.cameraFront) ∧
    mouse_callback m g xpos ypos =
      { g with
        yaw := (mouse_callback m g xpos ypos).yaw
        pitch := (mouse_callback m g xpos ypos).pitch
        cameraFront := (mouse_callback m g xpos ypos).cameraFront
        firstMouse := (mouse_callback m g xpos ypos).firstMouse
        lastX := (mouse_callback m g xpos ypos).lastX
        lastY := (mouse_callback m g xpos ypos).lastY } ∧
    ((mouse_callback m g xpos ypos).cameraPos = g.cameraPos ∧
      (mouse_callback m g xpos ypos).fov = g.fov) ∧
    scroll_callback g xoffset yoffset =
      { g with fov := (scroll_callback g xoffset yoffset).fov } ∧
    (loopIteration m keys currentFrame g s).1 =
      { processInput m keys g with
        deltaTime := (loopIteration m keys currentFrame g s).1.deltaTime
        lastFrame := (loopIteration m keys currentFrame g s).1.lastFrame } ∧
    (loopIteration m keys currentFrame g s).1.cameraFront = g.cameraFront ∧
    (loopIteration m keys currentFrame g s).1.cameraUp = g.cameraUp ∧
    (loopIteration m keys currentFrame g s).1.yaw = g.yaw ∧
    (loopIteration m keys currentFrame g s).1.pitch = g.pitch ∧
    (loopIteration m keys currentFrame g s).1.fov = g.fov := by
  have hp := processInput_frame m keys g
  have hm := mouse_callback_frame m g xpos ypos
  refine ⟨hp, ⟨?_, ?_, ?_, ?_⟩, hm, ⟨?_, ?_⟩,
    scroll_callback_frame g xoffset yoffset, rfl, ?_, ?_, ?_, ?_, ?_⟩
  · rw [hp]
  · rw [hp]
  · rw [hp]
  · rw [hp]
  · rw [hm]
  · rw [hm]
  all_goals
    simp only [loopIteration]
    rw [hp]

end EffectTheorems

section SkyboxTheorems

variable {F : Type} [LinearOrderedField F]

/-- C28: `skyboxIndices` has 36 entries, each below 8, the number of skybox vertices; its
twelve triangles are non-degenerate; and triangles `2j`, `2j + 1` lie on one face of the cube
(x = 1, x = -1, y = 1, y = -1, z = 1, z = -1 for j = 0..5) and use four different corners
between them. -/
theorem skybox_indices_form_cube :
    skyboxIndices.length = 36 ∧
    (skyboxVertices : List (Vec3 F)).length = 8 ∧
    (∀ i ∈ skyboxIndices, i < 8) ∧
    (∀ k : Fin 12, NonDegenerate (skyboxTrianglePoints k.val : List (Vec3 F))) ∧
    (∀ j : Fin 6, (skyboxTriangle (2 * j.val) ++ skyboxTriangle (2 * j.val + 1)).dedup.length = 4) ∧
    (∀ p ∈ (skyboxTrianglePoints 0 ++ skyboxTrianglePoints 1 : List (Vec3 F)), p.x = 1) ∧
    (∀ p ∈ (skyboxTrianglePoints 2 ++ skyboxTrianglePoints 3 : List (Vec3 F)), p.x = -1) ∧
    (∀ p ∈ (skyboxTrianglePoints 4 ++ skyboxTrianglePoints 5 : List (Vec3 F)), p.y = 1) ∧
    (∀ p ∈ (skyboxTrianglePoints 6 ++ skyboxTrianglePoints 7 : List (Vec3 F)), p.y = -1) ∧
    (∀ p ∈ (skyboxTrianglePoints 8 ++ skyboxTrianglePoints 9 : List (Vec3 F)), p.z = 1) ∧
    (∀ p ∈ (skyboxTrianglePoints 10 ++ skyboxTrianglePoints 11 : List (Vec3 F)), p.z = -1) := by
  refine ⟨rfl, rfl, by decide, ?_, by decide, ?_, ?_, ?_, ?_, ?_, ?_⟩
  · intro k
    fin_cases k <;>
      simp [NonDegenerate, skyboxTrianglePoints, skyboxTriangle, skyboxIndices, skyboxVertices,
        cross, sub_x, sub_y, sub_z] <;> norm_num
  all_goals
    simp [skyboxTrianglePoints, skyboxTriangle, skyboxIndices, skyboxVertices]

end SkyboxTheorems

section DirectionLemmas

variable {F : Type} [LinearOrderedField F]

theorem processInput_yaw (m : MathLib F) (keys : Keys) (g : Globals F) :
    (processInput m keys g).yaw = g.yaw := by
  simp only [processInput]
  split_ifs <;> rfl

theorem scroll_callback_yaw (g : Globals F) (xoffset yoffset : F) :
    (scroll_callback g xoffset yoffset).yaw = g.yaw := by
  simp only [scroll_callback]
  split_ifs <;> rfl

theorem scroll_callback_cameraFront (g : Globals F) (xoffset yoffset : F) :
    (scroll_callback g xoffset yoffset).cameraFront = g.cameraFront := by
  simp only [scroll_callback]
  split_ifs <;> rfl

/-- What `mouse_callback` stores in `cameraFront`: the normalised `front` of the new angles. -/
theorem mouse_callback_cameraFront (m : MathLib F) (g : Globals F) (xpos ypos : F) :
    (mouse_callback m g xpos ypos).cameraFront =
      normalize m (front m (mouse_callback m g xpos ypos).yaw
        (mouse_callback m g xpos ypos).pitch) := by
  simp only [mouse_callback, front]

/-- The uniform `directional_light` seen by the draws of the second pass, from any context. -/
theorem secondPass_directional_light (ml : MathLib F) (g : Globals F) (s : GLState F) :
    (drawsOf s (secondPass ml g)).map (fun r => r.uniforms .directional_light) =
      List.replicate 11 (some (.vec3 ⟨0, -1, 1⟩)) := by
  simp [drawsOf, GLState.run, secondPass, secondPassSetup, secondPassDraws, GLState.step,
    GLState.record, List.replicate]

/-- C29: the light's view matrix looks from (0,10,-10) to (0,0,0); the vector from that
position to that target is 10 times (0,-1,1), a positive multiple of the value that every
draw of the colour pass sees in the uniform `directional_light`. -/
theorem light_direction_agrees (ml : MathLib F) (g : Globals F) (s : GLState F) :
    viewMatrixLight ml g = lookAt ml ⟨0, 10, -10⟩ ⟨0, 0, 0⟩ g.cameraUp ∧
    (⟨0, 0, 0⟩ : Vec3 F) - ⟨0, 10, -10⟩ = (10 : F) * (⟨0, -1, 1⟩ : Vec3 F) ∧
    (0 : F) < 10 ∧
    (drawsOf s (secondPass ml g)).map (fun r => r.uniforms .directional_light) =
      List.replicate 11 (some (.vec3 ⟨0, -1, 1⟩)) := by
  refine ⟨rfl, ?_, by norm_num, secondPass_directional_light ml g s⟩
  rw [Vec3.ext_iff3]
  simp only [sub_x, sub_y, sub_z, smul_x, smul_y, smul_z]
  refine ⟨?_, ?_, ?_⟩ <;> norm_num

end DirectionLemmas

/-! ## The camera direction over the reals -/

theorem radians_neg_90 : radians realMath (-90) = -(Real.pi / 2) := by
  simp only [radians, realMath]; ring

theorem radians_zero : radians realMath 0 = 0 := by
  simp only [radians, realMath]; ring

/-- The direction of the initial angles, yaw -90 and pitch 0. -/
theorem front_init : front realMath (-90) 0 = (⟨0, 0, -1⟩ : Vec3 ℝ) := by
  rw [Vec3.ext_iff3]
  simp only [front, radians_neg_90, radians_zero]
  simp [realMath]

/-- Over the reals `front` is the spherical direction of the two angles in radians. -/
theorem front_real (yaw pitch : ℝ) :
    front realMath yaw pitch =
      ⟨Real.cos (radians realMath yaw) * Real.cos (radians realMath pitch),
       Real.sin (radians realMath pitch),
       Real.sin (radians realMath yaw) * Real.cos (radians realMath pitch)⟩ := rfl

/-- Normalising `front` leaves it as it is. -/
theorem normalize_front (yaw pitch : ℝ) :
    normalize realMath (front realMath yaw pitch) = front realMath yaw pitch := by
  rw [front_real, normalize_spherical]

/-- In every reachable state `cameraFront` is the direction of the current yaw and pitch. -/
theorem Reachable.cameraFront_eq {g : Globals ℝ} (h : Reachable realMath g) :
    g.cameraFront = front realMath g.yaw g.pitch := by
  induction h with
  | init => exact front_init.symm
  | input keys _ ih => rw [processInput_cameraFront, processInput_yaw, processInput_pitch]; exact ih
  | time t _ ih => exact ih
  | mouse x y _ _ => rw [mouse_callback_cameraFront, normalize_front]
  | scroll xo yo _ ih =>
    rw [scroll_callback_cameraFront, scroll_callback_yaw, scroll_callback_pitch]; exact ih

/-- The cosine of a pitch within the clamp bounds is positive. -/
theorem cos_pitch_pos (pitch : ℝ) (hlo : -89 ≤ pitch) (hhi : pitch ≤ 89) :
    0 < Real.cos (radians realMath pitch) := by
  have hpi := Real.pi_pos
  apply Real.cos_pos_of_mem_Ioo
  simp only [radians, realMath, Set.mem_Ioo]
  constructor <;> nlinarith

/-- The cross product of `front` with world-up has length `cos(pitch)` when that is not negative. -/
theorem length_cross_front (yaw pitch : ℝ) (hc : 0 ≤ Real.cos (radians realMath pitch)) :
    length realMath (cross (front realMath yaw pitch) ⟨0, 1, 0⟩) =
      Real.cos (radians realMath pitch) := by
  have hd : dot (cross (front realMath yaw pitch) ⟨0, 1, 0⟩)
      (cross (front realMath yaw pitch) ⟨0, 1, 0⟩) = Real.cos (radians realMath pitch) ^ 2 := by
    simp only [front_real, dot, cross]
    linear_combination
      (Real.cos (radians realMath pitch)) ^ 2 * Real.sin_sq_add_cos_sq (radians realMath yaw)
  rw [length, hd]
  simp only [realMath]
  exact Real.sqrt_sq hc

/-- The length of `front` is one. -/
theorem length_front (yaw pitch : ℝ) : length realMath (front realMath yaw pitch) = 1 := by
  rw [length, front_real, dot_spherical]
  simp only [realMath, Real.sqrt_one]

/-- C24: for every yaw and every pitch in [-89, 89] degrees, `cross(front, (0,1,0))` has length
`cos(pitch)`, which is positive; and in every reachable state the three vectors that are
normalised with the camera direction (the strafing vector of `processInput`, the forward and
the side vector inside `lookAt`) have positive length, so none of the normalisations divides
by zero. -/
theorem front_not_parallel_to_up (yaw pitch : ℝ) (hlo : -89 ≤ pitch) (hhi : pitch ≤ 89)
    (g : Globals ℝ) (hg : Reachable realMath g) :
    0 < Real.cos (radians realMath pitch) ∧
    length realMath (cross (front realMath yaw pitch) ⟨0, 1, 0⟩) =
      Real.cos (radians realMath pitch) ∧
    cross (front realMath yaw pitch) ⟨0, 1, 0⟩ ≠ ⟨0, 0, 0⟩ ∧
    0 < length realMath (cross g.cameraFront g.cameraUp) ∧
    0 < length realMath (g.cameraPos + g.cameraFront - g.cameraPos) ∧
    0 < length realMath
      (cross (normalize realMath (g.cameraPos + g.cameraFront - g.cameraPos)) g.cameraUp) := by
  have hpos := cos_pitch_pos pitch hlo hhi
  have hlen := length_cross_front yaw pitch hpos.le
  have hgpos := cos_pitch_pos g.pitch hg.pitch_range.1 hg.pitch_range.2
  have hglen := length_cross_front g.yaw g.pitch hgpos.le
  refine ⟨hpos, hlen, ?_, ?_, ?_, ?_⟩
  · intro h0
    rw [h0] at hlen
    have hz : length realMath (⟨0, 0, 0⟩ : Vec3 ℝ) = 0 := by
      simp [length, dot, realMath]
    linarith
  · rw [hg.cameraUp_eq, hg.cameraFront_eq, hglen]; exact hgpos
  · rw [add_sub_self_left, hg.cameraFront_eq, length_front]; exact one_pos
  · rw [add_sub_self_left, hg.cameraUp_eq, hg.cameraFront_eq, normalize_front, hglen]; exact hgpos

/-- Witness of C24: yaw 30 and pitch 89, the upper clamp bound, with the state after one cursor
event. -/
theorem front_not_parallel_to_up_witness :
    0 < Real.cos (radians realMath 89) ∧
    length realMath (cross (front realMath 30 89) ⟨0, 1, 0⟩) = Real.cos (radians realMath 89) ∧
    0 < length realMath (cross (mouse_callback realMath initGlobals 410 320).cameraFront
      (mouse_callback realMath initGlobals 410 320).cameraUp) :=
  have h := front_not_parallel_to_up 30 89 (by norm_num) (by norm_num)
    (mouse_callback realMath initGlobals 410 320) (Reachable.mouse 410 320 Reachable.init)
  ⟨h.1, h.2.1, h.2.2.2.1⟩

theorem Mat4.ext_cols {F : Type} (a b : Mat4 F) :
    a = b ↔ a.c0 = b.c0 ∧ a.c1 = b.c1 ∧ a.c2 = b.c2 ∧ a.c3 = b.c3 := by
  cases a; cases b; simp

section CompositionTheorems

variable {F : Type} [LinearOrderedField F]

/-- The matrix product associates. -/
theorem mulMat_assoc (a b c : Mat4 F) : a * b * c = a * (b * c) := by
  rw [Mat4.ext_cols]
  exact ⟨mulMat_mulVec a b c.c0, mulMat_mulVec a b c.c1, mulMat_mulVec a b c.c2,
    mulMat_mulVec a b c.c3⟩

/-- The function `glm::translate(m, v)` multiplies `m` on the right by the translation. -/
theorem translate_eq_mul (m : Mat4 F) (v : Vec3 F) :
    translate m v = m * translate Mat4.identity v := by
  rw [Mat4.ext_cols]
  simp only [translate, Mat4.identity, mulMat_eq, mulVec_eq, vec4_mul_scalar, vec4_add,
    Vec4.ext_iff4]
  refine ⟨⟨?_, ?_, ?_, ?_⟩, ⟨?_, ?_, ?_, ?_⟩, ⟨?_, ?_, ?_, ?_⟩, ⟨?_, ?_, ?_, ?_⟩⟩ <;> ring

/-- The function `glm::scale(m, v)` multiplies `m` on the right by the scaling. -/
theorem scale_eq_mul (m : Mat4 F) (v : Vec3 F) :
    scale m v = m * scale Mat4.identity v := by
  rw [Mat4.ext_cols]
  simp only [scale, Mat4.identity, mulMat_eq, mulVec_eq, vec4_mul_scalar, Vec4.ext_iff4]
  refine ⟨⟨?_, ?_, ?_, ?_⟩, ⟨?_, ?_, ?_, ?_⟩, ⟨?_, ?_, ?_, ?_⟩, ⟨?_, ?_, ?_, ?_⟩⟩ <;> ring

/-- The function `glm::rotate(m, angle, v)` multiplies `m` on the right by the rotation. -/
theorem rotate_eq_mul (ml : MathLib F) (m : Mat4 F) (angle : F) (v : Vec3 F) :
    rotate ml m angle v = m * rotate ml Mat4.identity angle v := by
  rw [Mat4.ext_cols]
  simp only [rotate, Mat4.identity, mulMat_eq, mulVec_eq, vec4_mul_scalar, vec4_add,
    Vec4.ext_iff4]
  refine ⟨⟨?_, ?_, ?_, ?_⟩, ⟨?_, ?_, ?_, ?_⟩, ⟨?_, ?_, ?_, ?_⟩, ⟨?_, ?_, ?_, ?_⟩⟩ <;> ring

/-- A rotation of the identity keeps the fourth coordinate of a point. -/
theorem rotate_identity_w (ml : MathLib F) (angle : F) (v : Vec3 F) (q : Vec4 F) :
    (rotate ml Mat4.identity angle v * q).w = q.w := by
  simp only [rotate, Mat4.identity, mulVec_eq, vec4_mul_scalar, vec4_add]
  ring

/-- Translation after scaling, applied to a point. -/
theorem translate_scale_apply (t s : Vec3 F) (q : Vec4 F) (hq : q.w = 1) :
    translate Mat4.identity t * scale Mat4.identity s * q =
      ⟨t.x + s.x * q.x, t.y + s.y * q.y, t.z + s.z * q.z, 1⟩ := by
  obtain ⟨qx, qy, qz, qw⟩ := q
  simp only at hq
  subst hq
  rw [Vec4.ext_iff4]
  simp only [translate, scale, Mat4.identity, mulMat_eq, mulVec_eq, vec4_mul_scalar, vec4_add]
  refine ⟨?_, ?_, ?_, ?_⟩ <;> ring

/-- A product `T(t) * S(s) * R` with `R` keeping the fourth coordinate sends a point to
`t + s * (R * point)`. -/
theorem composedAs_of_product (M : Mat4 F) (t s : Vec3 F) (R : Mat4 F)
    (hM : M = translate Mat4.identity t * scale Mat4.identity s * R)
    (hR : ∀ q : Vec4 F, (R * q).w = q.w) : ComposedAs M t s R := by
  refine ⟨hM, ?_⟩
  intro x y z
  rw [hM, mulMat_mulVec (translate Mat4.identity t * scale Mat4.identity s) R,
    translate_scale_apply t s _ (by rw [hR])]

theorem identity_mulVec (q : Vec4 F) : (Mat4.identity : Mat4 F) * q = q := by
  rw [Vec4.ext_iff4]
  simp only [Mat4.identity, mulVec_eq]
  refine ⟨?_, ?_, ?_, ?_⟩ <;> ring

theorem mul_identity (m : Mat4 F) : m * Mat4.identity = m := by
  rw [Mat4.ext_cols]
  simp only [Mat4.identity, mulMat_eq, mulVec_eq, Vec4.ext_iff4]
  refine ⟨⟨?_, ?_, ?_, ?_⟩, ⟨?_, ?_, ?_, ?_⟩, ⟨?_, ?_, ?_, ?_⟩, ⟨?_, ?_, ?_, ?_⟩⟩ <;> ring

theorem identity_mul (m : Mat4 F) : Mat4.identity * m = m := by
  rw [Mat4.ext_cols]
  exact ⟨identity_mulVec m.c0, identity_mulVec m.c1, identity_mulVec m.c2, identity_mulVec m.c3⟩

theorem translate_zero : translate (Mat4.identity : Mat4 F) ⟨0, 0, 0⟩ = Mat4.identity := by
  simp [translate, Mat4.identity, vec4_mul_scalar, vec4_add]

theorem scale_one : scale (Mat4.identity : Mat4 F) ⟨1, 1, 1⟩ = Mat4.identity := by
  simp [scale, Mat4.identity, vec4_mul_scalar]

/-- The composition `rotate(scale(translate(1, t), s), angle, axis)` of lines 727-768. -/
theorem composedAs_trs (ml : MathLib F) (t s : Vec3 F) (angle : F) (axis : Vec3 F) :
    ComposedAs (rotate ml (scale (translate Mat4.identity t) s) angle axis) t s
      (rotate ml Mat4.identity angle axis) :=
  composedAs_of_product _ t s _ (by rw [rotate_eq_mul, scale_eq_mul])
    (rotate_identity_w ml angle axis)

/-- C25: every drawn object's model matrix is `T(t) * S(s) * R` with the translation, scaling
and rotation of its source lines (omitted factors being the identity; for the chair base `R`
is the product of its two rotations), and applied to a point it gives `t + s * (R * point)`:
rotated first, then scaled, then translated. -/
theorem model_matrices_translate_scale_rotate (ml : MathLib F) :
    ComposedAs (roomModelMatrix : Mat4 F) ⟨0, 0, 0⟩ ⟨5, 5, 5⟩ Mat4.identity ∧
    ComposedAs (Crate1ModelMatrix : Mat4 F) ⟨-4, -4, -4⟩ ⟨1, 1, 1⟩ Mat4.identity ∧
    ComposedAs (Crate2ModelMatrix ml) ⟨-4.5, -2.6, -3.5⟩ ⟨0.3, 0.3, 0.3⟩
      (rotate ml Mat4.identity (radians ml 45) ⟨0, 1, 0⟩) ∧
    ComposedAs (Crate3ModelMatrix ml) ⟨-3.5, -2.6, -4⟩ ⟨0.3, 0.3, 0.3⟩
      (rotate ml Mat4.identity (radians ml 250) ⟨0, 1, 0⟩) ∧
    ComposedAs (WindowModelMatrix ml) ⟨0, 3, 0⟩ ⟨5, 5, 5⟩
      (rotate ml Mat4.identity (radians ml 90) ⟨0, 1, 0⟩) ∧
    ComposedAs (ChairBackModelMatrix ml) ⟨3.75, -1, -4.8⟩ ⟨1.2, 1.2, 1.2⟩
      (rotate ml Mat4.identity (radians ml (-25)) ⟨0, 1, 0⟩) ∧
    ComposedAs (ChairBaseModelMatrix ml) ⟨3, -1.6, -3.2⟩ ⟨1.2, 1.2, 1.2⟩
      (rotate ml Mat4.identity (radians ml (-25)) ⟨0, 1, 0⟩ *
        rotate ml Mat4.identity (radians ml 90) ⟨1, 0, 0⟩) ∧
    ComposedAs (ChairLeg1ModelMatrix ml) ⟨2.98, -3.7, -3.22⟩ ⟨1.2, 1.2, 1.2⟩
      (rotate ml Mat4.identity (radians ml (-25)) ⟨0, 1, 0⟩) ∧
    ComposedAs (ChairLeg2ModelMatrix ml) ⟨1.68, -3.7, -3.83⟩ ⟨1.2, 1.2, 1.2⟩
      (rotate ml Mat4.identity (radians ml (-25)) ⟨0, 1, 0⟩) ∧
    ComposedAs (ChairLeg3ModelMatrix ml) ⟨2.5, -3.7, -5.6⟩ ⟨1.2, 1.2, 1.2⟩
      (rotate ml Mat4.identity (radians ml (-25)) ⟨0, 1, 0⟩) ∧
    ComposedAs (ChairLeg4ModelMatrix ml) ⟨3.8, -3.7, -5⟩ ⟨1.2, 1.2, 1.2⟩
      (rotate ml Mat4.identity (radians ml (-25)) ⟨0, 1, 0⟩) := by
  refine ⟨?_, ?_, composedAs_trs ml _ _ _ _, composedAs_trs ml _ _ _ _,
    composedAs_trs ml _ _ _ _, composedAs_trs ml _ _ _ _, ?_, composedAs_trs ml _ _ _ _,
    composedAs_trs ml _ _ _ _, composedAs_trs ml _ _ _ _, composedAs_trs ml _ _ _ _⟩
  · refine composedAs_of_product _ _ _ _ ?_ (fun q => by rw [identity_mulVec])
    rw [roomModelMatrix, translate_zero, mul_identity, identity_mul]
  · refine composedAs_of_product _ _ _ _ ?_ (fun q => by rw [identity_mulVec])
    rw [Crate1ModelMatrix, scale_one, mul_identity, mul_identity]
  · refine composedAs_of_product _ _ _ _ ?_ ?_
    · rw [ChairBaseModelMatrix, rotate_eq_mul, rotate_eq_mul, scale_eq_mul, mulMat_assoc
        (translate Mat4.identity _ * scale Mat4.identity _)]
    · intro q
      rw [mulMat_mulVec, rotate_identity_w, rotate_identity_w]

end CompositionTheorems

section RecomputeTheorems

variable {F : Type} [LinearOrderedField F]

theorem dispatch_reachable (ml : MathLib F) (st : Globals F × GLState F) (e : InputEvent F)
    (h : Reachable ml st.1) : Reachable ml (dispatch ml st e).1 := by
  cases e with
  | cursorPos xpos ypos => exact Reachable.mouse xpos ypos h
  | scroll xoffset yoffset => exact Reachable.scroll xoffset yoffset h
  | framebufferSize width height => exact h

theorem dispatch_all_reachable (ml : MathLib F) (es : List (InputEvent F))
    (st : Globals F × GLState F) (h : Reachable ml st.1) :
    Reachable ml (es.foldl (dispatch ml) st).1 := by
  induction es generalizing st with
  | nil => exact h
  | cons e es ih => exact ih _ (dispatch_reachable ml st e h)

theorem loopIteration_reachable (ml : MathLib F) (keys : Keys) (currentFrame : F)
    (g : Globals F) (s : GLState F) (h : Reachable ml g) :
    Reachable ml (loopIteration ml keys currentFrame g s).1 :=
  Reachable.time currentFrame (Reachable.input keys h)

theorem runFrame_reachable (ml : MathLib F) (st : Globals F × GLState F) (i : FrameInput F)
    (h : Reachable ml st.1) : Reachable ml (runFrame ml st i).1 :=
  dispatch_all_reachable ml _ _ (loopIteration_reachable ml _ _ _ _ h)

/-- The globals after any number of loop iterations are reachable. -/
theorem runLoop_reachable (ml : MathLib F) (inputs : List (FrameInput F)) :
    Reachable ml (runLoop ml inputs).1 := by
  have key : ∀ (l : List (FrameInput F)) (st : Globals F × GLState F),
      Reachable ml st.1 → Reachable ml (l.foldl (runFrame ml) st).1 := by
    intro l
    induction l with
    | nil => intro st h; exact h
    | cons i l ih => intro st h; exact ih _ (runFrame_reachable ml st i h)
  exact key inputs _ Reachable.init

/-- The globals a frame renders with are reachable. -/
theorem frameGlobals_reachable (ml : MathLib F) (inputs : List (FrameInput F))
    (i : FrameInput F) : Reachable ml (frameGlobals ml inputs i) :=
  loopIteration_reachable ml _ _ _ _ (runLoop_reachable ml inputs)

/-- The light and model matrices seen by the draws of the first pass, from any context. -/
theorem firstPass_light_model (ml : MathLib F) (g : Globals F) (s : GLState F) :
    (drawsOf s (firstPass ml g)).map
        (fun r => (r.uniforms .projection, r.uniforms .view, r.uniforms .model)) =
      [roomModelMatrix, Crate1ModelMatrix, Crate2ModelMatrix ml, Crate3ModelMatrix ml,
       WindowModelMatrix ml, ChairBackModelMatrix ml, ChairBaseModelMatrix ml,
       ChairLeg1ModelMatrix ml, ChairLeg2ModelMatrix ml, ChairLeg3ModelMatrix ml,
       ChairLeg4ModelMatrix ml].map
        (fun M => (some (.mat4 projectionMatrixLight), some (.mat4 (viewMatrixLight ml g)),
          some (.mat4 M))) := by
  simp [drawsOf, GLState.run, firstPass, GLState.step, GLState.record]

/-- The light and model matrices seen by the draws of the second pass, from any context. -/
theorem secondPass_light_model (ml : MathLib F) (g : Globals F) (s : GLState F) :
    (drawsOf s (secondPass ml g)).map
        (fun r => (r.uniforms .projectionLight, r.uniforms .viewLight, r.uniforms .model)) =
      [roomModelMatrix, Crate1ModelMatrix, Crate2ModelMatrix ml, Crate3ModelMatrix ml,
       WindowModelMatrix ml, ChairBackModelMatrix ml, ChairBaseModelMatrix ml,
       ChairLeg1ModelMatrix ml, ChairLeg2ModelMatrix ml, ChairLeg3ModelMatrix ml,
       ChairLeg4ModelMatrix ml].map
        (fun M => (some (.mat4 projectionMatrixLight), some (.mat4 (viewMatrixLight ml g)),
          some (.mat4 M))) := by
  simp [drawsOf, GLState.run, secondPass, secondPassSetup, secondPassDraws, GLState.step,
    GLState.record]

/-- C26: take any two frames, each after any run of loop iterations with any keys, times and
input events, and started in any context.  The light's view matrix is the same in both, and
the draws of the shadow pass and of the colour pass see the same light projection, light view
and model matrices in both, object by object. -/
theorem light_and_model_matrices_frame_independent (ml : MathLib F)
    (inputs1 inputs2 : List (FrameInput F)) (i1 i2 : FrameInput F) (s1 s2 : GLState F) :
    viewMatrixLight ml (frameGlobals ml inputs1 i1) =
      viewMatrixLight ml (frameGlobals ml inputs2 i2) ∧
    viewMatrixLight ml (frameGlobals ml inputs1 i1) =
      lookAt ml ⟨0, 10, -10⟩ ⟨0, 0, 0⟩ ⟨0, 1, 0⟩ ∧
    (drawsOf s1 (firstPass ml (frameGlobals ml inputs1 i1))).map
        (fun r => (r.uniforms .projection, r.uniforms .view, r.uniforms .model)) =
      (drawsOf s2 (firstPass ml (frameGlobals ml inputs2 i2))).map
        (fun r => (r.uniforms .projection, r.uniforms .view, r.uniforms .model)) ∧
    (drawsOf s1 (secondPass ml (frameGlobals ml inputs1 i1))).map
        (fun r => (r.uniforms .projectionLight, r.uniforms .viewLight, r.uniforms .model)) =
      (drawsOf s2 (secondPass ml (frameGlobals ml inputs2 i2))).map
        (fun r => (r.uniforms .projectionLight, r.uniforms .viewLight, r.uniforms .model)) := by
  have h1 := (frameGlobals_reachable ml inputs1 i1).viewMatrixLight_eq
  have h2 := (frameGlobals_reachable ml inputs2 i2).viewMatrixLight_eq
  refine ⟨h1.trans h2.symm, h1, ?_, ?_⟩
  · rw [firstPass_light_model, firstPass_light_model, h1, h2]
  · rw [secondPass_light_model, secondPass_light_model, h1, h2]

end RecomputeTheorems

/-! ## Conversions to `float` -/

section Float32Lemmas

variable {F : Type} [LinearOrderedField F] [FloorRing F]

/-- A value strictly within a half of an integer rounds to that integer. -/
theorem roundHalfEven_of_near (y : F) (n : ℤ) (h1 : (n : F) - 1 / 2 < y)
    (h2 : y < (n : F) + 1 / 2) : roundHalfEven y = n := by
  rcases lt_or_le y (n : F) with hlt | hge
  · have hfloor : ⌊y⌋ = n - 1 := by
      rw [Int.floor_eq_iff]
      push_cast
      constructor <;> linarith
    have hn1 : ¬ (y - ((n - 1 : ℤ) : F) < 1 / 2) := by push_cast; linarith
    have hn2 : (1 / 2 : F) < y - ((n - 1 : ℤ) : F) := by push_cast; linarith
    simp only [roundHalfEven, hfloor, hn1, hn2, if_true, if_false]
    ring
  · have hfloor : ⌊y⌋ = n := by
      rw [Int.floor_eq_iff]
      constructor <;> linarith
    have hn1 : y - (n : F) < 1 / 2 := by linarith
    simp only [roundHalfEven, hfloor, hn1, if_true]

theorem toFloat_zero : toFloat (0 : F) = 0 := by
  simp [toFloat]

/-- The conversion of a value of binade `e` that lies strictly within half a unit in the last
place of `n` units: the result is `n` units. -/
theorem toFloat_of_near (x : F) (e n : ℤ) (hlo : (2 : F) ^ e ≤ |x|) (hhi : |x| < (2 : F) ^ (e + 1))
    (hmin : -126 ≤ e) (h1 : (n : F) - 1 / 2 < x / (2 : F) ^ (e - 23))
    (h2 : x / (2 : F) ^ (e - 23) < (n : F) + 1 / 2) :
    toFloat x = (n : F) * (2 : F) ^ (e - 23) := by
  have hpos : (0 : F) < |x| := lt_of_lt_of_le (zpow_pos (by norm_num) e) hlo
  have hx : x ≠ 0 := abs_pos.mp hpos
  have hlog : Int.log 2 |x| = e := by
    apply le_antisymm
    · have h := (Int.lt_zpow_iff_log_lt (R := F) (b := 2) (by norm_num) hpos).mp
        (by simpa using hhi)
      omega
    · exact (Int.zpow_le_iff_le_log (R := F) (b := 2) (by norm_num) hpos).mp (by simpa using hlo)
  simp only [toFloat, hx, if_false, hlog, max_eq_left hmin, roundHalfEven_of_near _ n h1 h2]

/-- A value that is itself a whole number of units of its binade is converted to itself. -/
theorem toFloat_of_exact (x : F) (e n : ℤ) (hlo : (2 : F) ^ e ≤ |x|)
    (hhi : |x| < (2 : F) ^ (e + 1)) (hmin : -126 ≤ e) (hx : x = (n : F) * (2 : F) ^ (e - 23)) :
    toFloat x = x := by
  have hu : (0 : F) < (2 : F) ^ (e - 23) := zpow_pos (by norm_num) _
  have hy : x / (2 : F) ^ (e - 23) = n := by
    rw [hx, mul_div_assoc, div_self hu.ne', mul_one]
  rw [toFloat_of_near x e n hlo hhi hmin (by rw [hy]; linarith) (by rw [hy]; linarith), ← hx]

/-- The same for a positive value. -/
theorem toFloat_of_near_pos (x : F) (e n : ℤ) (hlo : (2 : F) ^ e ≤ x) (hhi : x < (2 : F) ^ (e + 1))
    (hmin : -126 ≤ e) (h1 : (n : F) - 1 / 2 < x / (2 : F) ^ (e - 23))
    (h2 : x / (2 : F) ^ (e - 23) < (n : F) + 1 / 2) :
    toFloat x = (n : F) * (2 : F) ^ (e - 23) := by
  have hpos : (0 : F) < x := lt_of_lt_of_le (zpow_pos (by norm_num) e) hlo
  exact toFloat_of_near x e n (by rwa [abs_of_pos hpos]) (by rwa [abs_of_pos hpos]) hmin h1 h2

/-- The same for a positive value that is a whole number of units. -/
theorem toFloat_of_exact_pos (x : F) (e n : ℤ) (hlo : (2 : F) ^ e ≤ x)
    (hhi : x < (2 : F) ^ (e + 1)) (hmin : -126 ≤ e) (hx : x = (n : F) * (2 : F) ^ (e - 23)) :
    toFloat x = x := by
  have hpos : (0 : F) < x := lt_of_lt_of_le (zpow_pos (by norm_num) e) hlo
  exact toFloat_of_exact x e n (by rwa [abs_of_pos hpos]) (by rwa [abs_of_pos hpos]) hmin hx

end Float32Lemmas

theorem toFloat_400 : toFloat (400 : ℝ) = 400 := by
  apply toFloat_of_exact_pos 400 8 13107200 <;> norm_num

theorem toFloat_300 : toFloat (300 : ℝ) = 300 := by
  apply toFloat_of_exact_pos 300 8 9830400 <;> norm_num

theorem toFloat_one : toFloat (1 : ℝ) = 1 := by
  apply toFloat_of_exact_pos 1 0 8388608 <;> norm_num

/-! ## The first cursor event with the conversions to `float` -/

section FirstEvent

variable {F : Type} [LinearOrderedField F] [FloorRing F]

/-- The first cursor event: what is stored, and the angles before the clamp acts. -/
theorem mouse_callback_float_first (m : MathLib F) (g : Globals F)
    (hfirst : g.firstMouse = true) (hlo : -89 ≤ g.pitch) (hhi : g.pitch ≤ 89) (xpos ypos : F) :
    (mouse_callback_float m g xpos ypos).lastX = toFloat xpos ∧
    (mouse_callback_float m g xpos ypos).lastY = toFloat ypos ∧
    (mouse_callback_float m g xpos ypos).firstMouse = false ∧
    (mouse_callback_float m g xpos ypos).yaw = g.yaw + toFloat (xpos - toFloat xpos) * 0.1 ∧
    (toFloat ypos = ypos → (mouse_callback_float m g xpos ypos).pitch = g.pitch) := by
  have h1 : ¬ (89 < g.pitch) := not_lt.mpr hhi
  have h2 : ¬ (g.pitch < -89) := not_lt.mpr hlo
  refine ⟨?_, ?_, ?_, ?_, ?_⟩
  · simp [mouse_callback_float, hfirst]
    split_ifs <;> rfl
  · simp [mouse_callback_float, hfirst]
    split_ifs <;> rfl
  · simp [mouse_callback_float, hfirst]
    split_ifs <;> rfl
  · simp [mouse_callback_float, hfirst]
    split_ifs <;> rfl
  · intro hy
    simp [mouse_callback_float, hfirst, hy, toFloat_zero, h1, h2]

/-- On a first cursor event at a position exact in `float` the function with conversions and
the idealised `mouse_callback` return the same globals. -/
theorem mouse_callback_float_eq_first (m : MathLib F) (g : Globals F)
    (hfirst : g.firstMouse = true) (xpos ypos : F) (hx : toFloat xpos = xpos)
    (hy : toFloat ypos = ypos) :
    mouse_callback_float m g xpos ypos = mouse_callback m g xpos ypos := by
  simp only [mouse_callback_float, mouse_callback, hfirst, hx, hy, if_true, sub_self,
    toFloat_zero]

/-- What `mouse_callback_float` stores in `cameraFront`: the normalised `front` of the new
angles. -/
theorem mouse_callback_float_cameraFront (m : MathLib F) (g : Globals F) (xpos ypos : F) :
    (mouse_callback_float m g xpos ypos).cameraFront =
      normalize m (front m (mouse_callback_float m g xpos ypos).yaw
        (mouse_callback_float m g xpos ypos).pitch) := by
  simp only [mouse_callback_float, front]

end FirstEvent

/-- The constant of `glm::radians` as a `float`. -/
theorem float32Math_degToRad : float32Math.degToRad = 9370165 / 536870912 := by
  show toFloat (0.01745329251994329576923690768489 : ℝ) = 9370165 / 536870912
  rw [toFloat_of_near_pos (0.01745329251994329576923690768489 : ℝ) (-6) 9370165] <;> norm_num

/-- The angle -90 degrees in radians, as the `float` handed to `cos` and `sin`: the `float`
nearest to -pi/2. -/
theorem toFloat_radians_neg_90 :
    toFloat (radians float32Math (-90)) = -(13176795 / 8388608) := by
  rw [radians, float32Math_degToRad,
    toFloat_of_near (-90 * (9370165 / 536870912) : ℝ) 0 (-13176795)]
  · norm_num
  · rw [abs_of_neg (by norm_num)]; norm_num
  · rw [abs_of_neg (by norm_num)]; norm_num
  · norm_num
  · norm_num
  · norm_num

theorem radians_float_zero : radians float32Math 0 = 0 := by
  simp [radians]

/-- By how much the `float` nearest to pi/2 exceeds pi/2. -/
theorem float_right_angle_excess :
    (4371138999 / 100000000000000000 : ℝ) < 13176795 / 8388608 - Real.pi / 2 ∧
    (13176795 / 8388608 : ℝ) - Real.pi / 2 < 4371139001 / 100000000000000000 := by
  have h1 := Real.pi_gt_d20
  have h2 := Real.pi_lt_d20
  constructor <;> norm_num at h1 h2 ⊢ <;> linarith

/-- The value of `cos(glm::radians(-90.0f))` in `float`: -12303662 * 2^-48, about -4.37e-8. -/
theorem float_cos_neg_90 :
    float32Math.cos (radians float32Math (-90)) = -(12303662 / 281474976710656) := by
  show toFloat (Real.cos (toFloat (radians float32Math (-90)))) = _
  rw [toFloat_radians_neg_90, Real.cos_neg]
  obtain ⟨hd1, hd2⟩ := float_right_angle_excess
  have ha : (13176795 / 8388608 : ℝ) = (13176795 / 8388608 - Real.pi / 2) + Real.pi / 2 := by
    ring
  rw [ha, Real.cos_add_pi_div_two]
  generalize (13176795 / 8388608 : ℝ) - Real.pi / 2 = d at hd1 hd2
  have hpos : 0 < d := by linarith
  have hs1 : Real.sin d < d := Real.sin_lt hpos
  have hs2 : d - d ^ 3 / 4 < Real.sin d := Real.sin_gt_sub_cube hpos (by linarith)
  have hcube : d ^ 3 ≤ 1 / 10 ^ 21 := by
    have hle : d ≤ 1 / 10 ^ 7 := by linarith
    calc d ^ 3 ≤ (1 / 10 ^ 7) ^ 3 := pow_le_pow_left₀ hpos.le hle 3
      _ = 1 / 10 ^ 21 := by norm_num
  have hsin_pos : 0 < Real.sin d := by linarith
  rw [toFloat_of_near (-Real.sin d) (-25) (-12303662)]
  · norm_num
  · rw [abs_neg, abs_of_pos hsin_pos]; norm_num; linarith
  · rw [abs_neg, abs_of_pos hsin_pos]; norm_num; linarith
  · norm_num
  · norm_num; linarith
  · norm_num; linarith

/-- The value of `sin(glm::radians(-90.0f))` in `float`: -1. -/
theorem float_sin_neg_90 : float32Math.sin (radians float32Math (-90)) = -1 := by
  show toFloat (Real.sin (toFloat (radians float32Math (-90)))) = _
  rw [toFloat_radians_neg_90, Real.sin_neg]
  obtain ⟨hd1, hd2⟩ := float_right_angle_excess
  have hpi := Real.pi_gt_three
  have ha : (13176795 / 8388608 : ℝ) = (13176795 / 8388608 - Real.pi / 2) + Real.pi / 2 := by
    ring
  rw [ha, Real.sin_add_pi_div_two]
  generalize (13176795 / 8388608 : ℝ) - Real.pi / 2 = d at hd1 hd2
  have hpos : 0 < d := by linarith
  have hc1 : 1 - d ^ 2 / 2 ≤ Real.cos d := Real.one_sub_sq_div_two_le_cos
  have hc2 : Real.cos d < 1 := by
    have h := Real.cos_lt_cos_of_nonneg_of_le_pi_div_two (le_refl (0 : ℝ))
      (show d ≤ Real.pi / 2 by linarith) hpos
    rwa [Real.cos_zero] at h
  have hsq : d ^ 2 ≤ 1 / 10 ^ 14 := by
    have hle : d ≤ 1 / 10 ^ 7 := by linarith
    calc d ^ 2 ≤ (1 / 10 ^ 7) ^ 2 := pow_le_pow_left₀ hpos.le hle 2
      _ = 1 / 10 ^ 14 := by norm_num
  have hcos_pos : 0 < Real.cos d := by linarith
  rw [toFloat_of_near (-Real.cos d) (-1) (-16777216)]
  · norm_num
  · rw [abs_neg, abs_of_pos hcos_pos]; norm_num; linarith
  · rw [abs_neg, abs_of_pos hcos_pos]; norm_num; linarith
  · norm_num
  · norm_num; linarith
  · norm_num; linarith

theorem float_cos_zero : float32Math.cos (radians float32Math 0) = 1 := by
  show toFloat (Real.cos (toFloat (radians float32Math 0))) = 1
  rw [radians_float_zero, toFloat_zero, Real.cos_zero, toFloat_one]

theorem float_sin_zero : float32Math.sin (radians float32Math 0) = 0 := by
  show toFloat (Real.sin (toFloat (radians float32Math 0))) = 0
  rw [radians_float_zero, toFloat_zero, Real.sin_zero, toFloat_zero]

/-- The direction of the initial angles in `float`. -/
theorem float_front_init :
    front float32Math (-90) 0 = ⟨-(12303662 / 281474976710656), 0, -1⟩ := by
  rw [Vec3.ext_iff3]
  simp only [front, float_cos_neg_90, float_sin_neg_90, float_cos_zero, float_sin_zero]
  norm_num

/-- The squared length of that direction exceeds 1 by less than `float` resolves, so the
normalisation leaves the vector as it is. -/
theorem float_normalize_front_init :
    normalize float32Math (⟨-(12303662 / 281474976710656), 0, -1⟩ : Vec3 ℝ) =
      ⟨-(12303662 / 281474976710656), 0, -1⟩ := by
  have hdot : toFloat (dot (⟨-(12303662 / 281474976710656), 0, -1⟩ : Vec3 ℝ)
      ⟨-(12303662 / 281474976710656), 0, -1⟩) = 1 := by
    simp only [dot]
    rw [toFloat_of_near_pos _ 0 8388608] <;> norm_num
  have hsqrt : float32Math.sqrt (dot (⟨-(12303662 / 281474976710656), 0, -1⟩ : Vec3 ℝ)
      ⟨-(12303662 / 281474976710656), 0, -1⟩) = 1 := by
    show toFloat (Real.sqrt (toFloat _)) = 1
    rw [hdot, Real.sqrt_one, toFloat_one]
  rw [Vec3.ext_iff3]
  simp only [normalize, inversesqrt, hsqrt, muls_x, muls_y, muls_z]
  norm_num

/-- The first cursor event from the initial globals at a position exact in `float`, for any
scalar functions: the angles stay -90 and 0, and `cameraFront` is recomputed from them. -/
theorem mouse_callback_float_init (m : MathLib ℝ) (xpos ypos : ℝ) (hx : toFloat xpos = xpos)
    (hy : toFloat ypos = ypos) :
    (mouse_callback_float m initGlobals xpos ypos).yaw = -90 ∧
    (mouse_callback_float m initGlobals xpos ypos).pitch = 0 ∧
    (mouse_callback_float m initGlobals xpos ypos).cameraFront =
      normalize m (front m (-90) 0) := by
  obtain ⟨_, _, _, hyaw, hpitch⟩ := mouse_callback_float_first m (initGlobals : Globals ℝ) rfl
    (by norm_num [initGlobals]) (by norm_num [initGlobals]) xpos ypos
  have h1 : (mouse_callback_float m initGlobals xpos ypos).yaw = -90 := by
    rw [hyaw, hx, sub_self, toFloat_zero, zero_mul, add_zero]; rfl
  have h2 : (mouse_callback_float m initGlobals xpos ypos).pitch = 0 := by
    rw [hpitch hy]; rfl
  refine ⟨h1, h2, ?_⟩
  rw [mouse_callback_float_cameraFront, h1, h2]

/-- The counterexample to C30 as stated: the first cursor event from the initial globals at
(400, 300), computed with the `float` functions.  `cos(glm::radians(-90.0f))` is
-12303662 * 2^-48 (about -4.37e-8), not 0, so `cameraFront` becomes (-4.37e-8, 0, -1) and is
not (0, 0, -1). -/
theorem first_mouse_event_float_front_differs :
    (initGlobals : Globals ℝ).cameraFront = ⟨0, 0, -1⟩ ∧
    (mouse_callback_float float32Math initGlobals 400 300).cameraFront =
      ⟨-(12303662 / 281474976710656), 0, -1⟩ ∧
    (mouse_callback_float float32Math initGlobals 400 300).cameraFront ≠ ⟨0, 0, -1⟩ := by
  have h : (mouse_callback_float float32Math initGlobals 400 300).cameraFront =
      ⟨-(12303662 / 281474976710656), 0, -1⟩ := by
    rw [(mouse_callback_float_init float32Math 400 300 toFloat_400 toFloat_300).2.2,
      float_front_init, float_normalize_front_init]
  refine ⟨rfl, h, ?_⟩
  rw [h, Ne, Vec3.ext_iff3]
  norm_num

/-- C30 as amended: from the initial globals the first `mouse_callback`, at a cursor position
exact in `float`, leaves yaw at -90 and pitch at 0 and recomputes `cameraFront` as the
normalised `front` of those angles.  With exact real cosine and sine that is (0, 0, -1); with
the `float` functions it is (-12303662 * 2^-48, 0, -1), whose first coordinate is about
-4.37e-8: within 1e-7 of (0, 0, -1), not equal to it. -/
theorem first_mouse_event_recomputes_front (xpos ypos : ℝ) (hx : toFloat xpos = xpos)
    (hy : toFloat ypos = ypos) :
    (∀ m : MathLib ℝ,
      (mouse_callback_float m initGlobals xpos ypos).yaw = -90 ∧
      (mouse_callback_float m initGlobals xpos ypos).pitch = 0 ∧
      (mouse_callback_float m initGlobals xpos ypos).cameraFront =
        normalize m (front m (-90) 0)) ∧
    (mouse_callback_float realMath initGlobals xpos ypos).cameraFront = ⟨0, 0, -1⟩ ∧
    (mouse_callback_float float32Math initGlobals xpos ypos).cameraFront =
      ⟨-(12303662 / 281474976710656), 0, -1⟩ ∧
    -(1 / 10 ^ 7) < (mouse_callback_float float32Math initGlobals xpos ypos).cameraFront.x ∧
    (mouse_callback_float float32Math initGlobals xpos ypos).cameraFront.x < 0 := by
  have hf : (mouse_callback_float float32Math initGlobals xpos ypos).cameraFront =
      ⟨-(12303662 / 281474976710656), 0, -1⟩ := by
    rw [(mouse_callback_float_init float32Math xpos ypos hx hy).2.2, float_front_init,
      float_normalize_front_init]
  refine ⟨fun m => mouse_callback_float_init m xpos ypos hx hy, ?_, hf, ?_, ?_⟩
  · rw [(mouse_callback_float_init realMath xpos ypos hx hy).2.2, normalize_front, front_init]
  · rw [hf]; norm_num
  · rw [hf]; norm_num

/-- Witness of C30 as amended: the cursor event at (400, 300). -/
theorem first_mouse_event_recomputes_front_witness :
    toFloat (400 : ℝ) = 400 ∧ toFloat (300 : ℝ) = 300 ∧
    (mouse_callback_float realMath initGlobals 400 300).cameraFront = ⟨0, 0, -1⟩ ∧
    (mouse_callback_float float32Math initGlobals 400 300).cameraFront.x < 0 :=
  have h := first_mouse_event_recomputes_front 400 300 toFloat_400 toFloat_300
  ⟨toFloat_400, toFloat_300, h.2.1, h.2.2.2.2⟩

end FinalProject
